import Mathlib

/-!
# SD/SDHC card driver of the AVR109 firmware uploader

A shallow embedding of `src/src/sd.c`, `src/include/spi.h`, `src/src/spi.c`,
`src/include/util.h`, the read path of `src/src/fatfs/diskio.c` and the ring buffer
of `src/src/serial_monitor.c`, followed by theorems about the embedded functions.

Conventions.
* C integers are natural numbers; a value stored in an 8-bit object is reduced
  modulo 256 at the store.
* The microcontroller is a record `Device`: the I/O registers the driver touches,
  the driver's static `sd_status`, and the serial bus.  The bus is a log `wire` of
  the byte exchanges made so far together with the stream `card` of bytes the card
  shifts out (`card n` answers the exchange number `n`).  Because the driver is
  deterministic, every card (also one that reacts to what it is sent) produces one
  such stream, so quantifying over `card` covers every card behaviour.
* A loop without a static bound takes a `fuel` argument and returns `none` when the
  fuel runs out; `some` is a run of the C code that returned.
* `sd_status.timed_out` is not `volatile` in sd.c.  The handler stores to the member
  in memory; a read by the foreground code is `read_timed_out`, which is served
  from memory or from the value the foreground code stored last, as the component
  `reread` of the device says.  Theorems that quantify over the device hold for
  every such build.
* The serial monitor is a record `Monitor`: the members of the static `monitor`,
  the register `UCSR1B`, and a log `stores` of the index pairs of every assignment
  to `monitor.buffer`.
-/

namespace SdCard

/-! ## util.h -/

def BITS_IN_BYTE : Nat := 8

def HIGH : Bool := true

def LOW : Bool := false

/-- Mask `_BV(bit)` of avr-libc (`avr/sfr_defs.h`): `1 << bit`. -/
def _BV (bit : Nat) : Nat := 1 <<< bit

/-- Macro `set_bit(byte, bit)`: `(byte) | _BV(bit)`. -/
def set_bit (byte bit : Nat) : Nat := byte ||| _BV bit

/-- Macro `clear_bit(byte, bit)`: `(byte) & ~_BV(bit)`.  The complement is taken on
the 16-bit `int` of the AVR, where `~x` has the bit pattern `0xFFFF ^ x`. -/
def clear_bit (byte bit : Nat) : Nat := byte &&& (0xFFFF ^^^ _BV bit)

/-- Macro `change_bit(byte, bit, value)`: `clear_bit(byte, bit) | (value << bit)`. -/
def change_bit (byte bit value : Nat) : Nat := clear_bit byte bit ||| (value <<< bit)

/-- Macro `get_bit(byte, bit)`: `((byte) >> (bit)) & 1`. -/
def get_bit (byte bit : Nat) : Nat := (byte >>> bit) &&& 1

/-! ## sd.h -/

def SD_BLOCK_SIZE : Nat := 512

/-- Enumeration `sd_error_t`, in the order of the header (`SD_ERROR_OK = 0`). -/
inductive sd_error_t where
  | SD_ERROR_OK
  | SD_ERROR_IDLE
  | SD_ERROR_ERASE_RESET
  | SD_ERROR_ILLEGAL_COMMAND
  | SD_ERROR_COMMAND_CRC
  | SD_ERROR_ERASE_SEQUENCE
  | SD_ERROR_ADDRESS_ERROR
  | SD_ERROR_PARAMETER
  | SD_ERROR_GENERIC
  | SD_ERROR_TIMEOUT
  | SD_ERROR_INVALID_VOLTAGE_RANGE
  | SD_ERROR_NO_RESPONSE
  deriving DecidableEq, Repr

open sd_error_t

/-! ## The device -/

/-- Bit numbers that the sources take from `avr/io.h` (avr-libc, chosen by the
target part).  They are a parameter of the embedding. -/
structure AvrBits where
  SPE : Nat
  MSTR : Nat
  DORD : Nat
  CPOL : Nat
  CPHA : Nat
  SPR0 : Nat
  SPR1 : Nat
  SPI2X : Nat
  WGM12 : Nat
  CS12 : Nat
  CS10 : Nat
  OCF1A : Nat
  OCIE1A : Nat

/-- Bit numbers of the ATmega64/ATmega128 data sheet, the parts that have the
registers `TIMSK`/`TIFR` and the SPI pins on `PORTB` 0..3 used by the sources. -/
def atmega128 : AvrBits :=
  { SPE := 6, MSTR := 4, DORD := 5, CPOL := 3, CPHA := 2, SPR0 := 0, SPR1 := 1,
    SPI2X := 0, WGM12 := 3, CS12 := 2, CS10 := 0, OCF1A := 4, OCIE1A := 4 }

/-- Static `sd_status` of sd.c. -/
structure sd_status_t where
  use_block_address : Bool
  timed_out : Bool
  deriving DecidableEq, Repr

/-- One byte exchange on the bus: the byte shifted out by the master, the byte
shifted in from the card, and the chip-select bit of `PORTB` at that moment. -/
structure Xfer where
  mosi : Nat
  miso : Nat
  cs : Nat
  deriving DecidableEq, Repr

/-- State of the microcontroller as far as the driver is concerned, with its
environment: `card n` is the byte the card shifts out during exchange number `n`
(counted from 0 over the whole run), `compare_match n` tells whether the TIMER1
compare-match A event falls into exchange number `n`.  `reread n` belongs to the
build of the program: it tells whether a read of `sd_status.timed_out` that the
foreground code makes after `n` exchanges is served from memory (see
`read_timed_out`). -/
structure Device where
  PORTB : Nat
  DDRB : Nat
  SPCR : Nat
  SPSR : Nat
  TIMSK : Nat
  TIFR : Nat
  TCCR1B : Nat
  OCR1A : Nat
  TCNT1 : Nat
  sd_status : sd_status_t
  wire : List Xfer
  card : Nat → Nat
  compare_match : Nat → Bool
  reread : Nat → Bool

/-! ## sd.c: constants -/

def CS_BIT : Nat := 0

def SD_CMD_ARG_SIZE : Nat := 4

def SD_CMD_BASE : Nat := 0x40

def SD_CMD0_INIT_CRC : Nat := 0x95 >>> 1

def SD_CMD8_INIT_CRC : Nat := 0x87 >>> 1

def SD_READ_START_TOKEN : Nat := 0xFE

def SD_HC_CHECK_ARG : Nat := 0x000001AA

def SD_RESPONSE_MAX_DELAY_BYTES : Nat := 10

def TIMEOUT_OCR : Nat := 15625

/-- Enumeration `sd_command_t`: a command is its index. -/
abbrev sd_command_t := Nat

def CMD0 : sd_command_t := 0

def CMD1 : sd_command_t := 1

def CMD8 : sd_command_t := 8

def CMD9 : sd_command_t := 9

def CMD10 : sd_command_t := 10

def CMD12 : sd_command_t := 12

def CMD16 : sd_command_t := 16

def CMD17 : sd_command_t := 17

def CMD18 : sd_command_t := 18

def CMD55 : sd_command_t := 55

def CMD58 : sd_command_t := 58

def ACMD23 : sd_command_t := 23

def ACMD41 : sd_command_t := 41

/-- Function `response_get_extra_size` (sd.c 48-56). -/
def response_get_extra_size (command : sd_command_t) : Nat :=
  if command = CMD8 ∨ command = CMD58 then 4 else 0

/-- Struct `sd_response_t`: one `uint32_t value`. -/
structure sd_response_t where
  value : Nat
  deriving DecidableEq, Repr

/-- Function `response_get_error` (sd.c 62-82); `response` is a `uint8_t`. -/
def response_get_error (response : Nat) : sd_error_t :=
  if response &&& 0x80 ≠ 0 then SD_ERROR_NO_RESPONSE
  else if response &&& 0x40 ≠ 0 then SD_ERROR_PARAMETER
  else if response &&& 0x20 ≠ 0 then SD_ERROR_ADDRESS_ERROR
  else if response &&& 0x10 ≠ 0 then SD_ERROR_ERASE_SEQUENCE
  else if response &&& 0x08 ≠ 0 then SD_ERROR_COMMAND_CRC
  else if response &&& 0x04 ≠ 0 then SD_ERROR_ILLEGAL_COMMAND
  else if response &&& 0x02 ≠ 0 then SD_ERROR_ERASE_RESET
  else if response &&& 0x01 ≠ 0 then SD_ERROR_IDLE
  else SD_ERROR_OK

/-- Function `error_is_benign` (sd.c 84-86). -/
def error_is_benign (error : sd_error_t) : Bool :=
  (error == SD_ERROR_IDLE) || (error == SD_ERROR_OK)

/-! ## The timer interrupt and the bus primitive -/

/-- Function `disable_timeout_timer` (sd.c 103-105). -/
def disable_timeout_timer (hw : AvrBits) (s : Device) : Device :=
  { s with TIMSK := clear_bit s.TIMSK hw.OCIE1A % 256 }

/-- Handler `ISR(TIMER1_COMPA_vect)` (sd.c 321-324). -/
def TIMER1_COMPA_vect (hw : AvrBits) (s : Device) : Device :=
  disable_timeout_timer hw { s with sd_status := { s.sd_status with timed_out := true } }

/-- Function `spi_master_transfer` (spi.h 39-43): `SPDR = byte`, wait for `SPIF`,
return `SPDR`.  The hardware side is the environment: exchange number
`s.wire.length` shifts `byte` out and `card _ % 256` in, and is appended to the
log; if the compare-match event falls into this exchange while the compare
interrupt is enabled in `TIMSK`, the handler runs before the busy-wait ends. -/
def spi_master_transfer (hw : AvrBits) (s : Device) (byte : Nat) : Device × Nat :=
  let n := s.wire.length
  let received := s.card n % 256
  let s := { s with wire := s.wire ++ [Xfer.mk (byte % 256) received (get_bit s.PORTB CS_BIT)] }
  let s := if s.compare_match n = true ∧ get_bit s.TIMSK hw.OCIE1A = 1
    then TIMER1_COMPA_vect hw s else s
  (s, received)

/-! ## spi.h, spi.c -/

def SPI_SLAVE : Nat := 0

def SPI_MASTER : Nat := 1

def SPI_MODE0 : Nat := 0b00

def SPI_MODE1 : Nat := 0b01

def SPI_MODE2 : Nat := 0b10

def SPI_MODE3 : Nat := 0b11

def SPI_MSBFIRST : Nat := 0

def SPI_LSBFIRST : Nat := 1

def SPI_CLOCK_DIV2 : Nat := 0b100

def SPI_CLOCK_DIV4 : Nat := 0b000

def SPI_CLOCK_DIV8 : Nat := 0b101

def SPI_CLOCK_DIV16 : Nat := 0b001

def SPI_CLOCK_DIV32 : Nat := 0b110

def SPI_CLOCK_DIV64 : Nat := 0b010

def SPI_CLOCK_DIV128 : Nat := 0b011

def SCK_BIT : Nat := 1

def MOSI_BIT : Nat := 2

def MISO_BIT : Nat := 3

/-- Function `spi_master_receive_byte` (spi.h 49-51). -/
def spi_master_receive_byte (hw : AvrBits) (s : Device) : Device × Nat :=
  spi_master_transfer hw s 0xFF

/-- Loop of `spi_master_receive_data` (spi.h 68-73) with `k` iterations left, so
that the loop variable is `i = length - k`.  `data` is the memory behind the
pointer, `none` for `NULLPTR`. -/
def spi_master_receive_data_loop (hw : AvrBits) (length : Nat) :
    Nat → Device → Option (List Nat) → Device × Option (List Nat)
  | 0, s, data => (s, data)
  | k + 1, s, data =>
    let i := length - (k + 1)
    let r := spi_master_receive_byte hw s
    spi_master_receive_data_loop hw length k r.1 (data.map (fun d => d.set i r.2))

/-- Function `spi_master_receive_data` (spi.h 65-74). -/
def spi_master_receive_data (hw : AvrBits) (s : Device) (data : Option (List Nat))
    (length : Nat) : Device × Option (List Nat) :=
  spi_master_receive_data_loop hw length length s data

/-- Loop of `spi_master_receive_data_little_endian` (spi.h 79-84) with `k`
iterations left (`i = length - k`): the byte goes to `data_bytes[length - i - 1]`. -/
def spi_master_receive_data_little_endian_loop (hw : AvrBits) (length : Nat) :
    Nat → Device → Option (List Nat) → Device × Option (List Nat)
  | 0, s, data => (s, data)
  | k + 1, s, data =>
    let i := length - (k + 1)
    let r := spi_master_receive_byte hw s
    spi_master_receive_data_little_endian_loop hw length k r.1
      (data.map (fun d => d.set (length - i - 1) r.2))

/-- Function `spi_master_receive_data_little_endian` (spi.h 76-85). -/
def spi_master_receive_data_little_endian (hw : AvrBits) (s : Device)
    (data : Option (List Nat)) (length : Nat) : Device × Option (List Nat) :=
  spi_master_receive_data_little_endian_loop hw length length s data

/-- Function `spi_disable` (spi.h 87-91). -/
def spi_disable (hw : AvrBits) (s : Device) : Device × Bool :=
  let spi_enabled := get_bit s.SPCR hw.SPE != 0
  ({ s with SPCR := clear_bit s.SPCR hw.SPE % 256 }, spi_enabled)

/-- Function `spi_restore` (spi.h 93-95). -/
def spi_restore (hw : AvrBits) (s : Device) (spi_enabled : Bool) : Device :=
  { s with SPCR := change_bit s.SPCR hw.SPE spi_enabled.toNat % 256 }

/-- Function `settings_master` (spi.c 13-24). -/
def settings_master (s : Device) : Device :=
  let s := { s with DDRB := set_bit s.DDRB MOSI_BIT % 256 }
  let s := { s with DDRB := set_bit s.DDRB SCK_BIT % 256 }
  let s := { s with PORTB := set_bit s.PORTB MOSI_BIT % 256 }
  let s := { s with PORTB := clear_bit s.PORTB SCK_BIT % 256 }
  let s := { s with DDRB := clear_bit s.DDRB MISO_BIT % 256 }
  { s with PORTB := set_bit s.PORTB MISO_BIT % 256 }

/-- Function `settings_slave` (spi.c 26-34). -/
def settings_slave (s : Device) : Device :=
  let s := { s with DDRB := clear_bit s.DDRB MOSI_BIT % 256 }
  let s := { s with DDRB := clear_bit s.DDRB SCK_BIT % 256 }
  let s := { s with DDRB := clear_bit s.DDRB CS_BIT % 256 }
  { s with DDRB := set_bit s.DDRB MISO_BIT % 256 }

/-- Function `spi_change_settings` (spi.c 36-56). -/
def spi_change_settings (hw : AvrBits) (s : Device)
    (master_slave_select mode bit_order clock_div : Nat) : Device :=
  let r := spi_disable hw s
  let s := r.1
  let spi_res := r.2
  let s := if master_slave_select = SPI_MASTER then settings_master s
    else if master_slave_select = SPI_SLAVE then settings_slave s else s
  let s := { s with SPCR := change_bit s.SPCR hw.MSTR master_slave_select % 256 }
  let s := { s with SPCR := change_bit s.SPCR hw.DORD bit_order % 256 }
  let s := { s with SPCR := change_bit s.SPCR hw.CPOL (get_bit mode 0) % 256 }
  let s := { s with SPCR := change_bit s.SPCR hw.CPHA (get_bit mode 1) % 256 }
  let s := { s with SPCR := change_bit s.SPCR hw.SPR0 (get_bit clock_div 0) % 256 }
  let s := { s with SPCR := change_bit s.SPCR hw.SPR1 (get_bit clock_div 1) % 256 }
  let s := { s with SPSR := change_bit s.SPSR hw.SPI2X (get_bit clock_div 2) % 256 }
  spi_restore hw s spi_res

/-! ## sd.c: timer, chip select -/

/-- Function `init_timeout_timer` (sd.c 88-91). -/
def init_timeout_timer (hw : AvrBits) (s : Device) : Device :=
  let s := { s with TCCR1B := ((1 <<< hw.WGM12) ||| (1 <<< hw.CS12) ||| (1 <<< hw.CS10)) % 256 }
  { s with OCR1A := TIMEOUT_OCR }

/-- Function `enable_timeout_timer` (sd.c 93-101).  `TIFR` keeps the value written. -/
def enable_timeout_timer (hw : AvrBits) (s : Device) : Device :=
  let s := { s with sd_status := { s.sd_status with timed_out := false } }
  let s := { s with TCNT1 := 0 }
  let s := { s with TIFR := set_bit s.TIFR hw.OCF1A % 256 }
  { s with TIMSK := set_bit s.TIMSK hw.OCIE1A % 256 }

/-- A read of `sd_status.timed_out` by the foreground code (sd.c 202 and 286).  The
member is a plain `bool` of a `static struct` (sd.c 43-46), not `volatile`, and
the only store the foreground code makes to it is `false`, in
`enable_timeout_timer`, which precedes both loops that read it.  The compiler may
therefore serve the read from that stored value instead of from memory, and then
the store of the handler is not seen: the read gives the member in memory when
`reread` holds for it and `false` otherwise. -/
def read_timed_out (s : Device) : Bool :=
  s.reread s.wire.length && s.sd_status.timed_out

/-- Function `sd_cs_select` (sd.c 109-113). -/
def sd_cs_select (s : Device) : Device × Bool :=
  let cs_res := get_bit s.PORTB CS_BIT != 0
  ({ s with PORTB := clear_bit s.PORTB CS_BIT % 256 }, cs_res)

/-- Function `sd_cs_restore` (sd.c 115-117). -/
def sd_cs_restore (s : Device) (cs_res : Bool) : Device :=
  { s with PORTB := change_bit s.PORTB CS_BIT cs_res.toNat % 256 }

/-- Function `set_default_response` (sd.c 119-123); `none` is `NULLPTR`. -/
def set_default_response (response : Option sd_response_t) : Option sd_response_t :=
  response.map (fun _ => sd_response_t.mk 0)

/-! ## sd.c: command and response -/

/-- Memory image of a `sd_response_t` as `(uint8_t*)` sees it: the four bytes of
`value`, least significant first (byte order of the AVR). -/
def sd_response_t.bytes (r : sd_response_t) : List Nat :=
  [r.value % 256, r.value / 2 ^ 8 % 256, r.value / 2 ^ 16 % 256, r.value / 2 ^ 24 % 256]

/-- The `sd_response_t` whose memory image is `m` (inverse of `bytes`). -/
def sd_response_t.of_bytes (m : List Nat) : sd_response_t :=
  sd_response_t.mk (m.getD 0 0 + m.getD 1 0 * 2 ^ 8 + m.getD 2 0 * 2 ^ 16 + m.getD 3 0 * 2 ^ 24)

/-- The `do ... while` loop of `sd_receive_response` (sd.c 129-137).  The result
`some (s, none)` is the `return SD_ERROR_NO_RESPONSE` inside the loop,
`some (s, some b)` leaves the loop with `response_start = b`; `none` is fuel
exhausted. -/
def sd_receive_response_loop (hw : AvrBits) :
    Nat → Nat → Device → Option (Device × Option Nat)
  | 0, _, _ => none
  | fuel + 1, attempt_count, s =>
    if attempt_count > SD_RESPONSE_MAX_DELAY_BYTES then some (s, none)
    else
      let r := spi_master_receive_byte hw s
      let response_start := r.2
      let attempt_count := (attempt_count + 1) % 256
      if response_start = 0xFF then sd_receive_response_loop hw fuel attempt_count r.1
      else some (r.1, some response_start)

/-- Function `sd_receive_response` (sd.c 125-154).  The loop is given
`SD_RESPONSE_MAX_DELAY_BYTES + 2` rounds of fuel, which it never uses up
(`sd_receive_response_loop_fuel`). -/
def sd_receive_response (hw : AvrBits) (s : Device) (response : Option sd_response_t)
    (response_extra_size : Nat) : Option (Device × sd_error_t × Option sd_response_t) :=
  match sd_receive_response_loop hw (SD_RESPONSE_MAX_DELAY_BYTES + 2) 0 s with
  | none => none
  | some (s, none) => some (s, SD_ERROR_NO_RESPONSE, set_default_response response)
  | some (s, some response_start) =>
    let err := response_get_error response_start
    if error_is_benign err = false then some (s, err, set_default_response response)
    else
      let response := response.map (fun _ => sd_response_t.mk 0)
      if response_extra_size > 0 then
        let r := spi_master_receive_data_little_endian hw s
          (response.map sd_response_t.bytes) response_extra_size
        some (r.1, err, r.2.map sd_response_t.of_bytes)
      else some (s, err, response)

/-- Loop of `sd_send_command_crc` (sd.c 158-161) with `i + 1` iterations left: the
loop variable runs `i`, `i - 1`, ..., `0`. -/
def sd_send_command_crc_loop (hw : AvrBits) (argument : Nat) : Nat → Device → Device
  | 0, s => s
  | i + 1, s =>
    let arg_byte := (argument >>> (i * BITS_IN_BYTE)) &&& 0xFF
    sd_send_command_crc_loop hw argument i (spi_master_transfer hw s arg_byte).1

/-- Function `sd_send_command_crc` (sd.c 156-163). -/
def sd_send_command_crc (hw : AvrBits) (s : Device) (command : sd_command_t)
    (argument crc : Nat) : Device :=
  let s := (spi_master_transfer hw s (SD_CMD_BASE ||| command)).1
  let s := sd_send_command_crc_loop hw argument SD_CMD_ARG_SIZE s
  (spi_master_transfer hw s ((crc <<< 1) ||| 1)).1

/-- Function `sd_send_command_crc_with_response` (sd.c 166-175). -/
def sd_send_command_crc_with_response (hw : AvrBits) (s : Device) (command : sd_command_t)
    (argument crc : Nat) (response : Option sd_response_t) :
    Option (Device × sd_error_t × Option sd_response_t) :=
  let c := sd_cs_select s
  let cs_res := c.2
  let s := sd_send_command_crc hw c.1 command argument crc
  match sd_receive_response hw s response (response_get_extra_size command) with
  | none => none
  | some (s, err, response) => some (sd_cs_restore s cs_res, err, response)

/-- Function `sd_send_command_with_response` (sd.c 177-179). -/
def sd_send_command_with_response (hw : AvrBits) (s : Device) (command : sd_command_t)
    (argument : Nat) (response : Option sd_response_t) :
    Option (Device × sd_error_t × Option sd_response_t) :=
  sd_send_command_crc_with_response hw s command argument 0x00 response

/-! ## sd.c: initialisation -/

/-- Value read through a pointer that is known not to be `NULLPTR`. -/
def deref (response : Option sd_response_t) : sd_response_t :=
  response.getD (sd_response_t.mk 0)

/-- Function `check_for_sdv2` (sd.c 181-197).  The argument `sdv2` is the value of
`*sdv2` at entry, the last component of the result its value at exit.  The local
`response` starts with indeterminate content, taken as 0 here; it is overwritten
on every path of `sd_receive_response` before it is read. -/
def check_for_sdv2 (hw : AvrBits) (s : Device) (sdv2 : Bool) :
    Option (Device × sd_error_t × Bool) :=
  match sd_send_command_crc_with_response hw s CMD8 SD_HC_CHECK_ARG SD_CMD8_INIT_CRC
      (some (sd_response_t.mk 0)) with
  | none => none
  | some (s, err, response) =>
    if err = SD_ERROR_IDLE then
      if (deref response).value &&& 0xFFF ≠ SD_HC_CHECK_ARG then
        some (s, SD_ERROR_INVALID_VOLTAGE_RANGE, sdv2)
      else some (s, SD_ERROR_OK, true)
    else if err = SD_ERROR_ILLEGAL_COMMAND ∨ err = SD_ERROR_NO_RESPONSE then
      some (s, SD_ERROR_OK, false)
    else some (s, err, sdv2)

/-- The `while` loop of `sd_wait_for_initialization` (sd.c 202-209); the loop test
is a read of the flag by the foreground code, `read_timed_out`.  `none` is fuel
exhausted. -/
def sd_wait_for_initialization_loop (hw : AvrBits) (hc : Bool) :
    Nat → Device → Option (Device × sd_error_t)
  | 0, _ => none
  | fuel + 1, s =>
    if read_timed_out s = true then some (s, SD_ERROR_TIMEOUT)
    else
      match sd_send_command_with_response hw s CMD55 0 none with
      | none => none
      | some (s, _, _) =>
        match sd_send_command_with_response hw s ACMD41 (hc.toNat <<< 30) none with
        | none => none
        | some (s, err, _) =>
          if err ≠ SD_ERROR_IDLE then some (s, err)
          else sd_wait_for_initialization_loop hw hc fuel s

/-- Function `sd_wait_for_initialization` (sd.c 199-212). -/
def sd_wait_for_initialization (hw : AvrBits) (fuel : Nat) (s : Device) (hc : Bool) :
    Option (Device × sd_error_t) :=
  sd_wait_for_initialization_loop hw hc fuel (enable_timeout_timer hw s)

/-- Steps of `sd_init` after the negotiation (sd.c 248-267). -/
def sd_init_finish (hw : AvrBits) (s : Device) (sdv2 : Bool) : Option (Device × sd_error_t) :=
  let r : Option (Device × Option sd_error_t) :=
    if sdv2 = true then
      match sd_send_command_with_response hw s CMD58 0 (some (sd_response_t.mk 0)) with
      | none => none
      | some (s, err, ocr) =>
        if err ≠ SD_ERROR_OK then some (s, some err)
        else some ({ s with sd_status := { s.sd_status with
          use_block_address := (deref ocr).value &&& (1 <<< 30) != 0 } }, none)
    else some (s, none)
  match r with
  | none => none
  | some (s, some err) => some (s, err)
  | some (s, none) =>
    let r : Option (Device × Option sd_error_t) :=
      if s.sd_status.use_block_address = false then
        match sd_send_command_with_response hw s CMD16 SD_BLOCK_SIZE none with
        | none => none
        | some (s, err, _) => if err ≠ SD_ERROR_OK then some (s, some err) else some (s, none)
      else some (s, none)
    match r with
    | none => none
    | some (s, some err) => some (s, err)
    | some (s, none) =>
      some (spi_change_settings hw s SPI_MASTER SPI_MODE0 SPI_MSBFIRST SPI_CLOCK_DIV2,
        SD_ERROR_OK)

/-- Function `sd_init` (sd.c 214-268). -/
def sd_init (hw : AvrBits) (fuel : Nat) (s : Device) : Option (Device × sd_error_t) :=
  let s := init_timeout_timer hw s
  let s := { s with DDRB := set_bit s.DDRB CS_BIT % 256 }
  let s := spi_restore hw s true
  let s := spi_change_settings hw s SPI_MASTER SPI_MODE0 SPI_MSBFIRST SPI_CLOCK_DIV64
  let s := sd_cs_restore s HIGH
  let s := (spi_master_receive_data hw s none 10).1
  let s := sd_cs_restore s LOW
  let s := (spi_master_receive_data hw s none 2).1
  let s := sd_cs_restore s HIGH
  match sd_send_command_crc_with_response hw s CMD0 0 SD_CMD0_INIT_CRC none with
  | none => none
  | some (s, err, _) =>
    if err ≠ SD_ERROR_IDLE then some (s, err)
    else
      let sdv2 := false
      match check_for_sdv2 hw s sdv2 with
      | none => none
      | some (s, err, sdv2) =>
        if err ≠ SD_ERROR_IDLE then some (s, err)
        else
          match sd_wait_for_initialization hw fuel s sdv2 with
          | none => none
          | some (s, err) =>
            if err ≠ SD_ERROR_OK then some (s, err)
            else sd_init_finish hw s sdv2

/-! ## sd.c: block read, status query -/

/-- The `do ... while` loop of `sd_read_block` (sd.c 283-290); the test of the flag
is a read by the foreground code, `read_timed_out`.  The result
`some (s, none)` is the exit through `sd_status.timed_out` (the caller restores
chip select and returns SD_ERROR_TIMEOUT), `some (s, some b)` leaves the loop with
`response_start = b`; `none` is fuel exhausted. -/
def sd_read_block_loop (hw : AvrBits) : Nat → Device → Option (Device × Option Nat)
  | 0, _ => none
  | fuel + 1, s =>
    let r := spi_master_receive_byte hw s
    let response_start := r.2
    if read_timed_out r.1 = true then some (r.1, none)
    else if response_start = 0xFF then sd_read_block_loop hw fuel r.1
    else some (r.1, some response_start)

/-- Function `sd_read_block` (sd.c 270-304).  `buffer` is the memory behind the
pointer and is returned as the call leaves it; `block_number` is a `uint32_t`, the
product is taken modulo 2^32. -/
def sd_read_block (hw : AvrBits) (fuel : Nat) (s : Device) (buffer : Option (List Nat))
    (block_number : Nat) : Option (Device × sd_error_t × Option (List Nat)) :=
  let c := sd_cs_select s
  let cs_res := c.2
  let s := c.1
  let block_address :=
    if s.sd_status.use_block_address = true then block_number
    else (block_number * SD_BLOCK_SIZE) % 2 ^ 32
  match sd_send_command_with_response hw s CMD17 block_address none with
  | none => none
  | some (s, err, _) =>
    if err ≠ SD_ERROR_OK then some (s, err, buffer)
    else
      let s := enable_timeout_timer hw s
      match sd_read_block_loop hw fuel s with
      | none => none
      | some (s, none) => some (sd_cs_restore s cs_res, SD_ERROR_TIMEOUT, buffer)
      | some (s, some response_start) =>
        if response_start ≠ SD_READ_START_TOKEN then
          some (sd_cs_restore s cs_res, SD_ERROR_GENERIC, buffer)
        else
          let r := spi_master_receive_data hw s buffer SD_BLOCK_SIZE
          let q := spi_master_receive_data hw r.1 none 2
          some (sd_cs_restore q.1 cs_res, SD_ERROR_OK, r.2)

/-- Function `sd_is_initialized` (sd.c 306-315).  The local `ocr` starts with
indeterminate content, taken as 0 here; `sd_receive_response` overwrites it. -/
def sd_is_initialized (hw : AvrBits) (s : Device) : Option (Device × Bool) :=
  match sd_send_command_with_response hw s CMD58 0 (some (sd_response_t.mk 0)) with
  | none => none
  | some (s, err, ocr) =>
    if err ≠ SD_ERROR_OK then some (s, false)
    else some (s, (deref ocr).value &&& (1 <<< 31) != 0)

/-- Function `sd_finish` (sd.c 317-319). -/
def sd_finish (hw : AvrBits) (s : Device) : Device :=
  (spi_disable hw s).1

/-! ## fatfs/diskio.c -/

/-- Modelled from the spec: the storage layer's "own status codes" (section 6).
The declaration of `DRESULT` (fatfs/diskio.h) is not among the sources; these are
the enumerators that diskio.c names. -/
inductive DRESULT where
  | RES_OK
  | RES_ERROR
  | RES_NOTRDY
  | RES_PARERR
  deriving DecidableEq, Repr

open DRESULT

/-- Function `sd_error_to_result` (diskio.c 24-33). -/
def sd_error_to_result (err : sd_error_t) : DRESULT :=
  match err with
  | SD_ERROR_OK => RES_OK
  | SD_ERROR_IDLE => RES_NOTRDY
  | _ => RES_ERROR

/-- Function `disk_read` (diskio.c 77-92).  `sector` is an `LBA_t`; it is converted
to the `uint32_t` parameter of `sd_read_block`. -/
def disk_read (hw : AvrBits) (fuel : Nat) (s : Device) (_pdrv : Nat)
    (buff : Option (List Nat)) (sector count : Nat) :
    Option (Device × DRESULT × Option (List Nat)) :=
  if count ≠ 1 then some (s, RES_PARERR, buff)
  else
    match sd_read_block hw fuel s buff (sector % 2 ^ 32) with
    | none => none
    | some (s, err, buff) => some (s, sd_error_to_result err, buff)

/-! ## serial_monitor.c -/

/-- Constants that serial_monitor.c takes from headers that are not among the
sources: `COLS` (`DISPLAY_VISIBLE_COLS`) and `DISPLAY_ROWS` of common.h, taken as
natural numbers, and the bit number `RXCIE1` of avr/io.h. -/
structure MonitorConsts where
  COLS : Nat
  DISPLAY_ROWS : Nat
  RXCIE1 : Nat

def ROWS : Nat := 16

/-- Macro `EMPTY_CHAR`: the character `' '`. -/
def EMPTY_CHAR : Nat := 32

/-- The static `monitor` of serial_monitor.c (33-40) with the register `UCSR1B`.
`buffer r c` is `monitor.buffer[r][c]`, a `char` as its code; `stores` logs the
index pair of every assignment to an element of `monitor.buffer`, oldest first. -/
structure Monitor where
  buffer : Nat → Nat → Nat
  buffer_start_row : Nat
  buffer_end_row : Nat
  col_to_add : Nat
  first_displayed_row : Nat
  used_rows : Nat
  UCSR1B : Nat
  stores : List (Nat × Nat)

/-- The assignment `monitor.buffer[row][col] = c`. -/
def buffer_store (m : Monitor) (row col c : Nat) : Monitor :=
  { m with
    buffer := fun r i => if r = row ∧ i = col then c else m.buffer r i,
    stores := m.stores ++ [(row, col)] }

/-- Function `enable_usart_rx_interrupt` (serial_monitor.c 15-17). -/
def enable_usart_rx_interrupt (k : MonitorConsts) (m : Monitor) : Monitor :=
  { m with UCSR1B := set_bit m.UCSR1B k.RXCIE1 % 256 }

/-- Function `disable_usart_rx_interrupt` (serial_monitor.c 19-21). -/
def disable_usart_rx_interrupt (k : MonitorConsts) (m : Monitor) : Monitor :=
  { m with UCSR1B := clear_bit m.UCSR1B k.RXCIE1 % 256 }

/-- Loop of `flush_row` (serial_monitor.c 43-45) at the value `i` of its `uint8_t`
counter: the comparison `i < COLS` is made on `int`, the increment wraps at 256.
`none` is fuel exhausted. -/
def flush_row_loop (k : MonitorConsts) (row : Nat) : Nat → Nat → Monitor → Option Monitor
  | 0, _, _ => none
  | fuel + 1, i, m =>
    if i < k.COLS then flush_row_loop k row fuel ((i + 1) % 256) (buffer_store m row i EMPTY_CHAR)
    else some m

/-- Function `flush_row` (serial_monitor.c 42-46). -/
def flush_row (k : MonitorConsts) (fuel : Nat) (m : Monitor) (row : Nat) : Option Monitor :=
  flush_row_loop k row fuel 0 m

/-- Loop of `flush_buffer` (serial_monitor.c 51-53) with `n` iterations left, so
that the loop variable is `i = ROWS - n`. -/
def flush_buffer_loop (k : MonitorConsts) (fuel : Nat) : Nat → Monitor → Option Monitor
  | 0, m => some m
  | n + 1, m =>
    match flush_row k fuel m (ROWS - (n + 1)) with
    | none => none
    | some m => flush_buffer_loop k fuel n m

/-- Function `flush_buffer` (serial_monitor.c 48-63). -/
def flush_buffer (k : MonitorConsts) (fuel : Nat) (m : Monitor) : Option Monitor :=
  let m := disable_usart_rx_interrupt k m
  match flush_buffer_loop k fuel ROWS m with
  | none => none
  | some m =>
    let m := { m with buffer_start_row := 0 }
    let m := { m with buffer_end_row := 0 }
    let m := { m with first_displayed_row := 0 }
    let m := { m with used_rows := 1 }
    let m := { m with col_to_add := 0 }
    some (enable_usart_rx_interrupt k m)

/-- Function `next_row` (serial_monitor.c 65-67). -/
def next_row (row : Nat) : Nat := (row + 1) % ROWS

/-- Function `prev_row` (serial_monitor.c 69-71). -/
def prev_row (row : Nat) : Nat := (row + ROWS - 1) % ROWS

/-- Function `add_rows` (serial_monitor.c 73-75). -/
def add_rows (row addend : Nat) : Nat := (row + addend) % ROWS

/-- Function `sub_rows` (serial_monitor.c 77-80). -/
def sub_rows (row subtrahend : Nat) : Nat :=
  let modulus_subtrahend := subtrahend % ROWS
  (row + ROWS - modulus_subtrahend) % ROWS

/-- Function `increment_used_row_counter` (serial_monitor.c 82-86). -/
def increment_used_row_counter (m : Monitor) : Monitor :=
  if m.used_rows < ROWS then { m with used_rows := (m.used_rows + 1) % 256 } else m

/-- Function `display_can_scroll` (serial_monitor.c 88-90). -/
def display_can_scroll (k : MonitorConsts) (m : Monitor) : Bool :=
  decide (m.used_rows > k.DISPLAY_ROWS)

/-- Function `buffer_full` (serial_monitor.c 92-94). -/
def buffer_full (m : Monitor) : Bool :=
  m.buffer_start_row == next_row m.buffer_end_row

/-- Function `get_first_displayed_row` (serial_monitor.c 96-98). -/
def get_first_displayed_row (m : Monitor) : Nat := m.first_displayed_row

/-- Function `get_last_displayed_row` (serial_monitor.c 100-102).  The argument
`DISPLAY_ROWS - 1` is converted to the `uint8_t` parameter of `add_rows`: its value
modulo 256, which is `(DISPLAY_ROWS + 255) % 256`. -/
def get_last_displayed_row (k : MonitorConsts) (m : Monitor) : Nat :=
  add_rows (get_first_displayed_row m) ((k.DISPLAY_ROWS + 255) % 256)

/-- Function `buffer_start_is_displayed_on_first_row` (serial_monitor.c 106-108). -/
def buffer_start_is_displayed_on_first_row (m : Monitor) : Bool :=
  m.buffer_start_row == get_first_displayed_row m

/-- Function `buffer_end_is_displayed_on_last_row` (serial_monitor.c 110-112). -/
def buffer_end_is_displayed_on_last_row (k : MonitorConsts) (m : Monitor) : Bool :=
  m.buffer_end_row == get_last_displayed_row k m

/-- Function `shift_display_down` (serial_monitor.c 114-116). -/
def shift_display_down (m : Monitor) : Monitor :=
  { m with first_displayed_row := next_row m.first_displayed_row }

/-- Function `shift_display_up` (serial_monitor.c 118-120). -/
def shift_display_up (m : Monitor) : Monitor :=
  { m with first_displayed_row := prev_row m.first_displayed_row }

/-- Function `move_buffer_start` (serial_monitor.c 122-124). -/
def move_buffer_start (m : Monitor) : Monitor :=
  { m with buffer_start_row := next_row m.buffer_start_row }

/-- Function `move_buffer_end` (serial_monitor.c 126-128). -/
def move_buffer_end (m : Monitor) : Monitor :=
  { m with buffer_end_row := next_row m.buffer_end_row }

/-- The `if (buffer_full())` statement of `start_new_buffer_line`
(serial_monitor.c 131-140). -/
def make_room (k : MonitorConsts) (fuel : Nat) (m : Monitor) : Option Monitor :=
  if buffer_full m = true then
    let m := if buffer_start_is_displayed_on_first_row m = true then shift_display_down m
      else m
    match flush_row k fuel m m.buffer_start_row with
    | none => none
    | some m => some (move_buffer_start m)
  else some m

/-- Function `start_new_buffer_line` (serial_monitor.c 130-151). -/
def start_new_buffer_line (k : MonitorConsts) (fuel : Nat) (m : Monitor) : Option Monitor :=
  match make_room k fuel m with
  | none => none
  | some m =>
    let m := if buffer_end_is_displayed_on_last_row k m = true then shift_display_down m
      else m
    let m := move_buffer_end m
    let m := { m with col_to_add := 0 }
    some (increment_used_row_counter m)

/-- Function `add_char_to_buffer` (serial_monitor.c 153-169); `c` is the code of
the character, `'\r'` is 13 and `'\n'` is 10.  `COLS` is converted to `uint8_t`
when it is stored in `col_to_add`. -/
def add_char_to_buffer (k : MonitorConsts) (fuel : Nat) (m : Monitor) (c : Nat) :
    Option Monitor :=
  if c = 13 then some m
  else
    match (if m.col_to_add = k.COLS then start_new_buffer_line k fuel m else some m) with
    | none => none
    | some m =>
      if c = 10 then some { m with col_to_add := k.COLS % 256 }
      else
        let m := buffer_store m m.buffer_end_row m.col_to_add c
        some { m with col_to_add := (m.col_to_add + 1) % 256 }

/-- Function `scroll_down` (serial_monitor.c 179-185). -/
def scroll_down (k : MonitorConsts) (m : Monitor) : Monitor :=
  let m := disable_usart_rx_interrupt k m
  let m := if (!buffer_end_is_displayed_on_last_row k m && display_can_scroll k m) = true
    then shift_display_down m else m
  enable_usart_rx_interrupt k m

/-- Function `scroll_up` (serial_monitor.c 187-193). -/
def scroll_up (k : MonitorConsts) (m : Monitor) : Monitor :=
  let m := disable_usart_rx_interrupt k m
  let m := if (!buffer_start_is_displayed_on_first_row m && display_can_scroll k m) = true
    then shift_display_up m else m
  enable_usart_rx_interrupt k m

/-- Function `jump_display_to_buffer_end` (serial_monitor.c 195-199); the argument
`DISPLAY_ROWS - 1` is converted to `uint8_t` as in `get_last_displayed_row`. -/
def jump_display_to_buffer_end (k : MonitorConsts) (m : Monitor) : Monitor :=
  let m := disable_usart_rx_interrupt k m
  let m := { m with
    first_displayed_row := sub_rows m.buffer_end_row ((k.DISPLAY_ROWS + 255) % 256) }
  enable_usart_rx_interrupt k m

/-! ## Specification-side definitions -/

/-- The error named by the spec for each bit of the status byte (section 4.2):
bit7 NoResponse, bit6 Parameter, bit5 AddressError, bit4 EraseSequence,
bit3 CommandCrc, bit2 IllegalCommand, bit1 EraseReset, bit0 Idle. -/
def status_bit_error : Nat → sd_error_t
  | 7 => SD_ERROR_NO_RESPONSE
  | 6 => SD_ERROR_PARAMETER
  | 5 => SD_ERROR_ADDRESS_ERROR
  | 4 => SD_ERROR_ERASE_SEQUENCE
  | 3 => SD_ERROR_COMMAND_CRC
  | 2 => SD_ERROR_ILLEGAL_COMMAND
  | 1 => SD_ERROR_ERASE_RESET
  | _ => SD_ERROR_IDLE

/-- A device with cleared registers and an idle bus whose card shifts out the bytes
of `l` and all-ones afterwards; no timer event; every read of the flag is served
from memory. -/
def test_device (l : List Nat) : Device :=
  { PORTB := 0, DDRB := 0, SPCR := 0, SPSR := 0, TIMSK := 0, TIFR := 0, TCCR1B := 0,
    OCR1A := 0, TCNT1 := 0, sd_status := sd_status_t.mk false false, wire := [],
    card := fun n => l.getD n 0xFF, compare_match := fun _ => false,
    reread := fun _ => true }

/-- The device `s` in a build that never reads the flag from memory again after the
store in `enable_timeout_timer` (the loop test kept in a register). -/
def kept_in_register (s : Device) : Device :=
  { s with reread := fun _ => false }

/-- The device after `n` calls of `spi_master_receive_byte` whose results are not
kept. -/
def clock_bytes (hw : AvrBits) : Nat → Device → Device
  | 0, s => s
  | n + 1, s => clock_bytes hw n (spi_master_receive_byte hw s).1

/-- Value of the response after the four payload bytes `b0 b1 b2 b3` (in the order
received) have been stored. -/
def payload_value (b0 b1 b2 b3 : Nat) : Nat := b0 * 2 ^ 24 + b1 * 2 ^ 16 + b2 * 2 ^ 8 + b3

/-- The device after one command exchange in which `n` bytes were clocked in after
the six frame bytes. -/
def after_command (hw : AvrBits) (s : Device) (c : sd_command_t) (a k n : Nat) : Device :=
  sd_cs_restore (clock_bytes hw n (sd_send_command_crc hw (sd_cs_select s).1 c a k))
    (sd_cs_select s).2

/-- The device when `sd_init` is about to send CMD0: timer and bus set up, twelve
bytes clocked (sd.c 215-229). -/
def sd_init_power_on (hw : AvrBits) (s : Device) : Device :=
  let s := init_timeout_timer hw s
  let s := { s with DDRB := set_bit s.DDRB CS_BIT % 256 }
  let s := spi_restore hw s true
  let s := spi_change_settings hw s SPI_MASTER SPI_MODE0 SPI_MSBFIRST SPI_CLOCK_DIV64
  let s := sd_cs_restore s HIGH
  let s := (spi_master_receive_data hw s none 10).1
  let s := sd_cs_restore s LOW
  let s := (spi_master_receive_data hw s none 2).1
  sd_cs_restore s HIGH

/-- A card stream for `sd_init` on a cleared device: fill bytes during the power-on
clocking and the CMD0 frame, one delay byte and the status `r0`; fill bytes during
the CMD8 frame, one delay byte, then the bytes `rest`. -/
def probe_stream (r0 : Nat) (rest : List Nat) : List Nat :=
  List.replicate 12 0xFF ++ List.replicate 6 0xFF ++ [0xFF, r0]
    ++ List.replicate 6 0xFF ++ [0xFF] ++ rest

/-- Answers of a version-1 card to `sd_init` on a cleared device: CMD0 Idle (0x01),
CMD8 IllegalCommand (0x05), then, should they be sent, CMD55 Idle, ACMD41 Ok and
CMD16 Ok, each after six fill bytes for the frame and one delay byte. -/
def version1_stream : List Nat :=
  probe_stream 0x01 ([0x05] ++ List.replicate 6 0xFF ++ [0xFF, 0x01]
    ++ List.replicate 6 0xFF ++ [0xFF, 0x00] ++ List.replicate 6 0xFF ++ [0xFF, 0x00])

/-- Answers of a version-2, high-capacity card to `sd_init` on a cleared device:
CMD0 Idle, CMD8 Idle with the echo 00 00 01 AA, then, should they be sent, CMD55
Idle, ACMD41 Ok and CMD58 Ok with the register C0 FF 80 00 (bits 31 and 30 set),
each after six fill bytes for the frame and one delay byte. -/
def version2_stream : List Nat :=
  probe_stream 0x01 ([0x01, 0x00, 0x00, 0x01, 0xAA] ++ List.replicate 6 0xFF ++ [0xFF, 0x01]
    ++ List.replicate 6 0xFF ++ [0xFF, 0x00]
    ++ List.replicate 6 0xFF ++ [0xFF, 0x00, 0xC0, 0xFF, 0x80, 0x00])

/-- A cleared device like `test_device`, with the chip-select bit of `PORTB` at
`cs` and the compare-match event in the exchanges listed in `events`. -/
def test_device_with (l : List Nat) (cs : Nat) (events : List Nat) : Device :=
  { test_device l with PORTB := cs, compare_match := fun n => decide (n ∈ events) }

/-- The six bytes that `sd_send_command_crc` shifts out, as stored in the 8-bit
data register. -/
def frame_bytes (c : sd_command_t) (a k : Nat) : List Nat :=
  [(SD_CMD_BASE ||| c) % 256, ((a >>> 24) &&& 0xFF) % 256, ((a >>> 16) &&& 0xFF) % 256,
   ((a >>> 8) &&& 0xFF) % 256, (a &&& 0xFF) % 256, ((k <<< 1) ||| 1) % 256]

/-- The address `sd_read_block` computes for block `n` in device state `s`
(sd.c 273). -/
def read_address (s : Device) (n : Nat) : Nat :=
  if s.sd_status.use_block_address = true then n else (n * SD_BLOCK_SIZE) % 2 ^ 32

/-- The device when `sd_read_block` starts to wait for the start token: CMD17 was
answered at offset `j` after its frame and the timeout timer has been armed. -/
def read_armed (hw : AvrBits) (s : Device) (n j : Nat) : Device :=
  enable_timeout_timer hw
    (after_command hw (sd_cs_select s).1 CMD17 (read_address s n) 0 (j + 1))

/-- One step of the CRC-7 named by the SD protocol (generator x^7 + x^3 + 1): the
7-bit register is shifted left by one and the generator 0x09 is added when the bit
shifted out differs from the input bit. -/
def crc7_bit (crc : Nat) (bit : Bool) : Nat :=
  let shifted := (crc <<< 1) % 128
  if crc.testBit 6 != bit then shifted ^^^ 0x09 else shifted

/-- CRC-7 of one byte, most significant bit first. -/
def crc7_byte (crc byte : Nat) : Nat :=
  [7, 6, 5, 4, 3, 2, 1, 0].foldl (fun c i => crc7_bit c (byte.testBit i)) crc

/-- CRC-7 of a byte string with initial value 0. -/
def crc7 (bytes : List Nat) : Nat :=
  bytes.foldl crc7_byte 0

/-- The device after the register set-up of `sd_init`, before the first
`sd_cs_restore` (sd.c 215-221). -/
def sd_init_setup (hw : AvrBits) (s : Device) : Device :=
  let s := init_timeout_timer hw s
  let s := { s with DDRB := set_bit s.DDRB CS_BIT % 256 }
  let s := spi_restore hw s true
  spi_change_settings hw s SPI_MASTER SPI_MODE0 SPI_MSBFIRST SPI_CLOCK_DIV64

/-- One iteration of the negotiation loop as the spec words it: the
application-command prefix CMD55 with argument 0, then ACMD41 with argument
`hc * 2^30`; the result is that of ACMD41. -/
def negotiation_round (hw : AvrBits) (hc : Bool) (s : Device) : Option (Device × sd_error_t) :=
  match sd_send_command_with_response hw s CMD55 0 none with
  | none => none
  | some (s1, _, _) =>
    match sd_send_command_with_response hw s1 ACMD41 (hc.toNat * 2 ^ 30) none with
    | none => none
    | some (s2, err, _) => some (s2, err)

/-- Relation between the device `s` at the start and `s1` at the end of a stretch
of code that does not write the timeout flag itself: the flag in `s1` is the flag
in `s`, unless a compare-match event fell into one of the exchanges of the stretch,
in which case the flag may have become true. -/
def flag_kept (s s1 : Device) : Prop :=
  s1.compare_match = s.compare_match ∧ s.wire.length ≤ s1.wire.length ∧
  (s1.sd_status.timed_out = s.sd_status.timed_out ∨
    (s1.sd_status.timed_out = true ∧
      ∃ k, s.wire.length ≤ k ∧ k < s1.wire.length ∧ s.compare_match k = true))

/-- The operations on the serial monitor that C29 lists. -/
inductive MonitorOp where
  | add_char (c : Nat)
  | up
  | down
  | jump
  | flush

/-- One operation of the serial monitor. -/
def monitor_step (k : MonitorConsts) (fuel : Nat) (m : Monitor) : MonitorOp → Option Monitor
  | MonitorOp.add_char c => add_char_to_buffer k fuel m c
  | MonitorOp.up => some (scroll_up k m)
  | MonitorOp.down => some (scroll_down k m)
  | MonitorOp.jump => some (jump_display_to_buffer_end k m)
  | MonitorOp.flush => flush_buffer k fuel m

/-- A finite sequence of operations, from the left. -/
def monitor_steps (k : MonitorConsts) (fuel : Nat) : List MonitorOp → Monitor → Option Monitor
  | [], m => some m
  | op :: ops, m =>
    match monitor_step k fuel m op with
    | none => none
    | some m => monitor_steps k fuel ops m

/-- The state "produced by `flush_buffer` and after" the operations `ops`. -/
def monitor_run (k : MonitorConsts) (fuel : Nat) (m : Monitor) (ops : List MonitorOp) :
    Option Monitor :=
  match flush_buffer k fuel m with
  | none => none
  | some m => monitor_steps k fuel ops m

/-- The invariant of C29 on the five `uint8_t` members of `monitor`. -/
def monitor_inv (k : MonitorConsts) (m : Monitor) : Prop :=
  m.buffer_start_row < 16 ∧ m.buffer_end_row < 16 ∧ m.first_displayed_row < 16 ∧
  m.col_to_add ≤ k.COLS ∧ 1 ≤ m.used_rows ∧ m.used_rows ≤ 16

/-- Every assignment to `monitor.buffer` made between `m` and `m1` is inside the
16 x COLS array. -/
def stores_inside (k : MonitorConsts) (m m1 : Monitor) : Prop :=
  ∃ x : List (Nat × Nat), m1.stores = m.stores ++ x ∧ ∀ w, w ∈ x → w.1 < 16 ∧ w.2 < k.COLS

/-- A monitor with every member zero, for closed examples. -/
def monitor_zero : Monitor :=
  { buffer := fun _ _ => 0, buffer_start_row := 0, buffer_end_row := 0, col_to_add := 0,
    first_displayed_row := 0, used_rows := 0, UCSR1B := 0, stores := [] }

/-! ## The status byte, by enumeration -/

set_option maxRecDepth 100000 in
/-- The decoder on all 256 status bytes, by enumeration. -/
theorem response_get_error_table : ∀ r, r < 256 → ∀ i, i < 8 → r.testBit i = true →
    (∀ j, j < 8 → i < j → r.testBit j = false) →
    response_get_error r = status_bit_error i := by
  decide

set_option maxRecDepth 100000 in
/-- The benign status bytes, by enumeration. -/
theorem error_is_benign_table : ∀ r, r < 256 →
    ((error_is_benign (response_get_error r) = true ↔ r = 0x00 ∨ r = 0x01) ∧
     (error_is_benign (response_get_error r) = true ↔
      response_get_error r = SD_ERROR_OK ∨ response_get_error r = SD_ERROR_IDLE)) := by
  decide

/-! ## Effect of one byte exchange -/

@[simp] theorem spi_master_transfer_snd (hw : AvrBits) (s : Device) (b : Nat) :
    (spi_master_transfer hw s b).2 = s.card s.wire.length % 256 := rfl

@[simp] theorem spi_master_transfer_wire (hw : AvrBits) (s : Device) (b : Nat) :
    (spi_master_transfer hw s b).1.wire
      = s.wire ++ [Xfer.mk (b % 256) (s.card s.wire.length % 256) (get_bit s.PORTB CS_BIT)] := by
  unfold spi_master_transfer
  dsimp only
  split <;> rfl

@[simp] theorem spi_master_transfer_card (hw : AvrBits) (s : Device) (b : Nat) :
    (spi_master_transfer hw s b).1.card = s.card := by
  unfold spi_master_transfer
  dsimp only
  split <;> rfl

@[simp] theorem spi_master_transfer_compare_match (hw : AvrBits) (s : Device) (b : Nat) :
    (spi_master_transfer hw s b).1.compare_match = s.compare_match := by
  unfold spi_master_transfer
  dsimp only
  split <;> rfl

@[simp] theorem spi_master_transfer_PORTB (hw : AvrBits) (s : Device) (b : Nat) :
    (spi_master_transfer hw s b).1.PORTB = s.PORTB := by
  unfold spi_master_transfer
  dsimp only
  split <;> rfl

@[simp] theorem spi_master_transfer_use_block_address (hw : AvrBits) (s : Device) (b : Nat) :
    (spi_master_transfer hw s b).1.sd_status.use_block_address
      = s.sd_status.use_block_address := by
  unfold spi_master_transfer
  dsimp only
  split <;> rfl

@[simp] theorem spi_master_receive_byte_snd (hw : AvrBits) (s : Device) :
    (spi_master_receive_byte hw s).2 = s.card s.wire.length % 256 := rfl

@[simp] theorem spi_master_receive_byte_wire (hw : AvrBits) (s : Device) :
    (spi_master_receive_byte hw s).1.wire
      = s.wire ++ [Xfer.mk 0xFF (s.card s.wire.length % 256) (get_bit s.PORTB CS_BIT)] :=
  spi_master_transfer_wire hw s 0xFF

@[simp] theorem spi_master_receive_byte_card (hw : AvrBits) (s : Device) :
    (spi_master_receive_byte hw s).1.card = s.card :=
  spi_master_transfer_card hw s 0xFF

@[simp] theorem spi_master_receive_byte_compare_match (hw : AvrBits) (s : Device) :
    (spi_master_receive_byte hw s).1.compare_match = s.compare_match :=
  spi_master_transfer_compare_match hw s 0xFF

@[simp] theorem spi_master_receive_byte_PORTB (hw : AvrBits) (s : Device) :
    (spi_master_receive_byte hw s).1.PORTB = s.PORTB :=
  spi_master_transfer_PORTB hw s 0xFF

@[simp] theorem spi_master_receive_byte_use_block_address (hw : AvrBits) (s : Device) :
    (spi_master_receive_byte hw s).1.sd_status.use_block_address
      = s.sd_status.use_block_address :=
  spi_master_transfer_use_block_address hw s 0xFF

/-! ## Clocking bytes in -/

@[simp] theorem clock_bytes_zero (hw : AvrBits) (s : Device) : clock_bytes hw 0 s = s := rfl

theorem clock_bytes_succ (hw : AvrBits) (n : Nat) (s : Device) :
    clock_bytes hw (n + 1) s = clock_bytes hw n (spi_master_receive_byte hw s).1 := rfl

theorem clock_bytes_add (hw : AvrBits) (m n : Nat) (s : Device) :
    clock_bytes hw (m + n) s = clock_bytes hw n (clock_bytes hw m s) := by
  induction m generalizing s with
  | zero => simp
  | succ m ih => rw [Nat.add_right_comm, clock_bytes_succ, ih, clock_bytes_succ]

@[simp] theorem clock_bytes_wire_length (hw : AvrBits) (n : Nat) (s : Device) :
    (clock_bytes hw n s).wire.length = s.wire.length + n := by
  induction n generalizing s with
  | zero => simp
  | succ n ih => rw [clock_bytes_succ, ih]; simp; omega

@[simp] theorem clock_bytes_card (hw : AvrBits) (n : Nat) (s : Device) :
    (clock_bytes hw n s).card = s.card := by
  induction n generalizing s with
  | zero => simp
  | succ n ih => rw [clock_bytes_succ, ih]; simp

@[simp] theorem clock_bytes_compare_match (hw : AvrBits) (n : Nat) (s : Device) :
    (clock_bytes hw n s).compare_match = s.compare_match := by
  induction n generalizing s with
  | zero => simp
  | succ n ih => rw [clock_bytes_succ, ih]; simp

@[simp] theorem clock_bytes_PORTB (hw : AvrBits) (n : Nat) (s : Device) :
    (clock_bytes hw n s).PORTB = s.PORTB := by
  induction n generalizing s with
  | zero => simp
  | succ n ih => rw [clock_bytes_succ, ih]; simp

@[simp] theorem clock_bytes_use_block_address (hw : AvrBits) (n : Nat) (s : Device) :
    (clock_bytes hw n s).sd_status.use_block_address = s.sd_status.use_block_address := by
  induction n generalizing s with
  | zero => simp
  | succ n ih => rw [clock_bytes_succ, ih]; simp

/-- Receiving into `NULLPTR` only clocks the bus. -/
theorem spi_master_receive_data_loop_null (hw : AvrBits) (len k : Nat) (s : Device) :
    spi_master_receive_data_loop hw len k s none = (clock_bytes hw k s, none) := by
  induction k generalizing s with
  | zero => rfl
  | succ k ih => simp [spi_master_receive_data_loop, ih, clock_bytes_succ]

theorem spi_master_receive_data_null (hw : AvrBits) (s : Device) (len : Nat) :
    spi_master_receive_data hw s none len = (clock_bytes hw len s, none) :=
  spi_master_receive_data_loop_null hw len len s

/-! ## The response poll -/

/-- While fill bytes arrive and the attempt counter stays within the limit, the
poll loop keeps reading. -/
theorem sd_receive_response_loop_fill (hw : AvrBits) (n fuel a : Nat) (s : Device)
    (hfill : ∀ i, i < n → s.card (s.wire.length + i) % 256 = 0xFF)
    (ha : a + n ≤ SD_RESPONSE_MAX_DELAY_BYTES + 1) :
    sd_receive_response_loop hw (fuel + n) a s
      = sd_receive_response_loop hw fuel (a + n) (clock_bytes hw n s) := by
  induction n generalizing a s with
  | zero => simp
  | succ n ih =>
    have h0 : s.card s.wire.length % 256 = 0xFF := by simpa using hfill 0 (Nat.succ_pos n)
    have hle : ¬ a > SD_RESPONSE_MAX_DELAY_BYTES := by
      simp only [SD_RESPONSE_MAX_DELAY_BYTES] at ha ⊢; omega
    have hmod : (a + 1) % 256 = a + 1 := by
      simp only [SD_RESPONSE_MAX_DELAY_BYTES] at ha; omega
    rw [← Nat.add_assoc, sd_receive_response_loop]
    simp only [hle, if_false, spi_master_receive_byte_snd, h0, if_true, hmod]
    rw [ih, clock_bytes_succ]
    · congr 1; omega
    · intro i hi
      have := hfill (i + 1) (Nat.succ_lt_succ hi)
      simpa [Nat.add_assoc, Nat.add_comm 1 i] using this
    · omega

/-- A byte other than 0xFF ends the poll loop. -/
theorem sd_receive_response_loop_stop (hw : AvrBits) (fuel a : Nat) (s : Device)
    (ha : a ≤ SD_RESPONSE_MAX_DELAY_BYTES) (hst : s.card s.wire.length % 256 ≠ 0xFF) :
    sd_receive_response_loop hw (fuel + 1) a s
      = some (clock_bytes hw 1 s, some (s.card s.wire.length % 256)) := by
  have hle : ¬ a > SD_RESPONSE_MAX_DELAY_BYTES := by omega
  rw [sd_receive_response_loop]
  simp only [hle, if_false, spi_master_receive_byte_snd, hst, clock_bytes_succ,
    clock_bytes_zero]

/-- Once the attempt counter exceeds the limit the poll loop gives up. -/
theorem sd_receive_response_loop_limit (hw : AvrBits) (fuel a : Nat) (s : Device)
    (ha : a > SD_RESPONSE_MAX_DELAY_BYTES) :
    sd_receive_response_loop hw (fuel + 1) a s = some (s, none) := by
  rw [sd_receive_response_loop]
  simp only [ha, if_true]

/-- Poll outcome when the first byte other than 0xFF is at offset `j ≤ 10`, with
any amount `n` of additional fuel. -/
theorem sd_receive_response_loop_found_fuel (hw : AvrBits) (n j : Nat) (s : Device)
    (hj : j ≤ SD_RESPONSE_MAX_DELAY_BYTES)
    (hfill : ∀ i, i < j → s.card (s.wire.length + i) % 256 = 0xFF)
    (hst : s.card (s.wire.length + j) % 256 ≠ 0xFF) :
    sd_receive_response_loop hw (SD_RESPONSE_MAX_DELAY_BYTES + 2 + n) 0 s
      = some (clock_bytes hw (j + 1) s, some (s.card (s.wire.length + j) % 256)) := by
  have e : SD_RESPONSE_MAX_DELAY_BYTES + 2 + n
      = (SD_RESPONSE_MAX_DELAY_BYTES - j + 1 + n) + 1 + j := by
    omega
  rw [e, sd_receive_response_loop_fill hw j _ 0 s hfill (by omega),
    sd_receive_response_loop_stop hw _ _ _ (by omega) (by simpa using hst)]
  simp [clock_bytes_add]

/-- Poll outcome when the first eleven bytes are all 0xFF, with any amount `n` of
additional fuel. -/
theorem sd_receive_response_loop_silent_fuel (hw : AvrBits) (n : Nat) (s : Device)
    (hfill : ∀ i, i < SD_RESPONSE_MAX_DELAY_BYTES + 1 →
      s.card (s.wire.length + i) % 256 = 0xFF) :
    sd_receive_response_loop hw (SD_RESPONSE_MAX_DELAY_BYTES + 2 + n) 0 s
      = some (clock_bytes hw (SD_RESPONSE_MAX_DELAY_BYTES + 1) s, none) := by
  have e : SD_RESPONSE_MAX_DELAY_BYTES + 2 + n
      = n + 1 + (SD_RESPONSE_MAX_DELAY_BYTES + 1) := by
    omega
  rw [e, sd_receive_response_loop_fill hw _ _ 0 s hfill (by omega),
    sd_receive_response_loop_limit hw _ _ _ (by omega)]

/-- Poll outcome when the first byte other than 0xFF is at offset `j ≤ 10`. -/
theorem sd_receive_response_loop_found (hw : AvrBits) (j : Nat) (s : Device)
    (hj : j ≤ SD_RESPONSE_MAX_DELAY_BYTES)
    (hfill : ∀ i, i < j → s.card (s.wire.length + i) % 256 = 0xFF)
    (hst : s.card (s.wire.length + j) % 256 ≠ 0xFF) :
    sd_receive_response_loop hw (SD_RESPONSE_MAX_DELAY_BYTES + 2) 0 s
      = some (clock_bytes hw (j + 1) s, some (s.card (s.wire.length + j) % 256)) :=
  sd_receive_response_loop_found_fuel hw 0 j s hj hfill hst

/-- Poll outcome when the first eleven bytes are all 0xFF. -/
theorem sd_receive_response_loop_silent (hw : AvrBits) (s : Device)
    (hfill : ∀ i, i < SD_RESPONSE_MAX_DELAY_BYTES + 1 →
      s.card (s.wire.length + i) % 256 = 0xFF) :
    sd_receive_response_loop hw (SD_RESPONSE_MAX_DELAY_BYTES + 2) 0 s
      = some (clock_bytes hw (SD_RESPONSE_MAX_DELAY_BYTES + 1) s, none) :=
  sd_receive_response_loop_silent_fuel hw 0 s hfill

/-- Every stream either has a first byte other than 0xFF within the first `n`
bytes or starts with `n` bytes 0xFF. -/
theorem first_status_or_silent (f : Nat → Nat) (n : Nat) :
    (∃ j, j < n ∧ (∀ i, i < j → f i = 0xFF) ∧ f j ≠ 0xFF) ∨ (∀ i, i < n → f i = 0xFF) := by
  induction n with
  | zero => right; intro i hi; omega
  | succ n ih =>
    rcases ih with ⟨j, hj, h1, h2⟩ | h
    · exact Or.inl ⟨j, Nat.lt_succ_of_lt hj, h1, h2⟩
    · by_cases hn : f n = 0xFF
      · right
        intro i hi
        rcases Nat.lt_succ_iff_lt_or_eq.mp hi with h' | h'
        · exact h i h'
        · rw [h']; exact hn
      · exact Or.inl ⟨n, Nat.lt_succ_self n, h, hn⟩

/-- The poll loop never runs out of the fuel `sd_receive_response` gives it, and
more fuel does not change its result. -/
theorem sd_receive_response_loop_fuel (hw : AvrBits) (n : Nat) (s : Device) :
    ∃ r, sd_receive_response_loop hw (SD_RESPONSE_MAX_DELAY_BYTES + 2) 0 s = some r ∧
      sd_receive_response_loop hw (SD_RESPONSE_MAX_DELAY_BYTES + 2 + n) 0 s = some r := by
  rcases first_status_or_silent (fun i => s.card (s.wire.length + i) % 256)
      (SD_RESPONSE_MAX_DELAY_BYTES + 1) with ⟨j, hj, hf, hst⟩ | hsil
  · exact ⟨_, sd_receive_response_loop_found hw j s (by omega) hf hst,
      sd_receive_response_loop_found_fuel hw n j s (by omega) hf hst⟩
  · exact ⟨_, sd_receive_response_loop_silent hw s hsil,
      sd_receive_response_loop_silent_fuel hw n s hsil⟩

/-- The four-byte reversed read: the byte received first lands in the last byte of
the memory image. -/
theorem spi_master_receive_data_little_endian_four (hw : AvrBits) (s : Device)
    (response : Option sd_response_t) :
    spi_master_receive_data_little_endian hw s
        ((response.map (fun _ => sd_response_t.mk 0)).map sd_response_t.bytes) 4
      = (clock_bytes hw 4 s, response.map (fun _ =>
          [s.card (s.wire.length + 3) % 256, s.card (s.wire.length + 2) % 256,
           s.card (s.wire.length + 1) % 256, s.card s.wire.length % 256])) := by
  cases response <;>
    simp [spi_master_receive_data_little_endian, spi_master_receive_data_little_endian_loop,
      clock_bytes_succ, sd_response_t.bytes, Nat.add_assoc]

theorem of_bytes_reversed (b0 b1 b2 b3 : Nat) :
    sd_response_t.of_bytes [b3, b2, b1, b0] = sd_response_t.mk (payload_value b0 b1 b2 b3) := by
  simp only [sd_response_t.of_bytes, payload_value, List.getD_cons_zero, List.getD_cons_succ]
  congr 1
  omega

/-- Outcome of `sd_receive_response` when no byte other than 0xFF arrives within
eleven bytes. -/
theorem sd_receive_response_silent (hw : AvrBits) (s : Device)
    (response : Option sd_response_t) (extra : Nat)
    (hfill : ∀ i, i < SD_RESPONSE_MAX_DELAY_BYTES + 1 →
      s.card (s.wire.length + i) % 256 = 0xFF) :
    sd_receive_response hw s response extra
      = some (clock_bytes hw (SD_RESPONSE_MAX_DELAY_BYTES + 1) s, SD_ERROR_NO_RESPONSE,
          response.map (fun _ => sd_response_t.mk 0)) := by
  simp only [sd_receive_response, sd_receive_response_loop_silent hw s hfill,
    set_default_response]

/-- Outcome of `sd_receive_response` when the status byte at offset `j ≤ 10` is not
benign. -/
theorem sd_receive_response_fatal (hw : AvrBits) (j : Nat) (s : Device)
    (response : Option sd_response_t) (extra : Nat)
    (hj : j ≤ SD_RESPONSE_MAX_DELAY_BYTES)
    (hfill : ∀ i, i < j → s.card (s.wire.length + i) % 256 = 0xFF)
    (hst : s.card (s.wire.length + j) % 256 ≠ 0xFF)
    (hben : error_is_benign (response_get_error (s.card (s.wire.length + j) % 256)) = false) :
    sd_receive_response hw s response extra
      = some (clock_bytes hw (j + 1) s, response_get_error (s.card (s.wire.length + j) % 256),
          response.map (fun _ => sd_response_t.mk 0)) := by
  simp only [sd_receive_response, sd_receive_response_loop_found hw j s hj hfill hst,
    set_default_response, hben, if_true]

/-- Outcome of `sd_receive_response` for a benign status byte at offset `j ≤ 10`
and no payload. -/
theorem sd_receive_response_benign_zero (hw : AvrBits) (j : Nat) (s : Device)
    (response : Option sd_response_t)
    (hj : j ≤ SD_RESPONSE_MAX_DELAY_BYTES)
    (hfill : ∀ i, i < j → s.card (s.wire.length + i) % 256 = 0xFF)
    (hst : s.card (s.wire.length + j) % 256 ≠ 0xFF)
    (hben : error_is_benign (response_get_error (s.card (s.wire.length + j) % 256)) = true) :
    sd_receive_response hw s response 0
      = some (clock_bytes hw (j + 1) s, response_get_error (s.card (s.wire.length + j) % 256),
          response.map (fun _ => sd_response_t.mk 0)) := by
  simp [sd_receive_response, sd_receive_response_loop_found hw j s hj hfill hst, hben]

/-- Outcome of `sd_receive_response` for a benign status byte at offset `j ≤ 10`
and a four-byte payload. -/
theorem sd_receive_response_benign_four (hw : AvrBits) (j : Nat) (s : Device)
    (response : Option sd_response_t)
    (hj : j ≤ SD_RESPONSE_MAX_DELAY_BYTES)
    (hfill : ∀ i, i < j → s.card (s.wire.length + i) % 256 = 0xFF)
    (hst : s.card (s.wire.length + j) % 256 ≠ 0xFF)
    (hben : error_is_benign (response_get_error (s.card (s.wire.length + j) % 256)) = true) :
    sd_receive_response hw s response 4
      = some (clock_bytes hw (j + 5) s, response_get_error (s.card (s.wire.length + j) % 256),
          response.map (fun _ => sd_response_t.mk (payload_value
            (s.card (s.wire.length + j + 1) % 256) (s.card (s.wire.length + j + 2) % 256)
            (s.card (s.wire.length + j + 3) % 256) (s.card (s.wire.length + j + 4) % 256)))) := by
  have e : clock_bytes hw (j + 5) s = clock_bytes hw 4 (clock_bytes hw (j + 1) s) := by
    rw [← clock_bytes_add]
  simp only [sd_receive_response, sd_receive_response_loop_found hw j s hj hfill hst, hben,
    spi_master_receive_data_little_endian_four, e]
  cases response <;>
    simp [of_bytes_reversed, Nat.add_assoc]

/-- A benign status byte is not the fill byte. -/
theorem benign_ne_fill (b : Nat) (hb : b < 256)
    (hben : error_is_benign (response_get_error b) = true) : b ≠ 0xFF := by
  rcases ((error_is_benign_table b hb).1.mp hben) with h | h <;> omega

/-! ## Command encoder -/

/-- The bus log after `sd_send_command_crc`: six more exchanges. -/
theorem sd_send_command_crc_wire (hw : AvrBits) (s : Device) (c a k : Nat) :
    (sd_send_command_crc hw s c a k).wire = s.wire ++
      [Xfer.mk ((SD_CMD_BASE ||| c) % 256) (s.card s.wire.length % 256) (get_bit s.PORTB CS_BIT),
       Xfer.mk (((a >>> 24) &&& 0xFF) % 256) (s.card (s.wire.length + 1) % 256)
         (get_bit s.PORTB CS_BIT),
       Xfer.mk (((a >>> 16) &&& 0xFF) % 256) (s.card (s.wire.length + 2) % 256)
         (get_bit s.PORTB CS_BIT),
       Xfer.mk (((a >>> 8) &&& 0xFF) % 256) (s.card (s.wire.length + 3) % 256)
         (get_bit s.PORTB CS_BIT),
       Xfer.mk ((a &&& 0xFF) % 256) (s.card (s.wire.length + 4) % 256) (get_bit s.PORTB CS_BIT),
       Xfer.mk (((k <<< 1) ||| 1) % 256) (s.card (s.wire.length + 5) % 256)
         (get_bit s.PORTB CS_BIT)] := by
  simp [sd_send_command_crc, sd_send_command_crc_loop, SD_CMD_ARG_SIZE, BITS_IN_BYTE]

/-- C1: for a command index below 64, a 32-bit argument and a 7-bit check value,
`sd_send_command_crc` appends exactly six exchanges to the bus log, whose outgoing
bytes are `0x40 | c`, the argument bytes most significant first and
`(k << 1) | 1`; the last byte is odd. -/
theorem C1_sd_send_command_crc_frame (hw : AvrBits) (s : Device) (c a k : Nat)
    (hc : c < 64) (ha : a < 2 ^ 32) (hk : k < 128) :
    (∃ x : List Xfer, (sd_send_command_crc hw s c a k).wire = s.wire ++ x ∧
      x.map Xfer.mosi = [0x40 ||| c, (a >>> 24) &&& 0xFF, (a >>> 16) &&& 0xFF,
        (a >>> 8) &&& 0xFF, a &&& 0xFF, (k <<< 1) ||| 1]) ∧
    ((a >>> 24) &&& 0xFF) * 2 ^ 24 + ((a >>> 16) &&& 0xFF) * 2 ^ 16
      + ((a >>> 8) &&& 0xFF) * 2 ^ 8 + (a &&& 0xFF) = a ∧
    ((k <<< 1) ||| 1) % 2 = 1 := by
  have h1 : (0x40 ||| c) % 256 = 0x40 ||| c :=
    Nat.mod_eq_of_lt (lt_of_lt_of_le (Nat.or_lt_two_pow (n := 7) (by norm_num)
      (lt_of_lt_of_le hc (by norm_num))) (by norm_num))
  have h2 : ∀ x : Nat, (x &&& 0xFF) % 256 = x &&& 0xFF := fun x =>
    Nat.mod_eq_of_lt (Nat.lt_succ_of_le Nat.and_le_right)
  have h3 : ((k <<< 1) ||| 1) % 256 = (k <<< 1) ||| 1 := by
    apply Nat.mod_eq_of_lt
    apply Nat.or_lt_two_pow (n := 8)
    · rw [Nat.shiftLeft_eq]; omega
    · norm_num
  refine ⟨⟨_, sd_send_command_crc_wire hw s c a k, ?_⟩, ?_, ?_⟩
  · simp only [List.map_cons, List.map_nil, SD_CMD_BASE, h1, h2, h3]
  · have hm : ∀ x : Nat, x &&& 0xFF = x % 256 := fun x =>
      Nat.and_pow_two_sub_one_eq_mod x 8
    simp only [hm, Nat.shiftRight_eq_div_pow]
    omega
  · have h : ∀ k, k < 128 → ((k <<< 1) ||| 1) % 2 = 1 := by decide
    exact h k hk

/-- Witness of C1: the reset frame `CMD0, 0, 0x4A`. -/
theorem C1_sd_send_command_crc_frame_witness :
    (∃ x : List Xfer, (sd_send_command_crc atmega128 (test_device []) 0 0 0x4A).wire
        = (test_device []).wire ++ x ∧
      x.map Xfer.mosi = [0x40 ||| 0, (0 >>> 24) &&& 0xFF, (0 >>> 16) &&& 0xFF,
        (0 >>> 8) &&& 0xFF, 0 &&& 0xFF, (0x4A <<< 1) ||| 1]) ∧
    ((0 >>> 24) &&& 0xFF) * 2 ^ 24 + ((0 >>> 16) &&& 0xFF) * 2 ^ 16
      + ((0 >>> 8) &&& 0xFF) * 2 ^ 8 + (0 &&& 0xFF) = 0 ∧
    ((0x4A <<< 1) ||| 1) % 2 = 1 :=
  C1_sd_send_command_crc_frame atmega128 (test_device []) 0 0 0x4A (by decide) (by decide)
    (by decide)

/-! ## One command exchange -/

@[simp] theorem sd_cs_select_wire (s : Device) : (sd_cs_select s).1.wire = s.wire := rfl

@[simp] theorem sd_cs_select_card (s : Device) : (sd_cs_select s).1.card = s.card := rfl

@[simp] theorem sd_cs_select_compare_match (s : Device) :
    (sd_cs_select s).1.compare_match = s.compare_match := rfl

@[simp] theorem sd_cs_select_use_block_address (s : Device) :
    (sd_cs_select s).1.sd_status.use_block_address = s.sd_status.use_block_address := rfl

@[simp] theorem sd_cs_restore_wire (s : Device) (b : Bool) :
    (sd_cs_restore s b).wire = s.wire := rfl

@[simp] theorem sd_cs_restore_card (s : Device) (b : Bool) :
    (sd_cs_restore s b).card = s.card := rfl

@[simp] theorem sd_cs_restore_compare_match (s : Device) (b : Bool) :
    (sd_cs_restore s b).compare_match = s.compare_match := rfl

@[simp] theorem sd_cs_restore_use_block_address (s : Device) (b : Bool) :
    (sd_cs_restore s b).sd_status.use_block_address = s.sd_status.use_block_address := rfl

@[simp] theorem sd_send_command_crc_wire_length (hw : AvrBits) (s : Device) (c a k : Nat) :
    (sd_send_command_crc hw s c a k).wire.length = s.wire.length + 6 := by
  rw [sd_send_command_crc_wire]; simp

@[simp] theorem sd_send_command_crc_card (hw : AvrBits) (s : Device) (c a k : Nat) :
    (sd_send_command_crc hw s c a k).card = s.card := by
  simp [sd_send_command_crc, sd_send_command_crc_loop, SD_CMD_ARG_SIZE]

@[simp] theorem sd_send_command_crc_compare_match (hw : AvrBits) (s : Device) (c a k : Nat) :
    (sd_send_command_crc hw s c a k).compare_match = s.compare_match := by
  simp [sd_send_command_crc, sd_send_command_crc_loop, SD_CMD_ARG_SIZE]

@[simp] theorem sd_send_command_crc_use_block_address (hw : AvrBits) (s : Device)
    (c a k : Nat) :
    (sd_send_command_crc hw s c a k).sd_status.use_block_address
      = s.sd_status.use_block_address := by
  simp [sd_send_command_crc, sd_send_command_crc_loop, SD_CMD_ARG_SIZE]

@[simp] theorem after_command_wire_length (hw : AvrBits) (s : Device) (c a k n : Nat) :
    (after_command hw s c a k n).wire.length = s.wire.length + 6 + n := by
  simp [after_command]

@[simp] theorem after_command_card (hw : AvrBits) (s : Device) (c a k n : Nat) :
    (after_command hw s c a k n).card = s.card := by
  simp [after_command]

@[simp] theorem after_command_compare_match (hw : AvrBits) (s : Device) (c a k n : Nat) :
    (after_command hw s c a k n).compare_match = s.compare_match := by
  simp [after_command]

@[simp] theorem after_command_use_block_address (hw : AvrBits) (s : Device) (c a k n : Nat) :
    (after_command hw s c a k n).sd_status.use_block_address
      = s.sd_status.use_block_address := by
  simp [after_command]

/-- A command whose answer does not come within eleven bytes. -/
theorem command_silent (hw : AvrBits) (s : Device) (c a k : Nat)
    (response : Option sd_response_t)
    (hfill : ∀ i, i < SD_RESPONSE_MAX_DELAY_BYTES + 1 →
      s.card (s.wire.length + 6 + i) % 256 = 0xFF) :
    sd_send_command_crc_with_response hw s c a k response
      = some (after_command hw s c a k (SD_RESPONSE_MAX_DELAY_BYTES + 1),
          SD_ERROR_NO_RESPONSE, response.map (fun _ => sd_response_t.mk 0)) := by
  unfold sd_send_command_crc_with_response
  simp only []
  rw [sd_receive_response_silent hw _ response _ (by simpa using hfill)]
  rfl

/-- A command answered by a status byte that is not benign. -/
theorem command_fatal (hw : AvrBits) (j : Nat) (s : Device) (c a k : Nat)
    (response : Option sd_response_t)
    (hj : j ≤ SD_RESPONSE_MAX_DELAY_BYTES)
    (hfill : ∀ i, i < j → s.card (s.wire.length + 6 + i) % 256 = 0xFF)
    (hst : s.card (s.wire.length + 6 + j) % 256 ≠ 0xFF)
    (hben : error_is_benign (response_get_error (s.card (s.wire.length + 6 + j) % 256))
      = false) :
    sd_send_command_crc_with_response hw s c a k response
      = some (after_command hw s c a k (j + 1),
          response_get_error (s.card (s.wire.length + 6 + j) % 256),
          response.map (fun _ => sd_response_t.mk 0)) := by
  unfold sd_send_command_crc_with_response
  simp only []
  rw [sd_receive_response_fatal hw j _ response _ hj (by simpa using hfill)
    (by simpa using hst) (by simpa using hben)]
  simp [after_command]

/-- A command without payload answered by a benign status byte. -/
theorem command_benign_zero (hw : AvrBits) (j : Nat) (s : Device) (c a k : Nat)
    (response : Option sd_response_t)
    (hc : response_get_extra_size c = 0)
    (hj : j ≤ SD_RESPONSE_MAX_DELAY_BYTES)
    (hfill : ∀ i, i < j → s.card (s.wire.length + 6 + i) % 256 = 0xFF)
    (hben : error_is_benign (response_get_error (s.card (s.wire.length + 6 + j) % 256))
      = true) :
    sd_send_command_crc_with_response hw s c a k response
      = some (after_command hw s c a k (j + 1),
          response_get_error (s.card (s.wire.length + 6 + j) % 256),
          response.map (fun _ => sd_response_t.mk 0)) := by
  have hst := benign_ne_fill _ (Nat.mod_lt _ (by norm_num)) hben
  unfold sd_send_command_crc_with_response
  simp only [hc]
  rw [sd_receive_response_benign_zero hw j _ response hj (by simpa using hfill)
    (by simpa using hst) (by simpa using hben)]
  simp [after_command]

/-- A command with a four-byte payload answered by a benign status byte. -/
theorem command_benign_four (hw : AvrBits) (j : Nat) (s : Device) (c a k : Nat)
    (response : Option sd_response_t)
    (hc : response_get_extra_size c = 4)
    (hj : j ≤ SD_RESPONSE_MAX_DELAY_BYTES)
    (hfill : ∀ i, i < j → s.card (s.wire.length + 6 + i) % 256 = 0xFF)
    (hben : error_is_benign (response_get_error (s.card (s.wire.length + 6 + j) % 256))
      = true) :
    sd_send_command_crc_with_response hw s c a k response
      = some (after_command hw s c a k (j + 5),
          response_get_error (s.card (s.wire.length + 6 + j) % 256),
          response.map (fun _ => sd_response_t.mk (payload_value
            (s.card (s.wire.length + 6 + j + 1) % 256)
            (s.card (s.wire.length + 6 + j + 2) % 256)
            (s.card (s.wire.length + 6 + j + 3) % 256)
            (s.card (s.wire.length + 6 + j + 4) % 256)))) := by
  have hst := benign_ne_fill _ (Nat.mod_lt _ (by norm_num)) hben
  unfold sd_send_command_crc_with_response
  simp only [hc]
  rw [sd_receive_response_benign_four hw j _ response hj (by simpa using hfill)
    (by simpa using hst) (by simpa using hben)]
  simp [after_command]

/-! ## Response decoder -/

/-- C2: the decoded error of a status byte is the one of its highest set bit, a
zero byte decodes to Ok, and the four examples of the spec hold. -/
theorem C2_response_get_error_highest_bit (r i : Nat) (hr : r < 256) (hi : i < 8)
    (hset : r.testBit i = true) (hhigh : ∀ j, j < 8 → i < j → r.testBit j = false) :
    response_get_error r = status_bit_error i ∧
    response_get_error 0 = SD_ERROR_OK ∧
    response_get_error 0b11000000 = SD_ERROR_NO_RESPONSE ∧
    response_get_error 0x01 = SD_ERROR_IDLE ∧
    response_get_error 0b00000100 = SD_ERROR_ILLEGAL_COMMAND :=
  ⟨response_get_error_table r hr i hi hset hhigh, by decide, by decide, by decide, by decide⟩

/-- Witness of C2: in `0b11000000` bit 7 is the highest set bit. -/
theorem C2_response_get_error_highest_bit_witness :
    response_get_error 0b11000000 = status_bit_error 7 ∧
    response_get_error 0 = SD_ERROR_OK ∧
    response_get_error 0b11000000 = SD_ERROR_NO_RESPONSE ∧
    response_get_error 0x01 = SD_ERROR_IDLE ∧
    response_get_error 0b00000100 = SD_ERROR_ILLEGAL_COMMAND :=
  C2_response_get_error_highest_bit 0b11000000 7 (by decide) (by decide) (by decide)
    (by decide)

/-- C3: a status byte decodes to a benign error exactly when it is 0x00 or 0x01,
that is exactly when it decodes to Ok or Idle. -/
theorem C3_benign_iff (r : Nat) (hr : r < 256) :
    (error_is_benign (response_get_error r) = true ↔ r = 0x00 ∨ r = 0x01) ∧
    (error_is_benign (response_get_error r) = true ↔
      response_get_error r = SD_ERROR_OK ∨ response_get_error r = SD_ERROR_IDLE) :=
  error_is_benign_table r hr

/-- Witness of C3: the status byte 0x01. -/
theorem C3_benign_iff_witness :
    (error_is_benign (response_get_error 0x01) = true ↔ 0x01 = 0x00 ∨ 0x01 = 0x01) ∧
    (error_is_benign (response_get_error 0x01) = true ↔
      response_get_error 0x01 = SD_ERROR_OK ∨ response_get_error 0x01 = SD_ERROR_IDLE) :=
  C3_benign_iff 0x01 (by decide)

/-! ## The response wait -/

/-- The bus log only grows while bytes are clocked in. -/
theorem clock_bytes_wire (hw : AvrBits) (n : Nat) (s : Device) :
    ∃ x : List Xfer, (clock_bytes hw n s).wire = s.wire ++ x ∧ x.length = n := by
  induction n generalizing s with
  | zero => exact ⟨[], by simp, rfl⟩
  | succ n ih =>
    obtain ⟨x, hx, hlen⟩ := ih (spi_master_receive_byte hw s).1
    refine ⟨Xfer.mk 0xFF (s.card s.wire.length % 256) (get_bit s.PORTB CS_BIT) :: x, ?_,
      by simp [hlen]⟩
    rw [clock_bytes_succ, hx]
    simp

/-- C4 (counterexample): ten fill bytes followed by the status byte 0x01.  The first
ten bytes are all 0xFF, yet `sd_receive_response` reads an eleventh byte, accepts
it as the status and returns Idle instead of NoResponse. -/
theorem C4_counterexample :
    (∀ i, i < 10 →
      (test_device (List.replicate 10 0xFF ++ [0x01])).card
        ((test_device (List.replicate 10 0xFF ++ [0x01])).wire.length + i) % 256 = 0xFF) ∧
    (sd_receive_response atmega128 (test_device (List.replicate 10 0xFF ++ [0x01]))
        (some (sd_response_t.mk 7)) 0).map (fun r => (r.2.1, r.1.wire.length))
      = some (SD_ERROR_IDLE, 11) := by
  decide

/-- C4 (amended): `sd_receive_response` polls at most eleven bytes for the status
byte; when the first eleven incoming bytes are all 0xFF it returns NoResponse
after exactly those eleven exchanges, with the payload value set to 0. -/
theorem C4_sd_receive_response_eleven (hw : AvrBits) (s : Device)
    (response : Option sd_response_t) (extra : Nat)
    (hfill : ∀ i, i < 11 → s.card (s.wire.length + i) % 256 = 0xFF) :
    (∀ (s0 : Device) (r0 : Option sd_response_t),
      ∃ r, sd_receive_response hw s0 r0 0 = some r ∧
        r.1.wire.length ≤ s0.wire.length + 11) ∧
    (∃ s1 x, sd_receive_response hw s response extra
        = some (s1, SD_ERROR_NO_RESPONSE, response.map (fun _ => sd_response_t.mk 0)) ∧
      s1.wire = s.wire ++ x ∧ x.length = 11) := by
  constructor
  · intro s0 r0
    rcases first_status_or_silent (fun i => s0.card (s0.wire.length + i) % 256) 11 with
      ⟨j, hj, hf, hst⟩ | hsil
    · have hj10 : j ≤ SD_RESPONSE_MAX_DELAY_BYTES := by
        simp only [SD_RESPONSE_MAX_DELAY_BYTES]; omega
      cases hben : error_is_benign (response_get_error (s0.card (s0.wire.length + j) % 256))
      · exact ⟨_, sd_receive_response_fatal hw j s0 r0 0 hj10 hf hst hben, by simp; omega⟩
      · exact ⟨_, sd_receive_response_benign_zero hw j s0 r0 hj10 hf hst hben, by simp; omega⟩
    · exact ⟨_, sd_receive_response_silent hw s0 r0 0 hsil,
        by simp [SD_RESPONSE_MAX_DELAY_BYTES]⟩
  · obtain ⟨x, hx, hlen⟩ := clock_bytes_wire hw 11 s
    exact ⟨_, x, sd_receive_response_silent hw s response extra hfill, hx, hlen⟩

/-- Witness of C4 (amended): a card that never answers. -/
theorem C4_sd_receive_response_eleven_witness :
    (∀ i, i < 11 → (test_device []).card ((test_device []).wire.length + i) % 256 = 0xFF) ∧
    ∃ s1 x, sd_receive_response atmega128 (test_device []) (some (sd_response_t.mk 7)) 4
        = some (s1, SD_ERROR_NO_RESPONSE,
            (some (sd_response_t.mk 7)).map (fun _ => sd_response_t.mk 0)) ∧
      s1.wire = (test_device []).wire ++ x ∧ x.length = 11 :=
  ⟨by decide,
   (C4_sd_receive_response_eleven atmega128 (test_device []) (some (sd_response_t.mk 7)) 4
     (by decide)).2⟩

/-- C5: every command exchange returns, and payload bytes are read only after a
benign status: with the status byte at offset `j` after the frame, a benign status
is followed by exactly 4 more exchanges for CMD8 and CMD58 and by none for any
other command; a status that is not benign, or eleven fill bytes (NoResponse), is
followed by no exchange and the payload handed back is 0. -/
theorem C5_payload_only_after_benign (hw : AvrBits) (s : Device) (c : sd_command_t)
    (a k : Nat) (response : Option sd_response_t) :
    ∃ s1 err response1,
      sd_send_command_crc_with_response hw s c a k response = some (s1, err, response1) ∧
      ((∃ j, j ≤ 10 ∧ (∀ i, i < j → s.card (s.wire.length + 6 + i) % 256 = 0xFF) ∧
          s.card (s.wire.length + 6 + j) % 256 ≠ 0xFF ∧
          err = response_get_error (s.card (s.wire.length + 6 + j) % 256) ∧
          ((error_is_benign err = true ∧
              s1.wire.length
                = s.wire.length + 6 + (j + 1) + (if c = CMD8 ∨ c = CMD58 then 4 else 0)) ∨
           (error_is_benign err = false ∧ s1.wire.length = s.wire.length + 6 + (j + 1) ∧
              response1 = response.map (fun _ => sd_response_t.mk 0)))) ∨
       ((∀ i, i < 11 → s.card (s.wire.length + 6 + i) % 256 = 0xFF) ∧
          err = SD_ERROR_NO_RESPONSE ∧ error_is_benign err = false ∧
          s1.wire.length = s.wire.length + 6 + 11 ∧
          response1 = response.map (fun _ => sd_response_t.mk 0))) := by
  rcases first_status_or_silent (fun i => s.card (s.wire.length + 6 + i) % 256) 11 with
    ⟨j, hj, hf, hst⟩ | hsil
  · have hj10 : j ≤ SD_RESPONSE_MAX_DELAY_BYTES := by
      simp only [SD_RESPONSE_MAX_DELAY_BYTES]; omega
    cases hben : error_is_benign (response_get_error (s.card (s.wire.length + 6 + j) % 256))
    · exact ⟨_, _, _, command_fatal hw j s c a k response hj10 hf hst hben,
        Or.inl ⟨j, by omega, hf, hst, rfl, Or.inr ⟨hben, by simp, rfl⟩⟩⟩
    · by_cases hc : c = CMD8 ∨ c = CMD58
      · have hx : response_get_extra_size c = 4 := by simp [response_get_extra_size, hc]
        exact ⟨_, _, _, command_benign_four hw j s c a k response hx hj10 hf hben,
          Or.inl ⟨j, by omega, hf, hst, rfl, Or.inl ⟨hben, by simp [hc]; omega⟩⟩⟩
      · have hx : response_get_extra_size c = 0 := by simp [response_get_extra_size, hc]
        exact ⟨_, _, _, command_benign_zero hw j s c a k response hx hj10 hf hben,
          Or.inl ⟨j, by omega, hf, hst, rfl, Or.inl ⟨hben, by simp [hc]⟩⟩⟩
  · exact ⟨_, _, _, command_silent hw s c a k response hsil,
      Or.inr ⟨hsil, rfl, by decide, by simp [SD_RESPONSE_MAX_DELAY_BYTES], rfl⟩⟩

/-- C6 (counterexample): CMD8 answered by the status 0x01 and the bytes
00 00 01 AA.  The payload value is 0x000001AA, not the little-endian reading
`b0 + b1*2^8 + b2*2^16 + b3*2^24` of the bytes in the order received. -/
theorem C6_counterexample :
    (sd_send_command_crc_with_response atmega128
        (test_device (List.replicate 6 0xFF ++ [0x01, 0x00, 0x00, 0x01, 0xAA]))
        CMD8 SD_HC_CHECK_ARG SD_CMD8_INIT_CRC (some (sd_response_t.mk 0))).map (fun r => r.2)
      = some (SD_ERROR_IDLE, some (sd_response_t.mk 0x000001AA)) ∧
    (0x000001AA : Nat) ≠ 0x00 + 0x00 * 2 ^ 8 + 0x01 * 2 ^ 16 + 0xAA * 2 ^ 24 := by
  decide

/-- C6 (amended): the four payload bytes of CMD8 and CMD58 are read most
significant first: if the benign status is at offset `j` after the frame and is
followed by `b0, b1, b2, b3` in that order, the payload value is
`b0*2^24 + b1*2^16 + b2*2^8 + b3`. -/
theorem C6_payload_most_significant_first (hw : AvrBits) (s : Device) (c : sd_command_t)
    (a k j : Nat) (r0 : sd_response_t)
    (hc : c = CMD8 ∨ c = CMD58) (hj : j ≤ 10)
    (hfill : ∀ i, i < j → s.card (s.wire.length + 6 + i) % 256 = 0xFF)
    (hben : error_is_benign (response_get_error (s.card (s.wire.length + 6 + j) % 256))
      = true) :
    ∃ s1, sd_send_command_crc_with_response hw s c a k (some r0)
      = some (s1, response_get_error (s.card (s.wire.length + 6 + j) % 256),
          some (sd_response_t.mk
            (s.card (s.wire.length + 6 + j + 1) % 256 * 2 ^ 24
              + s.card (s.wire.length + 6 + j + 2) % 256 * 2 ^ 16
              + s.card (s.wire.length + 6 + j + 3) % 256 * 2 ^ 8
              + s.card (s.wire.length + 6 + j + 4) % 256))) := by
  have hx : response_get_extra_size c = 4 := by simp [response_get_extra_size, hc]
  exact ⟨_, command_benign_four hw j s c a k (some r0) hx hj hfill hben⟩

/-- Witness of C6 (amended): the CMD8 echo 00 00 01 AA after the status 0x01. -/
theorem C6_payload_most_significant_first_witness :
    ∃ s1, sd_send_command_crc_with_response atmega128
        (test_device (List.replicate 6 0xFF ++ [0x01, 0x00, 0x00, 0x01, 0xAA]))
        CMD8 SD_HC_CHECK_ARG SD_CMD8_INIT_CRC (some (sd_response_t.mk 0))
      = some (s1, response_get_error 0x01,
          some (sd_response_t.mk (0x00 * 2 ^ 24 + 0x00 * 2 ^ 16 + 0x01 * 2 ^ 8 + 0xAA))) :=
  C6_payload_most_significant_first atmega128
    (test_device (List.replicate 6 0xFF ++ [0x01, 0x00, 0x00, 0x01, 0xAA]))
    CMD8 SD_HC_CHECK_ARG SD_CMD8_INIT_CRC 0 (sd_response_t.mk 0) (Or.inl rfl) (by decide)
    (by decide) (by decide)

/-! ## Initialisation: reset and version probe -/

/-- The steps of `sd_init` from CMD0 on, started from `sd_init_power_on`. -/
theorem sd_init_unfold (hw : AvrBits) (fuel : Nat) (t : Device) :
    sd_init hw fuel t =
      match sd_send_command_crc_with_response hw (sd_init_power_on hw t) CMD0 0
          SD_CMD0_INIT_CRC none with
      | none => none
      | some (s, err, _) =>
        if err ≠ SD_ERROR_IDLE then some (s, err)
        else
          match check_for_sdv2 hw s false with
          | none => none
          | some (s, err, sdv2) =>
            if err ≠ SD_ERROR_IDLE then some (s, err)
            else
              match sd_wait_for_initialization hw fuel s sdv2 with
              | none => none
              | some (s, err) =>
                if err ≠ SD_ERROR_OK then some (s, err)
                else sd_init_finish hw s sdv2 := rfl

/-- When the reset command does not decode to Idle, `sd_init` returns its result. -/
theorem sd_init_reset_not_idle (hw : AvrBits) (fuel : Nat) (t s : Device) (err : sd_error_t)
    (r : Option sd_response_t)
    (h0 : sd_send_command_crc_with_response hw (sd_init_power_on hw t) CMD0 0
      SD_CMD0_INIT_CRC none = some (s, err, r))
    (hne : err ≠ SD_ERROR_IDLE) :
    sd_init hw fuel t = some (s, err) := by
  rw [sd_init_unfold, h0]
  simp only [hne, ne_eq, not_false_eq_true, if_true]

/-- When the reset command decodes to Idle and the version probe returns anything
but Idle, `sd_init` returns the result of the probe. -/
theorem sd_init_probe_not_idle (hw : AvrBits) (fuel : Nat) (t s s1 : Device)
    (err : sd_error_t) (r : Option sd_response_t) (sdv2 : Bool)
    (h0 : sd_send_command_crc_with_response hw (sd_init_power_on hw t) CMD0 0
      SD_CMD0_INIT_CRC none = some (s, SD_ERROR_IDLE, r))
    (h1 : check_for_sdv2 hw s false = some (s1, err, sdv2))
    (hne : err ≠ SD_ERROR_IDLE) :
    sd_init hw fuel t = some (s1, err) := by
  rw [sd_init_unfold, h0]
  simp only [ne_eq, not_true_eq_false, if_false, h1, hne, not_false_eq_true, if_true]

/-- The version probe when CMD8 is answered by Idle and a payload: the low twelve
bits of the payload decide between version 2 and InvalidVoltageRange. -/
theorem check_for_sdv2_idle (hw : AvrBits) (s : Device) (sdv2 : Bool) (j : Nat)
    (hj : j ≤ 10)
    (hfill : ∀ i, i < j → s.card (s.wire.length + 6 + i) % 256 = 0xFF)
    (hidle : response_get_error (s.card (s.wire.length + 6 + j) % 256) = SD_ERROR_IDLE) :
    check_for_sdv2 hw s sdv2 =
      if payload_value (s.card (s.wire.length + 6 + j + 1) % 256)
          (s.card (s.wire.length + 6 + j + 2) % 256)
          (s.card (s.wire.length + 6 + j + 3) % 256)
          (s.card (s.wire.length + 6 + j + 4) % 256) &&& 0xFFF ≠ SD_HC_CHECK_ARG
      then some (after_command hw s CMD8 SD_HC_CHECK_ARG SD_CMD8_INIT_CRC (j + 5),
        SD_ERROR_INVALID_VOLTAGE_RANGE, sdv2)
      else some (after_command hw s CMD8 SD_HC_CHECK_ARG SD_CMD8_INIT_CRC (j + 5),
        SD_ERROR_OK, true) := by
  have hben : error_is_benign (response_get_error (s.card (s.wire.length + 6 + j) % 256))
      = true := by rw [hidle]; rfl
  unfold check_for_sdv2
  rw [command_benign_four hw j s CMD8 _ _ _ (by decide) hj hfill hben]
  simp only [hidle, Option.map_some', deref, Option.getD_some, if_true]

/-- The version probe when the CMD8 exchange decodes to anything but Idle. -/
theorem check_for_sdv2_not_idle (hw : AvrBits) (s s1 : Device) (sdv2 : Bool)
    (err : sd_error_t) (r : Option sd_response_t)
    (h : sd_send_command_crc_with_response hw s CMD8 SD_HC_CHECK_ARG SD_CMD8_INIT_CRC
      (some (sd_response_t.mk 0)) = some (s1, err, r))
    (hne : err ≠ SD_ERROR_IDLE) :
    check_for_sdv2 hw s sdv2 =
      if err = SD_ERROR_ILLEGAL_COMMAND ∨ err = SD_ERROR_NO_RESPONSE
      then some (s1, SD_ERROR_OK, false) else some (s1, err, sdv2) := by
  unfold check_for_sdv2
  rw [h]
  simp only [hne, if_false]

/-- C7 (failing input): the card answers CMD0 with the status byte 0x00.  The byte
decodes to Ok, which is not Idle, and `sd_init` stops after the CMD0 exchange, but
the value it returns is SD_ERROR_OK, the success code. -/
theorem C7_reset_ok_returns_ok :
    response_get_error 0x00 = SD_ERROR_OK ∧ SD_ERROR_OK ≠ SD_ERROR_IDLE ∧
    ∀ fuel, (sd_init atmega128 fuel (test_device (probe_stream 0x00 []))).map
        (fun r => (r.2, r.1.wire.map Xfer.mosi))
      = some (SD_ERROR_OK,
          List.replicate 12 0xFF ++ [0x40, 0x00, 0x00, 0x00, 0x00, 0x95, 0xFF, 0xFF]) :=
  ⟨by decide, by decide, fun _ => rfl⟩

/-- C8 (counterexample): CMD8 answered by Idle and the payload 00 00 11 AA.  The
32-bit payload 0x000011AA differs from the pattern 0x000001AA, yet the probe
reports a version-2 card with SD_ERROR_OK, and so does `sd_init`. -/
theorem C8_counterexample :
    response_get_error 0x01 = SD_ERROR_IDLE ∧
    (sd_send_command_crc_with_response atmega128
        (test_device (List.replicate 6 0xFF ++ [0x01, 0x00, 0x00, 0x11, 0xAA]))
        CMD8 SD_HC_CHECK_ARG SD_CMD8_INIT_CRC (some (sd_response_t.mk 0))).map (fun r => r.2)
      = some (SD_ERROR_IDLE, some (sd_response_t.mk 0x000011AA)) ∧
    (0x000011AA : Nat) ≠ 0x000001AA ∧
    (check_for_sdv2 atmega128
        (test_device (List.replicate 6 0xFF ++ [0x01, 0x00, 0x00, 0x11, 0xAA])) false).map
        (fun r => r.2)
      = some (SD_ERROR_OK, true) ∧
    (sd_init atmega128 0 (test_device (probe_stream 0x01 [0x01, 0x00, 0x00, 0x11, 0xAA]))).map
        Prod.snd
      = some SD_ERROR_OK := by
  decide

/-- C8 (amended): when CMD8 is answered by a status that decodes to Idle and the
low twelve bits of the echoed payload differ from 0x1AA, `check_for_sdv2` returns
SD_ERROR_INVALID_VOLTAGE_RANGE and leaves `*sdv2` alone, and every run of
`sd_init` that enters the probe in that state returns that error. -/
theorem C8_probe_mismatch (hw : AvrBits) (s : Device) (sdv2 : Bool) (j : Nat)
    (hj : j ≤ 10)
    (hfill : ∀ i, i < j → s.card (s.wire.length + 6 + i) % 256 = 0xFF)
    (hidle : response_get_error (s.card (s.wire.length + 6 + j) % 256) = SD_ERROR_IDLE)
    (hmis : (s.card (s.wire.length + 6 + j + 1) % 256 * 2 ^ 24
        + s.card (s.wire.length + 6 + j + 2) % 256 * 2 ^ 16
        + s.card (s.wire.length + 6 + j + 3) % 256 * 2 ^ 8
        + s.card (s.wire.length + 6 + j + 4) % 256) &&& 0xFFF ≠ 0x1AA) :
    ∃ s1, check_for_sdv2 hw s sdv2 = some (s1, SD_ERROR_INVALID_VOLTAGE_RANGE, sdv2) ∧
      ∀ (t : Device) (fuel : Nat) (r : Option sd_response_t),
        sd_send_command_crc_with_response hw (sd_init_power_on hw t) CMD0 0
            SD_CMD0_INIT_CRC none = some (s, SD_ERROR_IDLE, r) →
        sd_init hw fuel t = some (s1, SD_ERROR_INVALID_VOLTAGE_RANGE) := by
  have hm : payload_value (s.card (s.wire.length + 6 + j + 1) % 256)
      (s.card (s.wire.length + 6 + j + 2) % 256) (s.card (s.wire.length + 6 + j + 3) % 256)
      (s.card (s.wire.length + 6 + j + 4) % 256) &&& 0xFFF ≠ SD_HC_CHECK_ARG := hmis
  have key : ∀ b, check_for_sdv2 hw s b
      = some (after_command hw s CMD8 SD_HC_CHECK_ARG SD_CMD8_INIT_CRC (j + 5),
          SD_ERROR_INVALID_VOLTAGE_RANGE, b) := fun b => by
    rw [check_for_sdv2_idle hw s b j hj hfill hidle, if_pos hm]
  refine ⟨_, key sdv2, fun t fuel r h0 => ?_⟩
  exact sd_init_probe_not_idle hw fuel t s _ _ r false h0 (key false) (by decide)

/-- Witness of C8 (amended): CMD0 answered by Idle, CMD8 by Idle and the payload
00 00 01 AB. -/
theorem C8_probe_mismatch_witness :
    ∃ s1,
      check_for_sdv2 atmega128
          (after_command atmega128
            (sd_init_power_on atmega128
              (test_device (probe_stream 0x01 [0x01, 0x00, 0x00, 0x01, 0xAB])))
            CMD0 0 SD_CMD0_INIT_CRC 2) false
        = some (s1, SD_ERROR_INVALID_VOLTAGE_RANGE, false) ∧
      sd_init atmega128 0 (test_device (probe_stream 0x01 [0x01, 0x00, 0x00, 0x01, 0xAB]))
        = some (s1, SD_ERROR_INVALID_VOLTAGE_RANGE) := by
  obtain ⟨s1, h1, h2⟩ := C8_probe_mismatch atmega128
    (after_command atmega128
      (sd_init_power_on atmega128
        (test_device (probe_stream 0x01 [0x01, 0x00, 0x00, 0x01, 0xAB])))
      CMD0 0 SD_CMD0_INIT_CRC 2) false 1 (by decide) (by decide) (by decide) (by decide)
  exact ⟨s1, h1, h2 _ 0 none rfl⟩

/-- C9 (failing input): CMD0 answered by Idle, CMD8 by the status byte 0x00.  The
CMD8 exchange decodes to Ok, which is none of Idle, IllegalCommand and NoResponse;
`check_for_sdv2` returns that result, and `sd_init` returns SD_ERROR_OK instead of
failing. -/
theorem C9_probe_ok_returns_ok :
    response_get_error 0x00 = SD_ERROR_OK ∧
    (check_for_sdv2 atmega128
        (test_device (List.replicate 6 0xFF ++ [0x00, 0x00, 0x00, 0x00, 0x00])) false).map
        (fun r => r.2)
      = some (SD_ERROR_OK, false) ∧
    ∀ fuel,
      (sd_init atmega128 fuel
          (test_device (probe_stream 0x01 [0x00, 0x00, 0x00, 0x00, 0x00]))).map Prod.snd
        = some SD_ERROR_OK :=
  ⟨by decide, by decide, fun _ => rfl⟩

/-- C10 (failing input): a version-1 card.  `sd_init` returns SD_ERROR_OK right
after the CMD8 exchange: the bytes it sends are the twelve power-on bytes, the
CMD0 frame and the CMD8 frame with their polls, and the first byte 0x50 of a CMD16
frame is not among them. -/
theorem C10_version1_sends_no_cmd16 :
    (∀ fuel, (sd_init atmega128 fuel (test_device version1_stream)).map
        (fun r => (r.2, r.1.wire.map Xfer.mosi))
      = some (SD_ERROR_OK,
          List.replicate 12 0xFF ++ [0x40, 0x00, 0x00, 0x00, 0x00, 0x95, 0xFF, 0xFF]
            ++ [0x48, 0x00, 0x00, 0x01, 0xAA, 0x87, 0xFF, 0xFF])) ∧
    (SD_CMD_BASE ||| CMD16) ∉
      List.replicate 12 0xFF ++ [0x40, 0x00, 0x00, 0x00, 0x00, 0x95, 0xFF, 0xFF]
        ++ [0x48, 0x00, 0x00, 0x01, 0xAA, 0x87, 0xFF, 0xFF] ∧
    (SD_CMD_BASE ||| CMD58) ∉
      List.replicate 12 0xFF ++ [0x40, 0x00, 0x00, 0x00, 0x00, 0x95, 0xFF, 0xFF]
        ++ [0x48, 0x00, 0x00, 0x01, 0xAA, 0x87, 0xFF, 0xFF] :=
  ⟨fun _ => rfl, by decide, by decide⟩

/-! ## Initialisation: addressing mode and bus speed -/

/-- C11 (failing input): a version-2, block-addressed card, driver state fresh.
`sd_init` returns SD_ERROR_OK right after the CMD8 exchange with
`use_block_address` still false; neither CMD16 (0x50) nor CMD58 (0x7A) is sent. -/
theorem C11_version2_stays_byte_addressed :
    (test_device version2_stream).sd_status.use_block_address = false ∧
    (∀ fuel, (sd_init atmega128 fuel (test_device version2_stream)).map
        (fun r => (r.2, r.1.sd_status.use_block_address, r.1.wire.map Xfer.mosi))
      = some (SD_ERROR_OK, false,
          List.replicate 12 0xFF ++ [0x40, 0x00, 0x00, 0x00, 0x00, 0x95, 0xFF, 0xFF]
            ++ [0x48, 0x00, 0x00, 0x01, 0xAA, 0x87, 0xFF, 0xFF, 0xFF, 0xFF, 0xFF, 0xFF])) ∧
    (SD_CMD_BASE ||| CMD16) ∉
      List.replicate 12 0xFF ++ [0x40, 0x00, 0x00, 0x00, 0x00, 0x95, 0xFF, 0xFF]
        ++ [0x48, 0x00, 0x00, 0x01, 0xAA, 0x87, 0xFF, 0xFF, 0xFF, 0xFF, 0xFF, 0xFF] ∧
    (SD_CMD_BASE ||| CMD58) ∉
      List.replicate 12 0xFF ++ [0x40, 0x00, 0x00, 0x00, 0x00, 0x95, 0xFF, 0xFF]
        ++ [0x48, 0x00, 0x00, 0x01, 0xAA, 0x87, 0xFF, 0xFF, 0xFF, 0xFF, 0xFF, 0xFF] :=
  ⟨rfl, fun _ => rfl, by decide, by decide⟩

/-- C12 (failing input): a version-2, high-capacity card, driver state fresh.
`sd_init` returns SD_ERROR_OK, and the clock bits it leaves are those of
SPI_CLOCK_DIV64 (SPR0 = 0, SPR1 = 1, SPI2X = 0), not those of SPI_CLOCK_DIV2. -/
theorem C12_version2_stays_at_div64 :
    (∀ fuel, (sd_init atmega128 fuel (test_device version2_stream)).map
        (fun r => (r.2, get_bit r.1.SPCR atmega128.SPR0, get_bit r.1.SPCR atmega128.SPR1,
          get_bit r.1.SPSR atmega128.SPI2X))
      = some (SD_ERROR_OK, get_bit SPI_CLOCK_DIV64 0, get_bit SPI_CLOCK_DIV64 1,
          get_bit SPI_CLOCK_DIV64 2)) ∧
    (get_bit SPI_CLOCK_DIV64 0, get_bit SPI_CLOCK_DIV64 1, get_bit SPI_CLOCK_DIV64 2)
      = (0, 1, 0) ∧
    (get_bit SPI_CLOCK_DIV2 0, get_bit SPI_CLOCK_DIV2 1, get_bit SPI_CLOCK_DIV2 2)
      = (0, 0, 1) :=
  ⟨fun _ => rfl, by decide, by decide⟩

/-! ## Block read: the wait for the start token -/

@[simp] theorem enable_timeout_timer_wire (hw : AvrBits) (s : Device) :
    (enable_timeout_timer hw s).wire = s.wire := rfl

@[simp] theorem enable_timeout_timer_card (hw : AvrBits) (s : Device) :
    (enable_timeout_timer hw s).card = s.card := rfl

@[simp] theorem enable_timeout_timer_compare_match (hw : AvrBits) (s : Device) :
    (enable_timeout_timer hw s).compare_match = s.compare_match := rfl

@[simp] theorem enable_timeout_timer_PORTB (hw : AvrBits) (s : Device) :
    (enable_timeout_timer hw s).PORTB = s.PORTB := rfl

@[simp] theorem enable_timeout_timer_use_block_address (hw : AvrBits) (s : Device) :
    (enable_timeout_timer hw s).sd_status.use_block_address
      = s.sd_status.use_block_address := rfl

@[simp] theorem enable_timeout_timer_reread (hw : AvrBits) (s : Device) :
    (enable_timeout_timer hw s).reread = s.reread := rfl

@[simp] theorem spi_master_transfer_reread (hw : AvrBits) (s : Device) (b : Nat) :
    (spi_master_transfer hw s b).1.reread = s.reread := by
  unfold spi_master_transfer
  dsimp only
  split <;> rfl

@[simp] theorem spi_master_receive_byte_reread (hw : AvrBits) (s : Device) :
    (spi_master_receive_byte hw s).1.reread = s.reread :=
  spi_master_transfer_reread hw s 0xFF

@[simp] theorem clock_bytes_reread (hw : AvrBits) (n : Nat) (s : Device) :
    (clock_bytes hw n s).reread = s.reread := by
  induction n generalizing s with
  | zero => simp
  | succ n ih => rw [clock_bytes_succ, ih]; simp

/-- A flag that is clear in memory is read as clear. -/
theorem read_timed_out_clear (s : Device) (h : s.sd_status.timed_out = false) :
    read_timed_out s = false := by
  simp [read_timed_out, h]

/-- A read that is not served from memory gives `false`. -/
theorem read_timed_out_kept (s : Device) (h : s.reread s.wire.length = false) :
    read_timed_out s = false := by
  simp [read_timed_out, h]

/-- A read that is served from memory gives the member. -/
theorem read_timed_out_reread (s : Device) (h : s.reread s.wire.length = true) :
    read_timed_out s = s.sd_status.timed_out := by
  simp [read_timed_out, h]

/-- A flag that is clear in memory after each of the first `k` polls is read as
clear after each of them. -/
theorem fill_read_clear (hw : AvrBits) (k : Nat) (s : Device)
    (hfill : ∀ i, i < k → s.card (s.wire.length + i) % 256 = 0xFF ∧
      (clock_bytes hw (i + 1) s).sd_status.timed_out = false) :
    ∀ i, i < k → s.card (s.wire.length + i) % 256 = 0xFF ∧
      read_timed_out (clock_bytes hw (i + 1) s) = false :=
  fun i hi => ⟨(hfill i hi).1, read_timed_out_clear _ (hfill i hi).2⟩

/-- While fill bytes arrive and the flag is read as clear, the token wait keeps
reading. -/
theorem sd_read_block_loop_fill (hw : AvrBits) (k fuel : Nat) (s : Device)
    (hfill : ∀ i, i < k → s.card (s.wire.length + i) % 256 = 0xFF ∧
      read_timed_out (clock_bytes hw (i + 1) s) = false) :
    sd_read_block_loop hw (fuel + k) s = sd_read_block_loop hw fuel (clock_bytes hw k s) := by
  induction k generalizing s with
  | zero => simp
  | succ k ih =>
    have h0 := hfill 0 (Nat.succ_pos k)
    have hb : s.card s.wire.length % 256 = 0xFF := by simpa using h0.1
    have hf : read_timed_out (spi_master_receive_byte hw s).1 = false := h0.2
    rw [← Nat.add_assoc, sd_read_block_loop]
    simp only [hf, Bool.false_eq_true, if_false, spi_master_receive_byte_snd, hb, if_true]
    rw [ih, clock_bytes_succ]
    intro i hi
    have h := hfill (i + 1) (Nat.succ_lt_succ hi)
    refine ⟨?_, h.2⟩
    simpa [Nat.add_assoc, Nat.add_comm 1 i] using h.1

/-- The token wait ends with a timeout when the flag is read as set after an
exchange. -/
theorem sd_read_block_loop_expired (hw : AvrBits) (k fuel : Nat) (s : Device)
    (hfuel : k < fuel)
    (hfill : ∀ i, i < k → s.card (s.wire.length + i) % 256 = 0xFF ∧
      read_timed_out (clock_bytes hw (i + 1) s) = false)
    (hexp : read_timed_out (clock_bytes hw (k + 1) s) = true) :
    sd_read_block_loop hw fuel s = some (clock_bytes hw (k + 1) s, none) := by
  have e : fuel = (fuel - k - 1 + 1) + k := by omega
  have hexp1 : read_timed_out (spi_master_receive_byte hw (clock_bytes hw k s)).1
      = true := by
    rw [clock_bytes_add] at hexp; exact hexp
  rw [e, sd_read_block_loop_fill hw k _ s hfill, sd_read_block_loop]
  simp only [hexp1, if_true]
  rw [clock_bytes_add]; rfl

/-- The token wait ends with the first byte other than 0xFF when the flag is read
as clear after that exchange. -/
theorem sd_read_block_loop_byte (hw : AvrBits) (k fuel : Nat) (s : Device)
    (hfuel : k < fuel)
    (hfill : ∀ i, i < k → s.card (s.wire.length + i) % 256 = 0xFF ∧
      read_timed_out (clock_bytes hw (i + 1) s) = false)
    (hclear : read_timed_out (clock_bytes hw (k + 1) s) = false)
    (hbyte : s.card (s.wire.length + k) % 256 ≠ 0xFF) :
    sd_read_block_loop hw fuel s
      = some (clock_bytes hw (k + 1) s, some (s.card (s.wire.length + k) % 256)) := by
  have e : fuel = (fuel - k - 1 + 1) + k := by omega
  have hclear1 : read_timed_out (spi_master_receive_byte hw (clock_bytes hw k s)).1
      = false := by
    rw [clock_bytes_add] at hclear; exact hclear
  rw [e, sd_read_block_loop_fill hw k _ s hfill, sd_read_block_loop]
  simp only [hclear1, Bool.false_eq_true, if_false, spi_master_receive_byte_snd,
    clock_bytes_wire_length, clock_bytes_card, hbyte]
  rw [clock_bytes_add]; rfl

/-- When no read of the flag is served from memory and the card sends only fill
bytes, the token wait does not end, whatever the handler has stored. -/
theorem sd_read_block_loop_unseen (hw : AvrBits) (fuel : Nat) (s : Device)
    (hkept : ∀ n, s.reread n = false)
    (hfill : ∀ n, s.wire.length ≤ n → s.card n % 256 = 0xFF) :
    sd_read_block_loop hw fuel s = none := by
  induction fuel generalizing s with
  | zero => rfl
  | succ fuel ih =>
    have hf : read_timed_out (spi_master_receive_byte hw s).1 = false :=
      read_timed_out_kept _ (by rw [spi_master_receive_byte_reread]; exact hkept _)
    rw [sd_read_block_loop]
    simp only [hf, Bool.false_eq_true, if_false, spi_master_receive_byte_snd,
      hfill _ (le_refl _), if_true]
    apply ih
    · intro n; rw [spi_master_receive_byte_reread]; exact hkept n
    · intro n hn
      rw [spi_master_receive_byte_card]
      apply hfill
      rw [spi_master_receive_byte_wire] at hn
      simp at hn
      omega

/-! ## What a command exchange puts on the bus -/

/-- Bytes clocked in are exchanges with 0xFF going out, at the chip-select level
of the moment. -/
theorem clock_bytes_wire_cs (hw : AvrBits) (n : Nat) (s : Device) :
    ∃ x : List Xfer, (clock_bytes hw n s).wire = s.wire ++ x ∧ x.length = n ∧
      ∀ e, e ∈ x → e.mosi = 0xFF ∧ e.cs = get_bit s.PORTB CS_BIT := by
  induction n generalizing s with
  | zero => exact ⟨[], by simp, rfl, by simp⟩
  | succ n ih =>
    obtain ⟨x, hx, hlen, hcs⟩ := ih (spi_master_receive_byte hw s).1
    refine ⟨Xfer.mk 0xFF (s.card s.wire.length % 256) (get_bit s.PORTB CS_BIT) :: x, ?_,
      by simp [hlen], ?_⟩
    · rw [clock_bytes_succ, hx]; simp
    · intro e he
      rcases List.mem_cons.mp he with h | h
      · rw [h]; exact ⟨rfl, rfl⟩
      · simpa using hcs e h

@[simp] theorem sd_send_command_crc_PORTB (hw : AvrBits) (s : Device) (c a k : Nat) :
    (sd_send_command_crc hw s c a k).PORTB = s.PORTB := by
  simp [sd_send_command_crc, sd_send_command_crc_loop, SD_CMD_ARG_SIZE]

/-- The frame bytes without the reduction to 8 bits, for a command index below 64
and a 7-bit check value. -/
theorem frame_bytes_eq (c a k : Nat) (hc : c < 64) (hk : k < 128) :
    frame_bytes c a k = [0x40 ||| c, (a >>> 24) &&& 0xFF, (a >>> 16) &&& 0xFF,
      (a >>> 8) &&& 0xFF, a &&& 0xFF, (k <<< 1) ||| 1] := by
  have h1 : ∀ c, c < 64 → (0x40 ||| c) % 256 = 0x40 ||| c := by decide
  have h2 : ∀ x : Nat, (x &&& 0xFF) % 256 = x &&& 0xFF := fun x =>
    Nat.mod_eq_of_lt (Nat.lt_succ_of_le Nat.and_le_right)
  have h3 : ∀ k, k < 128 → ((k <<< 1) ||| 1) % 256 = (k <<< 1) ||| 1 := by decide
  simp only [frame_bytes, SD_CMD_BASE, h1 c hc, h2, h3 k hk]

/-- The six exchanges of a frame, at the chip-select level of the moment. -/
theorem sd_send_command_crc_frame (hw : AvrBits) (s : Device) (c a k : Nat) :
    ∃ f : List Xfer, (sd_send_command_crc hw s c a k).wire = s.wire ++ f ∧
      f.map Xfer.mosi = frame_bytes c a k ∧ f.length = 6 ∧
      ∀ e, e ∈ f → e.cs = get_bit s.PORTB CS_BIT := by
  refine ⟨_, sd_send_command_crc_wire hw s c a k, rfl, rfl, ?_⟩
  intro e he
  simp only [List.mem_cons, List.mem_singleton, List.not_mem_nil, or_false] at he
  rcases he with h | h | h | h | h | h <;> rw [h]

/-- The bus log after a command exchange: the frame, then `n` bytes clocked in, all
with the chip-select bit cleared by `sd_cs_select`. -/
theorem after_command_wire (hw : AvrBits) (s : Device) (c a k n : Nat) :
    ∃ x : List Xfer, (after_command hw s c a k n).wire = s.wire ++ x ∧
      (x.take 6).map Xfer.mosi = frame_bytes c a k ∧ x.length = 6 + n ∧
      ∀ e, e ∈ x → e.cs = get_bit (clear_bit s.PORTB CS_BIT % 256) CS_BIT := by
  obtain ⟨f, hf, hfm, hfl, hfc⟩ := sd_send_command_crc_frame hw (sd_cs_select s).1 c a k
  obtain ⟨y, hy, hlen, hcs⟩ :=
    clock_bytes_wire_cs hw n (sd_send_command_crc hw (sd_cs_select s).1 c a k)
  have hP : (sd_cs_select s).1.PORTB = clear_bit s.PORTB CS_BIT % 256 := rfl
  rw [sd_send_command_crc_PORTB, hP] at hcs
  rw [hP] at hfc
  refine ⟨f ++ y, ?_, ?_, ?_, ?_⟩
  · simp only [after_command, sd_cs_restore_wire, hy, hf, sd_cs_select_wire,
      List.append_assoc]
  · rw [List.take_append_of_le_length (by omega), List.take_of_length_le (by omega), hfm]
  · simp [hlen, hfl]
  · intro e he
    rcases List.mem_append.mp he with h | h
    · exact hfc e h
    · exact (hcs e h).2

/-- Every command exchange returns, in a state of the form `after_command`, and
hands back a payload exactly when it was given a pointer. -/
theorem command_outcome (hw : AvrBits) (s : Device) (c : sd_command_t) (a k : Nat)
    (response : Option sd_response_t) :
    ∃ n err v, sd_send_command_crc_with_response hw s c a k response
      = some (after_command hw s c a k n, err, response.map (fun _ => v)) := by
  rcases first_status_or_silent (fun i => s.card (s.wire.length + 6 + i) % 256) 11 with
    ⟨j, hj, hf, hst⟩ | hsil
  · have hj10 : j ≤ SD_RESPONSE_MAX_DELAY_BYTES := by
      simp only [SD_RESPONSE_MAX_DELAY_BYTES]; omega
    cases hben : error_is_benign (response_get_error (s.card (s.wire.length + 6 + j) % 256))
    · exact ⟨_, _, _, command_fatal hw j s c a k response hj10 hf hst hben⟩
    · by_cases hc : c = CMD8 ∨ c = CMD58
      · have hx : response_get_extra_size c = 4 := by simp [response_get_extra_size, hc]
        exact ⟨_, _, _, command_benign_four hw j s c a k response hx hj10 hf hben⟩
      · have hx : response_get_extra_size c = 0 := by simp [response_get_extra_size, hc]
        exact ⟨_, _, _, command_benign_zero hw j s c a k response hx hj10 hf hben⟩
  · exact ⟨_, _, _, command_silent hw s c a k response hsil⟩

/-! ## Chip select around a command exchange -/

set_option maxRecDepth 100000 in
/-- On an 8-bit port value, clearing the chip-select bit and restoring the level
read before gives the port value back, and the bit is 0 in between. -/
theorem cs_select_restore_bits : ∀ P, P < 256 →
    change_bit (clear_bit P CS_BIT % 256) CS_BIT (get_bit P CS_BIT != 0).toNat % 256 = P ∧
    get_bit (clear_bit P CS_BIT % 256) CS_BIT = 0 := by
  decide

theorem after_command_PORTB (hw : AvrBits) (s : Device) (c a k n : Nat) :
    (after_command hw s c a k n).PORTB
      = change_bit (clear_bit s.PORTB CS_BIT % 256) CS_BIT
          (get_bit s.PORTB CS_BIT != 0).toNat % 256 := by
  simp [after_command, sd_cs_restore, sd_cs_select]

/-- One command exchange on an 8-bit port value: it returns, every exchange it adds
to the log has chip select low, and `PORTB` is as at entry. -/
theorem command_chip_select (hw : AvrBits) (s : Device) (c : sd_command_t) (a k : Nat)
    (response : Option sd_response_t) (hP : s.PORTB < 256) :
    ∃ s1 err response1 x,
      sd_send_command_crc_with_response hw s c a k response = some (s1, err, response1) ∧
      s1.wire = s.wire ++ x ∧ (∀ e, e ∈ x → e.cs = 0) ∧ s1.PORTB = s.PORTB := by
  obtain ⟨n, err, v, h⟩ := command_outcome hw s c a k response
  obtain ⟨x, hx, _, _, hcs⟩ := after_command_wire hw s c a k n
  refine ⟨_, err, _, x, h, hx, ?_, ?_⟩
  · intro e he
    rw [hcs e he]
    exact (cs_select_restore_bits s.PORTB hP).2
  · rw [after_command_PORTB]
    exact (cs_select_restore_bits s.PORTB hP).1

/-- C17: for every 8-bit value of `PORTB` at entry and every outcome,
`sd_send_command_crc_with_response` returns, all its exchanges are made with chip
select low, and it leaves `PORTB` (the chip-select bit and every other bit) as at
entry, so that a call entered with chip select low ends with it low; the same
holds for `sd_is_initialized`. -/
theorem C17_chip_select_restored (hw : AvrBits) (s : Device) (c : sd_command_t) (a k : Nat)
    (response : Option sd_response_t) (hP : s.PORTB < 256) :
    (∃ s1 err response1 x,
      sd_send_command_crc_with_response hw s c a k response = some (s1, err, response1) ∧
      s1.wire = s.wire ++ x ∧ (∀ e, e ∈ x → e.cs = 0) ∧ s1.PORTB = s.PORTB ∧
      get_bit s1.PORTB CS_BIT = get_bit s.PORTB CS_BIT ∧
      (get_bit s.PORTB CS_BIT = 0 → get_bit s1.PORTB CS_BIT = 0)) ∧
    (∃ s2 b y, sd_is_initialized hw s = some (s2, b) ∧
      s2.wire = s.wire ++ y ∧ (∀ e, e ∈ y → e.cs = 0) ∧ s2.PORTB = s.PORTB) := by
  constructor
  · obtain ⟨s1, err, r1, x, h, hx, hcs, hp⟩ := command_chip_select hw s c a k response hP
    exact ⟨s1, err, r1, x, h, hx, hcs, hp, by rw [hp], fun h0 => by rw [hp]; exact h0⟩
  · obtain ⟨s1, err, r1, x, h, hx, hcs, hp⟩ :=
      command_chip_select hw s CMD58 0 0x00 (some (sd_response_t.mk 0)) hP
    unfold sd_is_initialized sd_send_command_with_response
    rw [h]
    by_cases he : err ≠ SD_ERROR_OK
    · exact ⟨s1, false, x, by dsimp only; rw [if_pos he], hx, hcs, hp⟩
    · exact ⟨s1, _, x, by dsimp only; rw [if_neg he], hx, hcs, hp⟩

/-- Witness of C17: CMD58 on a device whose chip select is high at entry. -/
theorem C17_chip_select_restored_witness :
    (∃ s1 err response1 x,
      sd_send_command_crc_with_response atmega128 (test_device_with [] 1 []) CMD58 0 0 none
        = some (s1, err, response1) ∧
      s1.wire = (test_device_with [] 1 []).wire ++ x ∧ (∀ e, e ∈ x → e.cs = 0) ∧
      s1.PORTB = (test_device_with [] 1 []).PORTB ∧
      get_bit s1.PORTB CS_BIT = get_bit (test_device_with [] 1 []).PORTB CS_BIT ∧
      (get_bit (test_device_with [] 1 []).PORTB CS_BIT = 0 → get_bit s1.PORTB CS_BIT = 0)) ∧
    (∃ s2 b y, sd_is_initialized atmega128 (test_device_with [] 1 []) = some (s2, b) ∧
      s2.wire = (test_device_with [] 1 []).wire ++ y ∧ (∀ e, e ∈ y → e.cs = 0) ∧
      s2.PORTB = (test_device_with [] 1 []).PORTB) :=
  C17_chip_select_restored atmega128 (test_device_with [] 1 []) CMD58 0 0 none (by decide)

/-! ## Status query -/

/-- The offset of the first byte other than 0xFF is unique. -/
theorem first_status_unique (f : Nat → Nat) (j j1 : Nat)
    (hf : ∀ i, i < j → f i = 0xFF) (hst : f j ≠ 0xFF)
    (hf1 : ∀ i, i < j1 → f i = 0xFF) (hst1 : f j1 ≠ 0xFF) : j = j1 := by
  rcases Nat.lt_trichotomy j j1 with h | h | h
  · exact absurd (hf1 j h) hst
  · exact h
  · exact absurd (hf j1 h) hst1

/-- A status byte that decodes to Ok is not the fill byte. -/
theorem ok_ne_fill (b : Nat) (hb : b < 256) (hok : response_get_error b = SD_ERROR_OK) :
    b ≠ 0xFF :=
  benign_ne_fill b hb (by rw [hok]; rfl)

/-- The test `value & (1UL << 31)` reads bit 31. -/
theorem and_bit31_ne_zero (v : Nat) : (v &&& (1 <<< 31) != 0) = v.testBit 31 := by
  rw [Nat.one_shiftLeft, Nat.and_comm, Nat.two_pow_and]
  cases v.testBit 31 <;> simp

/-- C19: `sd_is_initialized` always returns, the first six bytes it sends are the
CMD58 frame with argument 0, and its result is true exactly when the status byte
(found within the first eleven bytes after the frame) decodes to Ok and bit 31 of
the payload that follows is set; in every other case it returns false. -/
theorem C19_status_query (hw : AvrBits) (s : Device) :
    ∃ s1 b x, sd_is_initialized hw s = some (s1, b) ∧ s1.wire = s.wire ++ x ∧
      (x.take 6).map Xfer.mosi = [0x40 ||| 58, 0x00, 0x00, 0x00, 0x00, 0x01] ∧
      (b = true ↔ ∃ j, j ≤ 10 ∧
        (∀ i, i < j → s.card (s.wire.length + 6 + i) % 256 = 0xFF) ∧
        response_get_error (s.card (s.wire.length + 6 + j) % 256) = SD_ERROR_OK ∧
        (s.card (s.wire.length + 6 + j + 1) % 256 * 2 ^ 24
          + s.card (s.wire.length + 6 + j + 2) % 256 * 2 ^ 16
          + s.card (s.wire.length + 6 + j + 3) % 256 * 2 ^ 8
          + s.card (s.wire.length + 6 + j + 4) % 256).testBit 31 = true) := by
  have hframe : frame_bytes CMD58 0 0x00 = [0x40 ||| 58, 0x00, 0x00, 0x00, 0x00, 0x01] := by
    decide
  have hlt : ∀ n, s.card n % 256 < 256 := fun n => Nat.mod_lt _ (by norm_num)
  rcases first_status_or_silent (fun i => s.card (s.wire.length + 6 + i) % 256) 11 with
    ⟨j, hj, hf, hst⟩ | hsil
  · have hj10 : j ≤ SD_RESPONSE_MAX_DELAY_BYTES := by
      simp only [SD_RESPONSE_MAX_DELAY_BYTES]; omega
    have huniq : ∀ j1, (∀ i, i < j1 → s.card (s.wire.length + 6 + i) % 256 = 0xFF) →
        response_get_error (s.card (s.wire.length + 6 + j1) % 256) = SD_ERROR_OK → j = j1 :=
      fun j1 h1 h2 => first_status_unique (fun i => s.card (s.wire.length + 6 + i) % 256)
        j j1 hf hst h1 (ok_ne_fill _ (hlt _) h2)
    cases hben : error_is_benign (response_get_error (s.card (s.wire.length + 6 + j) % 256))
    · have h := command_fatal hw j s CMD58 0 0x00 (some (sd_response_t.mk 0)) hj10 hf hst hben
      obtain ⟨x, hx, hfm, _, _⟩ := after_command_wire hw s CMD58 0 0x00 (j + 1)
      have hne : response_get_error (s.card (s.wire.length + 6 + j) % 256) ≠ SD_ERROR_OK := by
        intro h0; rw [h0] at hben; exact absurd hben (by decide)
      refine ⟨_, false, x, ?_, hx, by rw [hfm, hframe], ?_⟩
      · unfold sd_is_initialized sd_send_command_with_response
        rw [h]; dsimp only; rw [if_pos hne]
      · constructor
        · intro h0; exact absurd h0 (by decide)
        · rintro ⟨j1, _, h1, h2, _⟩
          rw [← huniq j1 h1 h2] at h2
          exact absurd h2 hne
    · have h := command_benign_four hw j s CMD58 0 0x00 (some (sd_response_t.mk 0))
        (by decide) hj10 hf hben
      obtain ⟨x, hx, hfm, _, _⟩ := after_command_wire hw s CMD58 0 0x00 (j + 5)
      by_cases hok : response_get_error (s.card (s.wire.length + 6 + j) % 256) = SD_ERROR_OK
      · refine ⟨_, (payload_value (s.card (s.wire.length + 6 + j + 1) % 256)
            (s.card (s.wire.length + 6 + j + 2) % 256)
            (s.card (s.wire.length + 6 + j + 3) % 256)
            (s.card (s.wire.length + 6 + j + 4) % 256)).testBit 31, x, ?_, hx,
          by rw [hfm, hframe], ?_⟩
        · unfold sd_is_initialized sd_send_command_with_response
          rw [h]; dsimp only; rw [if_neg (by rw [hok]; exact fun h0 => h0 rfl)]
          simp only [Option.map_some', deref, Option.getD_some, and_bit31_ne_zero]
        · constructor
          · intro hb
            exact ⟨j, by omega, hf, hok, hb⟩
          · rintro ⟨j1, _, h1, h2, h3⟩
            rw [← huniq j1 h1 h2] at h3
            exact h3
      · refine ⟨_, false, x, ?_, hx, by rw [hfm, hframe], ?_⟩
        · unfold sd_is_initialized sd_send_command_with_response
          rw [h]; dsimp only; rw [if_pos hok]
        · constructor
          · intro h0; exact absurd h0 (by decide)
          · rintro ⟨j1, _, h1, h2, _⟩
            rw [← huniq j1 h1 h2] at h2
            exact absurd h2 hok
  · have h := command_silent hw s CMD58 0 0x00 (some (sd_response_t.mk 0)) hsil
    obtain ⟨x, hx, hfm, _, _⟩ :=
      after_command_wire hw s CMD58 0 0x00 (SD_RESPONSE_MAX_DELAY_BYTES + 1)
    refine ⟨_, false, x, ?_, hx, by rw [hfm, hframe], ?_⟩
    · unfold sd_is_initialized sd_send_command_with_response
      rw [h]; dsimp only; rw [if_pos (by decide)]
    · constructor
      · intro h0; exact absurd h0 (by decide)
      · rintro ⟨j1, hj1, _, h2, _⟩
        have := hsil j1 (by omega)
        simp only at this
        rw [this] at h2
        exact absurd h2 (by decide)

/-! ## Storage layer glue -/

/-- C20: `disk_read` returns RES_PARERR with the device untouched when
`count != 1`; when `count == 1` its outcome is that of the one call
`sd_read_block(buff, sector)`, with Ok mapped to RES_OK, Idle to RES_NOTRDY and
every other error to RES_ERROR. -/
theorem C20_disk_read (hw : AvrBits) (fuel : Nat) (s : Device) (pdrv : Nat)
    (buff : Option (List Nat)) (sector count : Nat) :
    (count ≠ 1 → disk_read hw fuel s pdrv buff sector count = some (s, RES_PARERR, buff)) ∧
    (count = 1 → disk_read hw fuel s pdrv buff sector count
      = (sd_read_block hw fuel s buff (sector % 2 ^ 32)).map
          (fun r => (r.1, sd_error_to_result r.2.1, r.2.2))) ∧
    sd_error_to_result SD_ERROR_OK = RES_OK ∧
    sd_error_to_result SD_ERROR_IDLE = RES_NOTRDY ∧
    (∀ err, err ≠ SD_ERROR_OK → err ≠ SD_ERROR_IDLE → sd_error_to_result err = RES_ERROR) := by
  refine ⟨fun h => ?_, fun h => ?_, rfl, rfl, fun err h1 h2 => ?_⟩
  · unfold disk_read; rw [if_pos h]
  · unfold disk_read; rw [if_neg (by rw [h]; exact fun h0 => h0 rfl)]
    cases sd_read_block hw fuel s buff (sector % 2 ^ 32) with
    | none => rfl
    | some r => rfl
  · cases err <;> first | rfl | exact absurd rfl h1 | exact absurd rfl h2

/-! ## Block read: command and address -/

/-- The steps of `sd_read_block` after the CMD17 exchange, as a function of its
outcome. -/
theorem sd_read_block_unfold (hw : AvrBits) (fuel : Nat) (s : Device)
    (buffer : Option (List Nat)) (n : Nat) :
    sd_read_block hw fuel s buffer n =
      match sd_send_command_crc_with_response hw (sd_cs_select s).1 CMD17 (read_address s n)
          0x00 none with
      | none => none
      | some (s1, err, _) =>
        if err ≠ SD_ERROR_OK then some (s1, err, buffer)
        else
          match sd_read_block_loop hw fuel (enable_timeout_timer hw s1) with
          | none => none
          | some (s2, none) =>
            some (sd_cs_restore s2 (sd_cs_select s).2, SD_ERROR_TIMEOUT, buffer)
          | some (s2, some response_start) =>
            if response_start ≠ SD_READ_START_TOKEN then
              some (sd_cs_restore s2 (sd_cs_select s).2, SD_ERROR_GENERIC, buffer)
            else
              some (sd_cs_restore
                  (spi_master_receive_data hw
                    (spi_master_receive_data hw s2 buffer SD_BLOCK_SIZE).1 none 2).1
                  (sd_cs_select s).2,
                SD_ERROR_OK, (spi_master_receive_data hw s2 buffer SD_BLOCK_SIZE).2) := rfl

/-- The token wait only appends to the bus log. -/
theorem sd_read_block_loop_wire (hw : AvrBits) (fuel : Nat) (s : Device)
    (r : Device × Option Nat) (h : sd_read_block_loop hw fuel s = some r) :
    ∃ y : List Xfer, r.1.wire = s.wire ++ y := by
  induction fuel generalizing s with
  | zero => simp [sd_read_block_loop] at h
  | succ fuel ih =>
    rw [sd_read_block_loop] at h
    have hw1 : (spi_master_receive_byte hw s).1.wire
        = s.wire ++ [Xfer.mk 0xFF (s.card s.wire.length % 256) (get_bit s.PORTB CS_BIT)] :=
      spi_master_receive_byte_wire hw s
    split at h
    · cases h; exact ⟨_, hw1⟩
    · split at h
      · obtain ⟨y, hy⟩ := ih _ h
        exact ⟨[Xfer.mk 0xFF (s.card s.wire.length % 256) (get_bit s.PORTB CS_BIT)] ++ y,
          by rw [hy, hw1, List.append_assoc]⟩
      · cases h; exact ⟨_, hw1⟩

/-- The device after `spi_master_receive_data` does not depend on the buffer. -/
theorem spi_master_receive_data_loop_fst (hw : AvrBits) (len k : Nat) (s : Device)
    (data : Option (List Nat)) :
    (spi_master_receive_data_loop hw len k s data).1 = clock_bytes hw k s := by
  induction k generalizing s data with
  | zero => rfl
  | succ k ih => rw [spi_master_receive_data_loop, ih, clock_bytes_succ]

theorem spi_master_receive_data_fst (hw : AvrBits) (s : Device) (data : Option (List Nat))
    (len : Nat) : (spi_master_receive_data hw s data len).1 = clock_bytes hw len s :=
  spi_master_receive_data_loop_fst hw len len s data

/-- Every return of `sd_read_block` comes after the CMD17 exchange with the
address of `read_address`: the exchange itself always returns, its first six bytes
are the CMD17 frame, a result other than Ok is returned at once with the buffer
untouched, and every returned device has a bus log that extends the exchange. -/
theorem sd_read_block_first_exchange (hw : AvrBits) (fuel : Nat) (s : Device)
    (buffer : Option (List Nat)) (n : Nat) :
    ∃ s1 err x,
      sd_send_command_with_response hw (sd_cs_select s).1 CMD17 (read_address s n) none
        = some (s1, err, none) ∧
      s1.wire = s.wire ++ x ∧
      (x.take 6).map Xfer.mosi = frame_bytes CMD17 (read_address s n) 0x00 ∧
      (err ≠ SD_ERROR_OK → sd_read_block hw fuel s buffer n = some (s1, err, buffer)) ∧
      (∀ r, sd_read_block hw fuel s buffer n = some r → ∃ y, r.1.wire = s1.wire ++ y) := by
  obtain ⟨m, err, v, h⟩ :=
    command_outcome hw (sd_cs_select s).1 CMD17 (read_address s n) 0x00 none
  obtain ⟨x, hx, hfm, _, _⟩ :=
    after_command_wire hw (sd_cs_select s).1 CMD17 (read_address s n) 0x00 m
  rw [Option.map_none'] at h
  refine ⟨_, err, x, h, hx, hfm, fun hne => ?_, fun r hr => ?_⟩
  · rw [sd_read_block_unfold, h]; dsimp only; rw [if_pos hne]
  · rw [sd_read_block_unfold, h] at hr
    dsimp only at hr
    split at hr
    · cases hr; exact ⟨[], by simp⟩
    · split at hr
      · cases hr
      · rename_i s2 hl
        obtain ⟨y, hy⟩ := sd_read_block_loop_wire hw fuel _ _ hl
        cases hr
        exact ⟨y, by simpa using hy⟩
      · rename_i s2 b hl
        obtain ⟨y, hy⟩ := sd_read_block_loop_wire hw fuel _ _ hl
        split at hr
        · cases hr
          exact ⟨y, by simpa using hy⟩
        · cases hr
          obtain ⟨z, hz, _⟩ := clock_bytes_wire hw 2 (clock_bytes hw SD_BLOCK_SIZE s2)
          obtain ⟨z1, hz1, _⟩ := clock_bytes_wire hw SD_BLOCK_SIZE s2
          refine ⟨y ++ (z1 ++ z), ?_⟩
          simp only [sd_cs_restore_wire, spi_master_receive_data_fst, hz, hz1]
          simp only [enable_timeout_timer_wire] at hy
          simp only [hy, List.append_assoc]

/-! ## Block read: token and data -/

/-- Content of the buffer after the receive loop: the `k` bytes received fill the
places `len - k` to `len - 1`, the rest is as before. -/
theorem spi_master_receive_data_loop_snd (hw : AvrBits) (len k : Nat) (s : Device)
    (d : List Nat) (hk : k ≤ len) :
    ∃ d1, (spi_master_receive_data_loop hw len k s (some d)).2 = some d1 ∧
      d1.length = d.length ∧
      ∀ m, d1[m]? = if len - k ≤ m ∧ m < len ∧ m < d.length
        then some (s.card (s.wire.length + (m - (len - k))) % 256) else d[m]? := by
  induction k generalizing s d with
  | zero =>
    refine ⟨d, rfl, rfl, fun m => ?_⟩
    rw [if_neg (by omega)]
  | succ k ih =>
    obtain ⟨d1, h1, h2, h3⟩ := ih (spi_master_receive_byte hw s).1
      (d.set (len - (k + 1)) (spi_master_receive_byte hw s).2) (by omega)
    refine ⟨d1, ?_, by rw [h2, List.length_set], fun m => ?_⟩
    · rw [spi_master_receive_data_loop]
      exact h1
    · rw [h3 m]
      simp only [List.length_set, spi_master_receive_byte_card, spi_master_receive_byte_wire,
        List.length_append, List.length_singleton, spi_master_receive_byte_snd,
        List.getElem?_set]
      by_cases hA : len - k ≤ m ∧ m < len ∧ m < d.length
      · rw [if_pos hA, if_pos (by omega)]
        congr 3
        omega
      · rw [if_neg hA]
        by_cases hB : len - (k + 1) = m
        · rw [if_pos hB]
          by_cases hC : len - (k + 1) < d.length
          · rw [if_pos hC, if_pos (by omega)]
            congr 3
            omega
          · rw [if_neg hC, if_neg (by omega)]
            rw [List.getElem?_eq_none (by omega)]
        · rw [if_neg hB, if_neg (by omega)]

@[simp] theorem read_armed_wire_length (hw : AvrBits) (s : Device) (n j : Nat) :
    (read_armed hw s n j).wire.length = s.wire.length + 6 + (j + 1) := by
  simp [read_armed]

@[simp] theorem read_armed_card (hw : AvrBits) (s : Device) (n j : Nat) :
    (read_armed hw s n j).card = s.card := by
  simp [read_armed]

@[simp] theorem sd_send_command_crc_reread (hw : AvrBits) (s : Device) (c a k : Nat) :
    (sd_send_command_crc hw s c a k).reread = s.reread := by
  simp [sd_send_command_crc, sd_send_command_crc_loop, SD_CMD_ARG_SIZE]

@[simp] theorem after_command_reread (hw : AvrBits) (s : Device) (c a k n : Nat) :
    (after_command hw s c a k n).reread = s.reread := by
  simp [after_command, sd_cs_restore, sd_cs_select]

@[simp] theorem read_armed_reread (hw : AvrBits) (s : Device) (n j : Nat) :
    (read_armed hw s n j).reread = s.reread := by
  simp [read_armed, sd_cs_select]

/-- When CMD17 is answered by Ok at offset `j`, `sd_read_block` arms the timer and
waits for the token in the state `read_armed`. -/
theorem sd_read_block_started (hw : AvrBits) (fuel : Nat) (s : Device)
    (buffer : Option (List Nat)) (n j : Nat)
    (hj : j ≤ 10)
    (hfill : ∀ i, i < j → s.card (s.wire.length + 6 + i) % 256 = 0xFF)
    (hok : response_get_error (s.card (s.wire.length + 6 + j) % 256) = SD_ERROR_OK) :
    sd_read_block hw fuel s buffer n =
      match sd_read_block_loop hw fuel (read_armed hw s n j) with
      | none => none
      | some (s2, none) =>
        some (sd_cs_restore s2 (sd_cs_select s).2, SD_ERROR_TIMEOUT, buffer)
      | some (s2, some response_start) =>
        if response_start ≠ SD_READ_START_TOKEN then
          some (sd_cs_restore s2 (sd_cs_select s).2, SD_ERROR_GENERIC, buffer)
        else
          some (sd_cs_restore
              (spi_master_receive_data hw
                (spi_master_receive_data hw s2 buffer SD_BLOCK_SIZE).1 none 2).1
              (sd_cs_select s).2,
            SD_ERROR_OK, (spi_master_receive_data hw s2 buffer SD_BLOCK_SIZE).2) := by
  have hben : error_is_benign (response_get_error
      ((sd_cs_select s).1.card ((sd_cs_select s).1.wire.length + 6 + j) % 256)) = true := by
    simp only [sd_cs_select_card, sd_cs_select_wire, hok]; rfl
  have h := command_benign_zero hw j (sd_cs_select s).1 CMD17 (read_address s n) 0x00 none
    (by decide) hj (by simpa using hfill) hben
  simp only [sd_cs_select_card, sd_cs_select_wire, hok, Option.map_none'] at h
  rw [sd_read_block_unfold, h]
  dsimp only
  rw [if_neg (fun h0 => h0 rfl)]
  rfl

/-- The timeout path of `sd_read_block`. -/
theorem sd_read_block_expired (hw : AvrBits) (fuel : Nat) (s : Device)
    (buffer : Option (List Nat)) (n j k : Nat)
    (hj : j ≤ 10)
    (hfill : ∀ i, i < j → s.card (s.wire.length + 6 + i) % 256 = 0xFF)
    (hok : response_get_error (s.card (s.wire.length + 6 + j) % 256) = SD_ERROR_OK)
    (hfuel : k < fuel)
    (hpoll : ∀ i, i < k → s.card (s.wire.length + 6 + (j + 1) + i) % 256 = 0xFF ∧
      read_timed_out (clock_bytes hw (i + 1) (read_armed hw s n j)) = false)
    (hexp : read_timed_out (clock_bytes hw (k + 1) (read_armed hw s n j)) = true) :
    sd_read_block hw fuel s buffer n
      = some (sd_cs_restore (clock_bytes hw (k + 1) (read_armed hw s n j)) (sd_cs_select s).2,
          SD_ERROR_TIMEOUT, buffer) := by
  rw [sd_read_block_started hw fuel s buffer n j hj hfill hok,
    sd_read_block_loop_expired hw k fuel _ hfuel (by simpa using hpoll) hexp]

/-- The path of `sd_read_block` on which the wait ends with a byte other than
0xFF while the flag is read as clear. -/
theorem sd_read_block_answered (hw : AvrBits) (fuel : Nat) (s : Device)
    (buffer : Option (List Nat)) (n j k : Nat)
    (hj : j ≤ 10)
    (hfill : ∀ i, i < j → s.card (s.wire.length + 6 + i) % 256 = 0xFF)
    (hok : response_get_error (s.card (s.wire.length + 6 + j) % 256) = SD_ERROR_OK)
    (hfuel : k < fuel)
    (hpoll : ∀ i, i < k → s.card (s.wire.length + 6 + (j + 1) + i) % 256 = 0xFF ∧
      read_timed_out (clock_bytes hw (i + 1) (read_armed hw s n j)) = false)
    (hbyte : s.card (s.wire.length + 6 + (j + 1) + k) % 256 ≠ 0xFF)
    (hclear : read_timed_out (clock_bytes hw (k + 1) (read_armed hw s n j)) = false) :
    sd_read_block hw fuel s buffer n =
      if s.card (s.wire.length + 6 + (j + 1) + k) % 256 ≠ SD_READ_START_TOKEN then
        some (sd_cs_restore (clock_bytes hw (k + 1) (read_armed hw s n j)) (sd_cs_select s).2,
          SD_ERROR_GENERIC, buffer)
      else
        some (sd_cs_restore
            (clock_bytes hw 2 (clock_bytes hw SD_BLOCK_SIZE
              (clock_bytes hw (k + 1) (read_armed hw s n j))))
            (sd_cs_select s).2,
          SD_ERROR_OK,
          (spi_master_receive_data hw (clock_bytes hw (k + 1) (read_armed hw s n j)) buffer
            SD_BLOCK_SIZE).2) := by
  rw [sd_read_block_started hw fuel s buffer n j hj hfill hok,
    sd_read_block_loop_byte hw k fuel _ hfuel (by simpa using hpoll) hclear
      (by simpa using hbyte)]
  simp only [read_armed_card, read_armed_wire_length, spi_master_receive_data_fst]

/-- The success path of `sd_read_block` with a caller buffer of 512 bytes. -/
theorem sd_read_block_token (hw : AvrBits) (fuel : Nat) (s : Device) (b : List Nat)
    (n j k : Nat) (hb : b.length = 512)
    (hj : j ≤ 10)
    (hfill : ∀ i, i < j → s.card (s.wire.length + 6 + i) % 256 = 0xFF)
    (hok : response_get_error (s.card (s.wire.length + 6 + j) % 256) = SD_ERROR_OK)
    (hfuel : k < fuel)
    (hpoll : ∀ i, i < k → s.card (s.wire.length + 6 + (j + 1) + i) % 256 = 0xFF ∧
      (clock_bytes hw (i + 1) (read_armed hw s n j)).sd_status.timed_out = false)
    (htok : s.card (s.wire.length + 6 + (j + 1) + k) % 256 = 0xFE)
    (hclear : (clock_bytes hw (k + 1) (read_armed hw s n j)).sd_status.timed_out = false) :
    ∃ s1 b1, sd_read_block hw fuel s (some b) n = some (s1, SD_ERROR_OK, some b1) ∧
      b1.length = 512 ∧
      (∀ i, i < 512 →
        b1[i]? = some (s.card (s.wire.length + 6 + (j + 1) + (k + 1) + i) % 256)) ∧
      s1.wire.length = s.wire.length + 6 + (j + 1) + (k + 1) + 514 := by
  obtain ⟨b1, h1, h2, h3⟩ := spi_master_receive_data_loop_snd hw SD_BLOCK_SIZE SD_BLOCK_SIZE
    (clock_bytes hw (k + 1) (read_armed hw s n j)) b (Nat.le_refl _)
  refine ⟨sd_cs_restore (clock_bytes hw 2 (clock_bytes hw SD_BLOCK_SIZE
      (clock_bytes hw (k + 1) (read_armed hw s n j)))) (sd_cs_select s).2,
    b1, ?_, by rw [h2, hb], fun i hi => ?_, ?_⟩
  · rw [sd_read_block_answered hw fuel s (some b) n j k hj hfill hok hfuel
      (fun i hi => ⟨(hpoll i hi).1, read_timed_out_clear _ (hpoll i hi).2⟩)
      (by rw [htok]; decide) (read_timed_out_clear _ hclear), htok, if_neg (by decide)]
    unfold spi_master_receive_data
    rw [h1]
  · rw [h3 i, if_pos (by simp only [SD_BLOCK_SIZE]; omega)]
    simp only [clock_bytes_card, read_armed_card, clock_bytes_wire_length,
      read_armed_wire_length, SD_BLOCK_SIZE, Nat.sub_self, Nat.sub_zero]
  · simp only [sd_cs_restore_wire, clock_bytes_wire_length, read_armed_wire_length,
      SD_BLOCK_SIZE]

/-! ## Block read: the claims -/

/-- C13 (counterexample): block number 2^23 under byte addressing.  The CMD17 frame
carries the argument bytes 00 00 00 00, that is the argument 0, not the product
2^23 * 512. -/
theorem C13_counterexample :
    (test_device []).sd_status.use_block_address = false ∧ 2 ^ 23 < 2 ^ 32 ∧
    (sd_read_block atmega128 1 (test_device []) none (2 ^ 23)).map
        (fun r => (r.1.wire.take 6).map Xfer.mosi)
      = some [0x40 ||| 17, 0x00, 0x00, 0x00, 0x00, 0x01] ∧
    payload_value 0x00 0x00 0x00 0x00 ≠ 2 ^ 23 * 512 := by
  decide

/-- C13 (amended): for every 32-bit block number `n`, `sd_read_block` first makes
the CMD17 exchange, whose frame carries the four bytes, most significant first,
of the argument `n` under block addressing and `(n * 512) mod 2^32` under byte
addressing (the exact product when `n < 2^23`); every return of `sd_read_block`
comes after that exchange. -/
theorem C13_cmd17_argument (hw : AvrBits) (fuel : Nat) (s : Device)
    (buffer : Option (List Nat)) (n : Nat) (hn : n < 2 ^ 32) :
    ∃ s1 err x arg,
      arg = (if s.sd_status.use_block_address = true then n else n * 512 % 2 ^ 32) ∧
      (n < 2 ^ 23 → n * 512 % 2 ^ 32 = n * 512) ∧
      sd_send_command_with_response hw (sd_cs_select s).1 CMD17 arg none
        = some (s1, err, none) ∧
      s1.wire = s.wire ++ x ∧
      (x.take 6).map Xfer.mosi = [0x40 ||| 17, (arg >>> 24) &&& 0xFF, (arg >>> 16) &&& 0xFF,
        (arg >>> 8) &&& 0xFF, arg &&& 0xFF, 0x01] ∧
      ((arg >>> 24) &&& 0xFF) * 2 ^ 24 + ((arg >>> 16) &&& 0xFF) * 2 ^ 16
        + ((arg >>> 8) &&& 0xFF) * 2 ^ 8 + (arg &&& 0xFF) = arg ∧
      (err ≠ SD_ERROR_OK → sd_read_block hw fuel s buffer n = some (s1, err, buffer)) ∧
      (∀ r, sd_read_block hw fuel s buffer n = some r → ∃ y, r.1.wire = s1.wire ++ y) := by
  obtain ⟨s1, err, x, h1, h2, h3, h4, h5⟩ := sd_read_block_first_exchange hw fuel s buffer n
  have harg : read_address s n < 2 ^ 32 := by
    unfold read_address
    split
    · exact hn
    · exact Nat.mod_lt _ (by norm_num)
  refine ⟨s1, err, x, read_address s n, rfl, fun h => Nat.mod_eq_of_lt (by omega), h1, h2, ?_,
    ?_, h4, h5⟩
  · rw [h3, frame_bytes_eq CMD17 _ 0x00 (by decide) (by decide)]
    rfl
  · have hm : ∀ x : Nat, x &&& 0xFF = x % 256 := fun x =>
      Nat.and_pow_two_sub_one_eq_mod x 8
    simp only [hm, Nat.shiftRight_eq_div_pow]
    omega

/-- Witness of C13 (amended): block 3 on a byte-addressed device. -/
theorem C13_cmd17_argument_witness :
    ∃ s1 err x arg,
      arg = (if (test_device []).sd_status.use_block_address = true then 3
        else 3 * 512 % 2 ^ 32) ∧
      (3 < 2 ^ 23 → 3 * 512 % 2 ^ 32 = 3 * 512) ∧
      sd_send_command_with_response atmega128 (sd_cs_select (test_device [])).1 CMD17 arg none
        = some (s1, err, none) ∧
      s1.wire = (test_device []).wire ++ x ∧
      (x.take 6).map Xfer.mosi = [0x40 ||| 17, (arg >>> 24) &&& 0xFF, (arg >>> 16) &&& 0xFF,
        (arg >>> 8) &&& 0xFF, arg &&& 0xFF, 0x01] ∧
      ((arg >>> 24) &&& 0xFF) * 2 ^ 24 + ((arg >>> 16) &&& 0xFF) * 2 ^ 16
        + ((arg >>> 8) &&& 0xFF) * 2 ^ 8 + (arg &&& 0xFF) = arg ∧
      (err ≠ SD_ERROR_OK →
        sd_read_block atmega128 1 (test_device []) none 3 = some (s1, err, none)) ∧
      (∀ r, sd_read_block atmega128 1 (test_device []) none 3 = some r →
        ∃ y, r.1.wire = s1.wire ++ y) :=
  C13_cmd17_argument atmega128 1 (test_device []) none 3 (by decide)

/-- C15: when CMD17 is answered by Ok and the first byte other than 0xFF, at poll
number `k` with the flag clear, is the start token 0xFE, `sd_read_block` returns
SD_ERROR_OK, the 512-byte buffer holds the 512 bytes received after the token in
order, and exactly 514 bytes are read after the token. -/
theorem C15_block_data (hw : AvrBits) (fuel : Nat) (s : Device) (b : List Nat)
    (n j k : Nat) (hb : b.length = 512)
    (hj : j ≤ 10)
    (hfill : ∀ i, i < j → s.card (s.wire.length + 6 + i) % 256 = 0xFF)
    (hok : response_get_error (s.card (s.wire.length + 6 + j) % 256) = SD_ERROR_OK)
    (hfuel : k < fuel)
    (hpoll : ∀ i, i < k → s.card (s.wire.length + 6 + (j + 1) + i) % 256 = 0xFF ∧
      (clock_bytes hw (i + 1) (read_armed hw s n j)).sd_status.timed_out = false)
    (htok : s.card (s.wire.length + 6 + (j + 1) + k) % 256 = 0xFE)
    (hclear : (clock_bytes hw (k + 1) (read_armed hw s n j)).sd_status.timed_out = false) :
    ∃ s1 b1, sd_read_block hw fuel s (some b) n = some (s1, SD_ERROR_OK, some b1) ∧
      b1.length = 512 ∧
      (∀ i, i < 512 →
        b1[i]? = some (s.card (s.wire.length + 6 + (j + 1) + (k + 1) + i) % 256)) ∧
      s1.wire.length = s.wire.length + 6 + (j + 1) + (k + 1) + 514 :=
  sd_read_block_token hw fuel s b n j k hb hj hfill hok hfuel hpoll htok hclear

/-- Witness of C15: CMD17 answered by 0x00, one fill byte, the token, then the
data 01 02 03 followed by 0xFF bytes. -/
theorem C15_block_data_witness :
    ∃ s1 b1, sd_read_block atmega128 2
        (test_device (List.replicate 6 0xFF ++ [0x00, 0xFF, 0xFE, 0x01, 0x02, 0x03]))
        (some (List.replicate 512 0)) 0 = some (s1, SD_ERROR_OK, some b1) ∧
      b1.length = 512 ∧
      (∀ i, i < 512 →
        b1[i]? = some
          ((test_device (List.replicate 6 0xFF ++ [0x00, 0xFF, 0xFE, 0x01, 0x02, 0x03])).card
            ((test_device
                (List.replicate 6 0xFF ++ [0x00, 0xFF, 0xFE, 0x01, 0x02, 0x03])).wire.length
              + 6 + (0 + 1) + (1 + 1) + i) % 256)) ∧
      s1.wire.length
        = (test_device
            (List.replicate 6 0xFF ++ [0x00, 0xFF, 0xFE, 0x01, 0x02, 0x03])).wire.length
          + 6 + (0 + 1) + (1 + 1) + 514 :=
  C15_block_data atmega128 2
    (test_device (List.replicate 6 0xFF ++ [0x00, 0xFF, 0xFE, 0x01, 0x02, 0x03]))
    (List.replicate 512 0) 0 0 1 (List.length_replicate 512 0) (by decide) (by decide)
    (by decide) (by decide) (by decide) (by decide) (by decide)

/-- C16 (failing input): chip select high at entry, CMD17 answered by 0x04.
`sd_read_block` returns SD_ERROR_ILLEGAL_COMMAND with the chip-select bit at 0,
not at its entry level 1; on the timeout path of the same call the bit is back
at 1. -/
theorem C16_command_error_leaves_chip_select_low :
    get_bit (test_device_with (List.replicate 6 0xFF ++ [0x04]) 1 []).PORTB CS_BIT = 1 ∧
    (∀ fuel, (sd_read_block atmega128 fuel
        (test_device_with (List.replicate 6 0xFF ++ [0x04]) 1 []) none 0).map
        (fun r => (r.2.1, get_bit r.1.PORTB CS_BIT))
      = some (SD_ERROR_ILLEGAL_COMMAND, 0)) ∧
    (sd_read_block atmega128 3
        (test_device_with (List.replicate 6 0xFF ++ [0x00]) 1 [9]) none 0).map
        (fun r => (r.2.1, get_bit r.1.PORTB CS_BIT))
      = some (SD_ERROR_TIMEOUT, 1) :=
  ⟨by decide, fun _ => rfl, by decide⟩

/-- C18 (counterexample): a fresh device whose card answers CMD17 with Ok and then
sends the token and data.  `sd_read_block(buf, 0)` returns SD_ERROR_OK, has used
the bus (522 exchanges, the first six being the CMD17 frame) and has overwritten
the buffer. -/
theorem C18_counterexample :
    (test_device (List.replicate 6 0xFF ++ [0x00, 0xFE, 0x01, 0x02, 0x03])).sd_status
      = sd_status_t.mk false false ∧
    (test_device (List.replicate 6 0xFF ++ [0x00, 0xFE, 0x01, 0x02, 0x03])).wire = [] ∧
    ∃ s1 b1, sd_read_block atmega128 1
        (test_device (List.replicate 6 0xFF ++ [0x00, 0xFE, 0x01, 0x02, 0x03]))
        (some (List.replicate 512 0)) 0 = some (s1, SD_ERROR_OK, some b1) ∧
      s1.wire.length = 522 ∧ b1[0]? = some 0x01 ∧ (List.replicate 512 0)[0]? = some 0x00 := by
  obtain ⟨s1, b1, h1, _, h3, h4⟩ := sd_read_block_token atmega128 1
    (test_device (List.replicate 6 0xFF ++ [0x00, 0xFE, 0x01, 0x02, 0x03]))
    (List.replicate 512 0) 0 0 0 (List.length_replicate 512 0) (by decide) (by decide)
    (by decide) (by decide) (by decide) (by decide) (by decide)
  exact ⟨rfl, rfl, s1, b1, h1, h4, h3 0 (by decide),
    List.getElem?_replicate_of_lt (by norm_num)⟩

/-- C18 (amended): `sd_read_block(buf, 0)` makes no precondition check, also on a
fresh driver state: it first makes the CMD17 exchange with argument 0 (frame
51 00 00 00 00 01); when that exchange does not decode to Ok it returns the
decoded error with the buffer unchanged, and on a bus where nothing answers this
error is SD_ERROR_NO_RESPONSE. -/
theorem C18_read_before_init (hw : AvrBits) (fuel : Nat) (s : Device)
    (buffer : Option (List Nat)) :
    ∃ s1 err x,
      sd_send_command_with_response hw (sd_cs_select s).1 CMD17 0 none
        = some (s1, err, none) ∧
      s1.wire = s.wire ++ x ∧
      (x.take 6).map Xfer.mosi = [0x51, 0x00, 0x00, 0x00, 0x00, 0x01] ∧
      (err ≠ SD_ERROR_OK → sd_read_block hw fuel s buffer 0 = some (s1, err, buffer)) ∧
      ((∀ i, i < 11 → s.card (s.wire.length + 6 + i) % 256 = 0xFF) →
        sd_read_block hw fuel s buffer 0 = some (s1, SD_ERROR_NO_RESPONSE, buffer)) := by
  obtain ⟨s1, err, x, h1, h2, h3, h4, _⟩ := sd_read_block_first_exchange hw fuel s buffer 0
  have h0 : read_address s 0 = 0 := by
    unfold read_address; split <;> simp
  rw [h0] at h1 h3
  refine ⟨s1, err, x, h1, h2, by rw [h3]; decide, h4, fun hsil => ?_⟩
  have hs := command_silent hw (sd_cs_select s).1 CMD17 0 0x00 none (by simpa using hsil)
  unfold sd_send_command_with_response at h1
  rw [hs] at h1
  have he : err = SD_ERROR_NO_RESPONSE := by
    have := congrArg (fun r => r.map (fun q => q.2.1)) h1
    simpa using this.symm
  rw [he] at h4
  exact h4 (by decide)

/-- Witness of C18 (amended): a fresh device on a bus where nothing answers. -/
theorem C18_read_before_init_witness :
    ∃ s1, sd_read_block atmega128 1 (test_device []) (some (List.replicate 512 0)) 0
      = some (s1, SD_ERROR_NO_RESPONSE, some (List.replicate 512 0)) := by
  obtain ⟨s1, _, _, _, _, _, _, h⟩ :=
    C18_read_before_init atmega128 1 (test_device []) (some (List.replicate 512 0))
  exact ⟨s1, h (by decide)⟩

/-- Witness of C20: two sectors are refused, and one sector on a silent bus gives
the result of `sd_read_block` mapped to RES_ERROR. -/
theorem C20_disk_read_witness :
    disk_read atmega128 1 (test_device []) 0 none 0 2 = some (test_device [], RES_PARERR, none) ∧
    disk_read atmega128 1 (test_device []) 0 none 0 1
      = (sd_read_block atmega128 1 (test_device []) none (0 % 2 ^ 32)).map
          (fun r => (r.1, sd_error_to_result r.2.1, r.2.2)) ∧
    sd_error_to_result SD_ERROR_NO_RESPONSE = RES_ERROR :=
  ⟨(C20_disk_read atmega128 1 (test_device []) 0 none 0 2).1 (by decide),
   (C20_disk_read atmega128 1 (test_device []) 0 none 0 1).2.1 rfl,
   (C20_disk_read atmega128 1 (test_device []) 0 none 0 1).2.2.2.2 _ (by decide) (by decide)⟩

/-! ## Version probe on the wire, check values -/

/-- The version probe always returns, in the state after its CMD8 exchange, and
never with SD_ERROR_IDLE. -/
theorem check_for_sdv2_outcome (hw : AvrBits) (s : Device) (sdv2 : Bool) :
    ∃ m err b, check_for_sdv2 hw s sdv2
        = some (after_command hw s CMD8 SD_HC_CHECK_ARG SD_CMD8_INIT_CRC m, err, b) ∧
      err ≠ SD_ERROR_IDLE := by
  obtain ⟨m, e8, v8, h8⟩ := command_outcome hw s CMD8 SD_HC_CHECK_ARG SD_CMD8_INIT_CRC
    (some (sd_response_t.mk 0))
  unfold check_for_sdv2
  rw [h8]
  dsimp only
  by_cases h1 : e8 = SD_ERROR_IDLE
  · rw [if_pos h1]
    by_cases h2 : (deref (Option.map (fun _ => v8) (some (sd_response_t.mk 0)))).value
        &&& 0xFFF ≠ SD_HC_CHECK_ARG
    · rw [if_pos h2]; exact ⟨m, _, _, rfl, by decide⟩
    · rw [if_neg h2]; exact ⟨m, _, _, rfl, by decide⟩
  · rw [if_neg h1]
    by_cases h2 : e8 = SD_ERROR_ILLEGAL_COMMAND ∨ e8 = SD_ERROR_NO_RESPONSE
    · rw [if_pos h2]; exact ⟨m, _, _, rfl, by decide⟩
    · rw [if_neg h2]; exact ⟨m, _, _, rfl, h1⟩

/-- Every run of `sd_init` returns, either after the CMD0 exchange (result not
Idle) or after the CMD8 exchange of the version probe. -/
theorem sd_init_outcome (hw : AvrBits) (fuel : Nat) (s : Device) :
    ∃ n err0, sd_send_command_crc_with_response hw (sd_init_power_on hw s) CMD0 0
        SD_CMD0_INIT_CRC none
        = some (after_command hw (sd_init_power_on hw s) CMD0 0 SD_CMD0_INIT_CRC n, err0,
            none) ∧
      ((err0 ≠ SD_ERROR_IDLE ∧ sd_init hw fuel s
          = some (after_command hw (sd_init_power_on hw s) CMD0 0 SD_CMD0_INIT_CRC n, err0)) ∨
       (err0 = SD_ERROR_IDLE ∧ ∃ m err b,
          check_for_sdv2 hw
              (after_command hw (sd_init_power_on hw s) CMD0 0 SD_CMD0_INIT_CRC n) false
            = some (after_command hw
                (after_command hw (sd_init_power_on hw s) CMD0 0 SD_CMD0_INIT_CRC n)
                CMD8 SD_HC_CHECK_ARG SD_CMD8_INIT_CRC m, err, b) ∧
          sd_init hw fuel s
            = some (after_command hw
                (after_command hw (sd_init_power_on hw s) CMD0 0 SD_CMD0_INIT_CRC n)
                CMD8 SD_HC_CHECK_ARG SD_CMD8_INIT_CRC m, err))) := by
  obtain ⟨n, err0, v, h⟩ :=
    command_outcome hw (sd_init_power_on hw s) CMD0 0 SD_CMD0_INIT_CRC none
  rw [Option.map_none'] at h
  refine ⟨n, err0, h, ?_⟩
  by_cases he : err0 = SD_ERROR_IDLE
  · right
    obtain ⟨m, err, b, h8, hne⟩ := check_for_sdv2_outcome hw
      (after_command hw (sd_init_power_on hw s) CMD0 0 SD_CMD0_INIT_CRC n) false
    rw [he] at h
    exact ⟨he, m, err, b, h8, sd_init_probe_not_idle hw fuel s _ _ err none b h h8 hne⟩
  · left
    exact ⟨he, sd_init_reset_not_idle hw fuel s _ err0 none h he⟩

set_option maxRecDepth 100000 in
/-- The two check values of sd.c are the CRC-7 of the first five frame bytes. -/
theorem crc7_check_values :
    crc7 [0x40, 0x00, 0x00, 0x00, 0x00] = SD_CMD0_INIT_CRC ∧
    (crc7 [0x40, 0x00, 0x00, 0x00, 0x00] <<< 1) ||| 1 = 0x95 ∧
    crc7 [0x48, 0x00, 0x00, 0x01, 0xAA] = SD_CMD8_INIT_CRC ∧
    (crc7 [0x48, 0x00, 0x00, 0x01, 0xAA] <<< 1) ||| 1 = 0x87 := by
  decide

/-- C22: when CMD8 is answered, after at most ten fill bytes, by the status byte
0x01 followed by 00 00 01 AA, `check_for_sdv2` returns SD_ERROR_OK and sets
`*sdv2` to true. -/
theorem C22_probe_version2 (hw : AvrBits) (s : Device) (sdv2 : Bool) (j : Nat)
    (hj : j ≤ 10)
    (hfill : ∀ i, i < j → s.card (s.wire.length + 6 + i) % 256 = 0xFF)
    (hst : s.card (s.wire.length + 6 + j) % 256 = 0x01)
    (h0 : s.card (s.wire.length + 6 + j + 1) % 256 = 0x00)
    (h1 : s.card (s.wire.length + 6 + j + 2) % 256 = 0x00)
    (h2 : s.card (s.wire.length + 6 + j + 3) % 256 = 0x01)
    (h3 : s.card (s.wire.length + 6 + j + 4) % 256 = 0xAA) :
    ∃ s1, check_for_sdv2 hw s sdv2 = some (s1, SD_ERROR_OK, true) ∧
      s1.wire.length = s.wire.length + 6 + (j + 5) := by
  have hidle : response_get_error (s.card (s.wire.length + 6 + j) % 256) = SD_ERROR_IDLE := by
    rw [hst]; decide
  refine ⟨_, ?_, after_command_wire_length hw s CMD8 SD_HC_CHECK_ARG SD_CMD8_INIT_CRC (j + 5)⟩
  rw [check_for_sdv2_idle hw s sdv2 j hj hfill hidle, h0, h1, h2, h3,
    if_neg (by decide)]

/-- Witness of C22: the echo right after the frame, `*sdv2` false at entry. -/
theorem C22_probe_version2_witness :
    ∃ s1, check_for_sdv2 atmega128
        (test_device (List.replicate 6 0xFF ++ [0x01, 0x00, 0x00, 0x01, 0xAA])) false
      = some (s1, SD_ERROR_OK, true) ∧
      s1.wire.length
        = (test_device (List.replicate 6 0xFF ++ [0x01, 0x00, 0x00, 0x01, 0xAA])).wire.length
          + 6 + (0 + 5) :=
  C22_probe_version2 atmega128
    (test_device (List.replicate 6 0xFF ++ [0x01, 0x00, 0x00, 0x01, 0xAA])) false 0
    (by decide) (by decide) (by decide) (by decide) (by decide) (by decide) (by decide)

/-- C28: the CMD0 frame of `sd_init` is 40 00 00 00 00 95 and the CMD8 frame of
`check_for_sdv2` is 48 00 00 01 AA 87; in both the last byte is
`(CRC7(first five bytes) << 1) | 1`; `sd_send_command_with_response` passes the
check value 0, which gives the last byte 0x01 for every command and argument. -/
theorem C28_check_values (hw : AvrBits) (fuel : Nat) (s : Device) (sdv2 : Bool)
    (c : sd_command_t) (a : Nat) (response : Option sd_response_t) :
    (∃ s1 err x r, sd_send_command_crc_with_response hw (sd_init_power_on hw s) CMD0 0
        SD_CMD0_INIT_CRC none = some (s1, err, none) ∧
      s1.wire = (sd_init_power_on hw s).wire ++ x ∧
      (x.take 6).map Xfer.mosi = [0x40, 0x00, 0x00, 0x00, 0x00, 0x95] ∧
      sd_init hw fuel s = some r ∧ ∃ y, r.1.wire = s1.wire ++ y) ∧
    (crc7 [0x40, 0x00, 0x00, 0x00, 0x00] <<< 1) ||| 1 = 0x95 ∧
    crc7 [0x40, 0x00, 0x00, 0x00, 0x00] = SD_CMD0_INIT_CRC ∧
    (∃ s1 err b x, check_for_sdv2 hw s sdv2 = some (s1, err, b) ∧
      s1.wire = s.wire ++ x ∧
      (x.take 6).map Xfer.mosi = [0x48, 0x00, 0x00, 0x01, 0xAA, 0x87]) ∧
    (crc7 [0x48, 0x00, 0x00, 0x01, 0xAA] <<< 1) ||| 1 = 0x87 ∧
    crc7 [0x48, 0x00, 0x00, 0x01, 0xAA] = SD_CMD8_INIT_CRC ∧
    sd_send_command_with_response hw s c a response
      = sd_send_command_crc_with_response hw s c a 0x00 response ∧
    (frame_bytes c a 0x00).drop 5 = [0x01] := by
  refine ⟨?_, crc7_check_values.2.1, crc7_check_values.1, ?_, crc7_check_values.2.2.2,
    crc7_check_values.2.2.1, rfl, rfl⟩
  · obtain ⟨n, err0, h0, hcase⟩ := sd_init_outcome hw fuel s
    obtain ⟨x, hx, hfm, _, _⟩ :=
      after_command_wire hw (sd_init_power_on hw s) CMD0 0 SD_CMD0_INIT_CRC n
    rcases hcase with ⟨_, hr⟩ | ⟨_, m, err, b, _, hr⟩
    · exact ⟨_, err0, x, _, h0, hx, by rw [hfm]; decide, hr, [], by simp⟩
    · obtain ⟨y, hy, _, _, _⟩ := after_command_wire hw
        (after_command hw (sd_init_power_on hw s) CMD0 0 SD_CMD0_INIT_CRC n) CMD8
        SD_HC_CHECK_ARG SD_CMD8_INIT_CRC m
      exact ⟨_, err0, x, _, h0, hx, by rw [hfm]; decide, hr, y, hy⟩
  · obtain ⟨m, err, b, h8, _⟩ := check_for_sdv2_outcome hw s sdv2
    obtain ⟨y, hy, hfm, _, _⟩ := after_command_wire hw s CMD8 SD_HC_CHECK_ARG
      SD_CMD8_INIT_CRC m
    exact ⟨_, err, b, y, h8, hy, by rw [hfm]; decide⟩

/-! ## Single bits of an 8-bit register -/

theorem get_bit_eq_testBit (y c : Nat) : get_bit y c = (y.testBit c).toNat := by
  unfold get_bit Nat.testBit
  rw [Nat.and_one_is_mod, Nat.one_and_eq_mod_two]
  rcases Nat.mod_two_eq_zero_or_one (y >>> c) with h | h <;> simp [h]

theorem testBit_clear_mask (b c : Nat) (hc : c < 8) :
    (0xFFFF ^^^ _BV b).testBit c = !decide (b = c) := by
  have e : (0xFFFF : Nat) = 2 ^ 16 - 1 := by norm_num
  rw [_BV, Nat.one_shiftLeft, Nat.testBit_xor, e, Nat.testBit_two_pow_sub_one,
    Nat.testBit_two_pow]
  have : c < 16 := by omega
  simp [this]

/-- Bit `c` of an 8-bit register after `change_bit_inplace(reg, b, v)`. -/
theorem testBit_change_bit (x b v c : Nat) (hv : v ≤ 1) (hc : c < 8) :
    (change_bit x b v % 256).testBit c
      = if b = c then decide (v = 1) else x.testBit c := by
  have e : (256 : Nat) = 2 ^ 8 := by norm_num
  rw [e, Nat.testBit_mod_two_pow, change_bit, clear_bit, Nat.testBit_or, Nat.testBit_and,
    testBit_clear_mask b c hc, Nat.testBit_shiftLeft]
  have hv1 : v = 0 ∨ v = 1 := by omega
  by_cases hbc : b = c
  · subst hbc
    rcases hv1 with h | h <;> simp [h, hc]
  · rcases hv1 with h | h
    · simp [h, hc, hbc]
    · simp only [h, hc, hbc, decide_True, decide_False, Bool.true_and, Bool.not_false,
        Bool.and_true, if_false]
      by_cases hge : c ≥ b
      · have h1 : Nat.testBit (2 ^ 0) (c - b) = false :=
          Nat.testBit_two_pow_of_ne (by omega)
        rw [Nat.pow_zero] at h1
        simp [h1]
      · simp [hge]

theorem get_bit_change_bit_self (x b v : Nat) (hv : v ≤ 1) (hb : b < 8) :
    get_bit (change_bit x b v % 256) b = v := by
  rw [get_bit_eq_testBit, testBit_change_bit x b v b hv hb, if_pos rfl]
  have hv1 : v = 0 ∨ v = 1 := by omega
  rcases hv1 with h | h <;> simp [h]

theorem get_bit_change_bit_ne (x b v c : Nat) (hv : v ≤ 1) (hc : c < 8) (hne : b ≠ c) :
    get_bit (change_bit x b v % 256) c = get_bit x c := by
  rw [get_bit_eq_testBit, testBit_change_bit x b v c hv hc, if_neg hne, get_bit_eq_testBit]

theorem change_bit_zero (x b : Nat) : change_bit x b 0 = clear_bit x b := by
  simp [change_bit]

theorem get_bit_clear_bit_self (x b : Nat) (hb : b < 8) :
    get_bit (clear_bit x b % 256) b = 0 := by
  rw [← change_bit_zero]
  exact get_bit_change_bit_self x b 0 (by omega) hb

theorem get_bit_clear_bit_ne (x b c : Nat) (hc : c < 8) (hne : b ≠ c) :
    get_bit (clear_bit x b % 256) c = get_bit x c := by
  rw [← change_bit_zero]
  exact get_bit_change_bit_ne x b 0 c (by omega) hc hne

theorem testBit_set_bit (x b c : Nat) (hc : c < 8) :
    (set_bit x b % 256).testBit c = (x.testBit c || decide (b = c)) := by
  have e : (256 : Nat) = 2 ^ 8 := by norm_num
  rw [e, Nat.testBit_mod_two_pow, set_bit, Nat.testBit_or, _BV, Nat.one_shiftLeft,
    Nat.testBit_two_pow]
  simp [hc]

theorem get_bit_set_bit_self (x b : Nat) (hb : b < 8) :
    get_bit (set_bit x b % 256) b = 1 := by
  rw [get_bit_eq_testBit, testBit_set_bit x b b hb]
  simp

theorem get_bit_set_bit_ne (x b c : Nat) (hc : c < 8) (hne : b ≠ c) :
    get_bit (set_bit x b % 256) c = get_bit x c := by
  rw [get_bit_eq_testBit, testBit_set_bit x b c hc, get_bit_eq_testBit]
  simp [hne]

theorem get_bit_le_one (y c : Nat) : get_bit y c ≤ 1 := by
  rw [get_bit_eq_testBit]
  cases y.testBit c <;> simp

theorem bool_toNat_le_one (b : Bool) : b.toNat ≤ 1 := by
  cases b <;> simp

/-! ## Registers that the bus exchanges leave alone -/

@[simp] theorem spi_master_transfer_SPCR (hw : AvrBits) (s : Device) (b : Nat) :
    (spi_master_transfer hw s b).1.SPCR = s.SPCR := by
  unfold spi_master_transfer
  dsimp only
  split <;> rfl

@[simp] theorem spi_master_transfer_SPSR (hw : AvrBits) (s : Device) (b : Nat) :
    (spi_master_transfer hw s b).1.SPSR = s.SPSR := by
  unfold spi_master_transfer
  dsimp only
  split <;> rfl

@[simp] theorem clock_bytes_SPCR (hw : AvrBits) (n : Nat) (s : Device) :
    (clock_bytes hw n s).SPCR = s.SPCR := by
  induction n generalizing s with
  | zero => simp
  | succ n ih => rw [clock_bytes_succ, ih]; exact spi_master_transfer_SPCR hw s 0xFF

@[simp] theorem clock_bytes_SPSR (hw : AvrBits) (n : Nat) (s : Device) :
    (clock_bytes hw n s).SPSR = s.SPSR := by
  induction n generalizing s with
  | zero => simp
  | succ n ih => rw [clock_bytes_succ, ih]; exact spi_master_transfer_SPSR hw s 0xFF

@[simp] theorem after_command_SPCR (hw : AvrBits) (s : Device) (c a k n : Nat) :
    (after_command hw s c a k n).SPCR = s.SPCR := by
  simp [after_command, sd_cs_restore, sd_cs_select, sd_send_command_crc,
    sd_send_command_crc_loop, SD_CMD_ARG_SIZE]

@[simp] theorem after_command_SPSR (hw : AvrBits) (s : Device) (c a k n : Nat) :
    (after_command hw s c a k n).SPSR = s.SPSR := by
  simp [after_command, sd_cs_restore, sd_cs_select, sd_send_command_crc,
    sd_send_command_crc_loop, SD_CMD_ARG_SIZE]

/-! ## Initialisation: power-on clocking -/

theorem sd_init_power_on_eq (hw : AvrBits) (s : Device) :
    sd_init_power_on hw s
      = sd_cs_restore (clock_bytes hw 2 (sd_cs_restore
          (clock_bytes hw 10 (sd_cs_restore (sd_init_setup hw s) HIGH)) LOW)) HIGH := by
  simp only [sd_init_power_on, sd_init_setup, spi_master_receive_data_null]

@[simp] theorem sd_init_setup_wire (hw : AvrBits) (s : Device) :
    (sd_init_setup hw s).wire = s.wire := rfl

@[simp] theorem sd_init_setup_card (hw : AvrBits) (s : Device) :
    (sd_init_setup hw s).card = s.card := rfl

@[simp] theorem sd_init_setup_compare_match (hw : AvrBits) (s : Device) :
    (sd_init_setup hw s).compare_match = s.compare_match := rfl

@[simp] theorem sd_init_setup_sd_status (hw : AvrBits) (s : Device) :
    (sd_init_setup hw s).sd_status = s.sd_status := rfl

/-- The clock bits after the register set-up are those of SPI_CLOCK_DIV64, for bit
numbers that are distinct places of the 8-bit registers. -/
theorem sd_init_setup_clock (hw : AvrBits) (s : Device)
    (h0 : hw.SPR0 < 8) (h1 : hw.SPR1 < 8) (h2 : hw.SPI2X < 8)
    (h01 : hw.SPR0 ≠ hw.SPR1) (he0 : hw.SPE ≠ hw.SPR0) (he1 : hw.SPE ≠ hw.SPR1) :
    get_bit (sd_init_setup hw s).SPCR hw.SPR0 = get_bit SPI_CLOCK_DIV64 0 ∧
    get_bit (sd_init_setup hw s).SPCR hw.SPR1 = get_bit SPI_CLOCK_DIV64 1 ∧
    get_bit (sd_init_setup hw s).SPSR hw.SPI2X = get_bit SPI_CLOCK_DIV64 2 := by
  obtain ⟨X, b, hX⟩ : ∃ X b, (sd_init_setup hw s).SPCR
      = change_bit (change_bit (change_bit X hw.SPR0 (get_bit SPI_CLOCK_DIV64 0) % 256)
          hw.SPR1 (get_bit SPI_CLOCK_DIV64 1) % 256) hw.SPE (Bool.toNat b) % 256 :=
    ⟨_, _, rfl⟩
  obtain ⟨Y, hY⟩ : ∃ Y, (sd_init_setup hw s).SPSR
      = change_bit Y hw.SPI2X (get_bit SPI_CLOCK_DIV64 2) % 256 := ⟨_, rfl⟩
  refine ⟨?_, ?_, ?_⟩
  · rw [hX, get_bit_change_bit_ne _ _ _ _ (bool_toNat_le_one b) h0 he0,
      get_bit_change_bit_ne _ _ _ _ (get_bit_le_one _ _) h0 (Ne.symm h01),
      get_bit_change_bit_self _ _ _ (get_bit_le_one _ _) h0]
  · rw [hX, get_bit_change_bit_ne _ _ _ _ (bool_toNat_le_one b) h1 he1,
      get_bit_change_bit_self _ _ _ (get_bit_le_one _ _) h1]
  · rw [hY, get_bit_change_bit_self _ _ _ (get_bit_le_one _ _) h2]

/-- The twelve exchanges of the power-on clocking: ten with chip select high, two
with chip select low, all sending 0xFF; chip select is high afterwards. -/
theorem sd_init_power_on_wire (hw : AvrBits) (s : Device) :
    ∃ x : List Xfer, (sd_init_power_on hw s).wire = s.wire ++ x ∧ x.length = 12 ∧
      (∀ e, e ∈ x.take 10 → e.mosi = 0xFF ∧ e.cs = 1) ∧
      (∀ e, e ∈ x.drop 10 → e.mosi = 0xFF ∧ e.cs = 0) ∧
      get_bit (sd_init_power_on hw s).PORTB CS_BIT = 1 := by
  obtain ⟨x10, h10, l10, c10⟩ :=
    clock_bytes_wire_cs hw 10 (sd_cs_restore (sd_init_setup hw s) HIGH)
  obtain ⟨x2, h2, l2, c2⟩ := clock_bytes_wire_cs hw 2
    (sd_cs_restore (clock_bytes hw 10 (sd_cs_restore (sd_init_setup hw s) HIGH)) LOW)
  have hhigh : get_bit (sd_cs_restore (sd_init_setup hw s) HIGH).PORTB CS_BIT = 1 :=
    get_bit_change_bit_self _ CS_BIT 1 (by omega) (by decide)
  have hlow : get_bit (sd_cs_restore
      (clock_bytes hw 10 (sd_cs_restore (sd_init_setup hw s) HIGH)) LOW).PORTB CS_BIT = 0 :=
    get_bit_change_bit_self _ CS_BIT 0 (by omega) (by decide)
  rw [hhigh] at c10
  rw [hlow] at c2
  refine ⟨x10 ++ x2, ?_, by simp [l10, l2], ?_, ?_, ?_⟩
  · rw [sd_init_power_on_eq, sd_cs_restore_wire, h2, sd_cs_restore_wire, h10,
      sd_cs_restore_wire, sd_init_setup_wire, List.append_assoc]
  · intro e he
    rw [List.take_append_of_le_length (by omega), List.take_of_length_le (by omega)] at he
    exact c10 e he
  · intro e he
    rw [List.drop_append_of_le_length (by omega), List.drop_of_length_le (by omega),
      List.nil_append] at he
    exact c2 e he
  · rw [sd_init_power_on_eq]
    exact get_bit_change_bit_self _ CS_BIT 1 (by omega) (by decide)

/-- The bus log after a command exchange, split into the frame and the bytes
clocked in. -/
theorem after_command_wire_split (hw : AvrBits) (s : Device) (c a k n : Nat) :
    ∃ f p : List Xfer, (after_command hw s c a k n).wire = s.wire ++ f ++ p ∧
      f.map Xfer.mosi = frame_bytes c a k ∧ f.length = 6 ∧ p.length = n ∧
      (∀ e, e ∈ f → e.cs = get_bit (clear_bit s.PORTB CS_BIT % 256) CS_BIT) ∧
      (∀ e, e ∈ p → e.mosi = 0xFF ∧
        e.cs = get_bit (clear_bit s.PORTB CS_BIT % 256) CS_BIT) := by
  obtain ⟨f, hf, hfm, hfl, hfc⟩ := sd_send_command_crc_frame hw (sd_cs_select s).1 c a k
  obtain ⟨y, hy, hlen, hcs⟩ :=
    clock_bytes_wire_cs hw n (sd_send_command_crc hw (sd_cs_select s).1 c a k)
  have hP : (sd_cs_select s).1.PORTB = clear_bit s.PORTB CS_BIT % 256 := rfl
  rw [sd_send_command_crc_PORTB, hP] at hcs
  rw [hP] at hfc
  refine ⟨f, y, ?_, hfm, hfl, hlen, hfc, hcs⟩
  simp only [after_command, sd_cs_restore_wire, hy, hf, sd_cs_select_wire]

/-- A command exchange entered with chip select high ends with chip select high. -/
theorem after_command_cs_high (hw : AvrBits) (s : Device) (c a k n : Nat)
    (h : get_bit s.PORTB CS_BIT = 1) :
    get_bit (after_command hw s c a k n).PORTB CS_BIT = 1 := by
  rw [after_command_PORTB, h]
  exact get_bit_change_bit_self _ CS_BIT 1 (by decide) (by decide)

/-- A command exchange entered with chip select low ends with chip select low. -/
theorem after_command_cs_low (hw : AvrBits) (s : Device) (c a k n : Nat)
    (h : get_bit s.PORTB CS_BIT = 0) :
    get_bit (after_command hw s c a k n).PORTB CS_BIT = 0 := by
  rw [after_command_PORTB, h]
  exact get_bit_change_bit_self _ CS_BIT 0 (by decide) (by decide)

/-- Every command exchange returns, with chip select at the level at which it
began. -/
theorem command_cs_level (hw : AvrBits) (s : Device) (c : sd_command_t) (a k : Nat)
    (response : Option sd_response_t) :
    ∃ r, sd_send_command_crc_with_response hw s c a k response = some r ∧
      get_bit r.1.PORTB CS_BIT = get_bit s.PORTB CS_BIT := by
  obtain ⟨n, err, v, h⟩ := command_outcome hw s c a k response
  refine ⟨_, h, ?_⟩
  have hle := get_bit_le_one s.PORTB CS_BIT
  have h01 : get_bit s.PORTB CS_BIT = 0 ∨ get_bit s.PORTB CS_BIT = 1 := by omega
  rcases h01 with h0 | h1
  · rw [h0]; exact after_command_cs_low hw s c a k n h0
  · rw [h1]; exact after_command_cs_high hw s c a k n h1

/-- C23: `sd_init` returns, and the first twelve exchanges it makes send 0xFF, the
first ten with chip select high and the next two with chip select low; the six
bytes of the CMD0 frame 40 00 00 00 00 95 follow at once and go out with chip
select low.  Chip select is high again when the CMD0 exchange begins: the exchange
returns the line to the level at which it began, as every command exchange does,
and `sd_init` returns with chip select high, for every level at entry. -/
theorem C23_power_on_clocking (hw : AvrBits) (fuel : Nat) (s : Device) :
    ∃ (x f y : List Xfer) (r : Device × sd_error_t),
      (sd_init_power_on hw s).wire = s.wire ++ x ∧ x.length = 12 ∧
      (∀ e, e ∈ x.take 10 → e.mosi = 0xFF ∧ e.cs = 1) ∧
      (∀ e, e ∈ x.drop 10 → e.mosi = 0xFF ∧ e.cs = 0) ∧
      get_bit (sd_init_power_on hw s).PORTB CS_BIT = 1 ∧
      sd_init hw fuel s = some r ∧ r.1.wire = s.wire ++ x ++ f ++ y ∧
      f.map Xfer.mosi = [0x40, 0x00, 0x00, 0x00, 0x00, 0x95] ∧
      (∀ e, e ∈ f → e.cs = 0) ∧
      get_bit r.1.PORTB CS_BIT = 1 ∧
      (∀ (d : Device) (c : sd_command_t) (a k : Nat) (response : Option sd_response_t),
        ∃ r1, sd_send_command_crc_with_response hw d c a k response = some r1 ∧
          get_bit r1.1.PORTB CS_BIT = get_bit d.PORTB CS_BIT) := by
  obtain ⟨x, hx, hl, ht, hd, hP⟩ := sd_init_power_on_wire hw s
  obtain ⟨n, err0, _, hcase⟩ := sd_init_outcome hw fuel s
  obtain ⟨f, p, hw0, hfm, _, _, hfc, _⟩ :=
    after_command_wire_split hw (sd_init_power_on hw s) CMD0 0 SD_CMD0_INIT_CRC n
  have hcs : ∀ e, e ∈ f → e.cs = 0 := fun e he => by
    rw [hfc e he]; exact get_bit_clear_bit_self _ CS_BIT (by decide)
  have hframe : f.map Xfer.mosi = [0x40, 0x00, 0x00, 0x00, 0x00, 0x95] := by
    rw [hfm]; decide
  have hhigh0 := after_command_cs_high hw (sd_init_power_on hw s) CMD0 0 SD_CMD0_INIT_CRC n hP
  rw [hx] at hw0
  rcases hcase with ⟨_, hr⟩ | ⟨_, m, err, b, _, hr⟩
  · exact ⟨x, f, p, _, hx, hl, ht, hd, hP, hr, hw0, hframe, hcs, hhigh0,
      command_cs_level hw⟩
  · obtain ⟨f8, p8, hw8, _⟩ := after_command_wire_split hw
      (after_command hw (sd_init_power_on hw s) CMD0 0 SD_CMD0_INIT_CRC n) CMD8
      SD_HC_CHECK_ARG SD_CMD8_INIT_CRC m
    refine ⟨x, f, p ++ (f8 ++ p8), _, hx, hl, ht, hd, hP, hr, ?_, hframe, hcs,
      after_command_cs_high hw _ CMD8 SD_HC_CHECK_ARG SD_CMD8_INIT_CRC m hhigh0,
      command_cs_level hw⟩
    rw [hw8, hw0]
    simp only [List.append_assoc]

/-- C25: for every card and every amount of fuel `sd_init` returns after the CMD0
exchange or after the CMD8 exchange: what it sends after the power-on clocking is
the CMD0 frame and its polls, followed at most by the CMD8 frame and its polls,
so no first byte of a CMD55, ACMD41, CMD58 or CMD16 frame is sent;
`use_block_address` is as at entry and the SPI registers are as the power-on
set-up left them, at SPI_CLOCK_DIV64. -/
theorem C25_sd_init_stops_after_probe (hw : AvrBits) (fuel : Nat) (s : Device)
    (h0 : hw.SPR0 < 8) (h1 : hw.SPR1 < 8) (h2 : hw.SPI2X < 8)
    (h01 : hw.SPR0 ≠ hw.SPR1) (he0 : hw.SPE ≠ hw.SPR0) (he1 : hw.SPE ≠ hw.SPR1) :
    ∃ (r : Device × sd_error_t) (f0 p0 rest : List Xfer),
      sd_init hw fuel s = some r ∧
      r.1.wire = (sd_init_power_on hw s).wire ++ (f0 ++ p0 ++ rest) ∧
      f0.map Xfer.mosi = [0x40, 0x00, 0x00, 0x00, 0x00, 0x95] ∧
      (∀ e, e ∈ p0 → e.mosi = 0xFF) ∧
      (rest = [] ∨ ∃ f8 p8, rest = f8 ++ p8 ∧
        f8.map Xfer.mosi = [0x48, 0x00, 0x00, 0x01, 0xAA, 0x87] ∧
        ∀ e, e ∈ p8 → e.mosi = 0xFF) ∧
      (∀ e, e ∈ f0 ++ p0 ++ rest →
        e.mosi ∉ [0x40 ||| CMD55, 0x40 ||| ACMD41, 0x40 ||| CMD58, 0x40 ||| CMD16]) ∧
      r.1.sd_status.use_block_address = s.sd_status.use_block_address ∧
      r.1.SPCR = (sd_init_setup hw s).SPCR ∧ r.1.SPSR = (sd_init_setup hw s).SPSR ∧
      get_bit r.1.SPCR hw.SPR0 = get_bit SPI_CLOCK_DIV64 0 ∧
      get_bit r.1.SPCR hw.SPR1 = get_bit SPI_CLOCK_DIV64 1 ∧
      get_bit r.1.SPSR hw.SPI2X = get_bit SPI_CLOCK_DIV64 2 := by
  obtain ⟨hc0, hc1, hc2⟩ := sd_init_setup_clock hw s h0 h1 h2 h01 he0 he1
  obtain ⟨n, err0, _, hcase⟩ := sd_init_outcome hw fuel s
  obtain ⟨f, p, hw0, hfm, _, _, _, hpc⟩ :=
    after_command_wire_split hw (sd_init_power_on hw s) CMD0 0 SD_CMD0_INIT_CRC n
  have hframe : f.map Xfer.mosi = [0x40, 0x00, 0x00, 0x00, 0x00, 0x95] := by
    rw [hfm]; decide
  have hbad0 : ∀ b, b ∈ [0x40, 0x00, 0x00, 0x00, 0x00, 0x95] →
      b ∉ [0x40 ||| CMD55, 0x40 ||| ACMD41, 0x40 ||| CMD58, 0x40 ||| CMD16] := by decide
  have hbad8 : ∀ b, b ∈ [0x48, 0x00, 0x00, 0x01, 0xAA, 0x87] →
      b ∉ [0x40 ||| CMD55, 0x40 ||| ACMD41, 0x40 ||| CMD58, 0x40 ||| CMD16] := by decide
  have hbadff : (0xFF : Nat) ∉
      [0x40 ||| CMD55, 0x40 ||| ACMD41, 0x40 ||| CMD58, 0x40 ||| CMD16] := by decide
  have hf0 : ∀ e, e ∈ f → e.mosi ∉
      [0x40 ||| CMD55, 0x40 ||| ACMD41, 0x40 ||| CMD58, 0x40 ||| CMD16] := fun e he =>
    hbad0 _ (by rw [← hframe]; exact List.mem_map_of_mem Xfer.mosi he)
  have hp0 : ∀ e, e ∈ p → e.mosi ∉
      [0x40 ||| CMD55, 0x40 ||| ACMD41, 0x40 ||| CMD58, 0x40 ||| CMD16] := fun e he => by
    rw [(hpc e he).1]; exact hbadff
  have hub : (sd_init_power_on hw s).sd_status.use_block_address
      = s.sd_status.use_block_address := by
    rw [sd_init_power_on_eq]; simp
  have hspcr : (sd_init_power_on hw s).SPCR = (sd_init_setup hw s).SPCR := by
    rw [sd_init_power_on_eq]; simp [sd_cs_restore]
  have hspsr : (sd_init_power_on hw s).SPSR = (sd_init_setup hw s).SPSR := by
    rw [sd_init_power_on_eq]; simp [sd_cs_restore]
  rcases hcase with ⟨_, hr⟩ | ⟨_, m, err, b, _, hr⟩
  · refine ⟨_, f, p, [], hr, by rw [hw0]; simp, hframe, fun e he => (hpc e he).1,
      Or.inl rfl, ?_, ?_, ?_, ?_, ?_, ?_, ?_⟩
    · intro e he
      simp only [List.append_nil, List.mem_append] at he
      rcases he with h | h
      · exact hf0 e h
      · exact hp0 e h
    · simp only [after_command_use_block_address, hub]
    · simp only [after_command_SPCR, hspcr]
    · simp only [after_command_SPSR, hspsr]
    · simp only [after_command_SPCR, hspcr, hc0]
    · simp only [after_command_SPCR, hspcr, hc1]
    · simp only [after_command_SPSR, hspsr, hc2]
  · obtain ⟨f8, p8, hw8, hfm8, _, _, _, hpc8⟩ := after_command_wire_split hw
      (after_command hw (sd_init_power_on hw s) CMD0 0 SD_CMD0_INIT_CRC n) CMD8
      SD_HC_CHECK_ARG SD_CMD8_INIT_CRC m
    have hframe8 : f8.map Xfer.mosi = [0x48, 0x00, 0x00, 0x01, 0xAA, 0x87] := by
      rw [hfm8]; decide
    refine ⟨_, f, p, f8 ++ p8, hr, by rw [hw8, hw0]; simp, hframe,
      fun e he => (hpc e he).1, Or.inr ⟨f8, p8, rfl, hframe8, fun e he => (hpc8 e he).1⟩,
      ?_, ?_, ?_, ?_, ?_, ?_, ?_⟩
    · intro e he
      simp only [List.mem_append] at he
      rcases he with (h | h) | h | h
      · exact hf0 e h
      · exact hp0 e h
      · exact hbad8 _ (by rw [← hframe8]; exact List.mem_map_of_mem Xfer.mosi h)
      · rw [(hpc8 e h).1]; exact hbadff
    · simp only [after_command_use_block_address, hub]
    · simp only [after_command_SPCR, hspcr]
    · simp only [after_command_SPSR, hspsr]
    · simp only [after_command_SPCR, hspcr, hc0]
    · simp only [after_command_SPCR, hspcr, hc1]
    · simp only [after_command_SPSR, hspsr, hc2]

/-- Witness of C25: a version-2 card and the bit numbers of the ATmega128. -/
theorem C25_sd_init_stops_after_probe_witness :
    ∃ (r : Device × sd_error_t) (f0 p0 rest : List Xfer),
      sd_init atmega128 5 (test_device version2_stream) = some r ∧
      r.1.wire = (sd_init_power_on atmega128 (test_device version2_stream)).wire
        ++ (f0 ++ p0 ++ rest) ∧
      f0.map Xfer.mosi = [0x40, 0x00, 0x00, 0x00, 0x00, 0x95] ∧
      (∀ e, e ∈ p0 → e.mosi = 0xFF) ∧
      (rest = [] ∨ ∃ f8 p8, rest = f8 ++ p8 ∧
        f8.map Xfer.mosi = [0x48, 0x00, 0x00, 0x01, 0xAA, 0x87] ∧
        ∀ e, e ∈ p8 → e.mosi = 0xFF) ∧
      (∀ e, e ∈ f0 ++ p0 ++ rest →
        e.mosi ∉ [0x40 ||| CMD55, 0x40 ||| ACMD41, 0x40 ||| CMD58, 0x40 ||| CMD16]) ∧
      r.1.sd_status.use_block_address
        = (test_device version2_stream).sd_status.use_block_address ∧
      r.1.SPCR = (sd_init_setup atmega128 (test_device version2_stream)).SPCR ∧
      r.1.SPSR = (sd_init_setup atmega128 (test_device version2_stream)).SPSR ∧
      get_bit r.1.SPCR atmega128.SPR0 = get_bit SPI_CLOCK_DIV64 0 ∧
      get_bit r.1.SPCR atmega128.SPR1 = get_bit SPI_CLOCK_DIV64 1 ∧
      get_bit r.1.SPSR atmega128.SPI2X = get_bit SPI_CLOCK_DIV64 2 :=
  C25_sd_init_stops_after_probe atmega128 5 (test_device version2_stream)
    (by decide) (by decide) (by decide) (by decide) (by decide) (by decide)

/-! ## Block read: unexpected token, address wrap-around -/

set_option maxRecDepth 100000 in
/-- On an 8-bit port value: select, an inner command exchange with its own select
and restore, then the outer restore give the port value back. -/
theorem cs_nested_restore_bits : ∀ P, P < 256 →
    change_bit
      (change_bit (clear_bit (clear_bit P CS_BIT % 256) CS_BIT % 256) CS_BIT
        (get_bit (clear_bit P CS_BIT % 256) CS_BIT != 0).toNat % 256)
      CS_BIT (get_bit P CS_BIT != 0).toNat % 256 = P := by
  decide

/-- After the token wait, restoring chip select gives `PORTB` its entry value. -/
theorem read_armed_restore_PORTB (hw : AvrBits) (s : Device) (n j k : Nat)
    (hP : s.PORTB < 256) :
    (sd_cs_restore (clock_bytes hw k (read_armed hw s n j)) (sd_cs_select s).2).PORTB
      = s.PORTB := by
  have h : (sd_cs_restore (clock_bytes hw k (read_armed hw s n j)) (sd_cs_select s).2).PORTB
      = change_bit
          (change_bit (clear_bit (clear_bit s.PORTB CS_BIT % 256) CS_BIT % 256) CS_BIT
            (get_bit (clear_bit s.PORTB CS_BIT % 256) CS_BIT != 0).toNat % 256)
          CS_BIT (get_bit s.PORTB CS_BIT != 0).toNat % 256 := by
    simp only [sd_cs_restore, clock_bytes_PORTB, read_armed, enable_timeout_timer_PORTB,
      after_command_PORTB]
    rfl
  rw [h]
  exact cs_nested_restore_bits s.PORTB hP

/-- C26: when CMD17 is answered by Ok and the first byte other than 0xFF, at poll
number `k` with the flag clear, is not the start token 0xFE, `sd_read_block`
returns SD_ERROR_GENERIC after exactly that poll, with the buffer unchanged and
`PORTB` (chip select included) as at entry. -/
theorem C26_unexpected_token (hw : AvrBits) (fuel : Nat) (s : Device)
    (buffer : Option (List Nat)) (n j k : Nat) (hP : s.PORTB < 256)
    (hj : j ≤ 10)
    (hfill : ∀ i, i < j → s.card (s.wire.length + 6 + i) % 256 = 0xFF)
    (hok : response_get_error (s.card (s.wire.length + 6 + j) % 256) = SD_ERROR_OK)
    (hfuel : k < fuel)
    (hpoll : ∀ i, i < k → s.card (s.wire.length + 6 + (j + 1) + i) % 256 = 0xFF ∧
      (clock_bytes hw (i + 1) (read_armed hw s n j)).sd_status.timed_out = false)
    (hbyte : s.card (s.wire.length + 6 + (j + 1) + k) % 256 ≠ 0xFF)
    (hnot : s.card (s.wire.length + 6 + (j + 1) + k) % 256 ≠ 0xFE)
    (hclear : (clock_bytes hw (k + 1) (read_armed hw s n j)).sd_status.timed_out = false) :
    ∃ s1, sd_read_block hw fuel s buffer n = some (s1, SD_ERROR_GENERIC, buffer) ∧
      s1.wire.length = s.wire.length + 6 + (j + 1) + (k + 1) ∧
      s1.PORTB = s.PORTB ∧ get_bit s1.PORTB CS_BIT = get_bit s.PORTB CS_BIT := by
  have h := sd_read_block_answered hw fuel s buffer n j k hj hfill hok hfuel
    (fun i hi => ⟨(hpoll i hi).1, read_timed_out_clear _ (hpoll i hi).2⟩) hbyte
    (read_timed_out_clear _ hclear)
  have hnot1 : s.card (s.wire.length + 6 + (j + 1) + k) % 256 ≠ SD_READ_START_TOKEN := hnot
  rw [if_pos hnot1] at h
  have hp := read_armed_restore_PORTB hw s n j (k + 1) hP
  exact ⟨_, h, by simp, hp, by rw [hp]⟩

/-- Witness of C26: chip select high at entry, CMD17 answered by 0x00, one fill
byte, then the byte 0x77. -/
theorem C26_unexpected_token_witness :
    ∃ s1, sd_read_block atmega128 2
        (test_device_with (List.replicate 6 0xFF ++ [0x00, 0xFF, 0x77]) 1 [])
        (some (List.replicate 512 0)) 0
      = some (s1, SD_ERROR_GENERIC, some (List.replicate 512 0)) ∧
      s1.wire.length
        = (test_device_with (List.replicate 6 0xFF ++ [0x00, 0xFF, 0x77]) 1 []).wire.length
          + 6 + (0 + 1) + (1 + 1) ∧
      s1.PORTB = (test_device_with (List.replicate 6 0xFF ++ [0x00, 0xFF, 0x77]) 1 []).PORTB ∧
      get_bit s1.PORTB CS_BIT
        = get_bit (test_device_with (List.replicate 6 0xFF ++ [0x00, 0xFF, 0x77]) 1 []).PORTB
            CS_BIT :=
  C26_unexpected_token atmega128 2
    (test_device_with (List.replicate 6 0xFF ++ [0x00, 0xFF, 0x77]) 1 [])
    (some (List.replicate 512 0)) 0 0 1 (by decide) (by decide) (by decide) (by decide)
    (by decide) (by decide) (by decide) (by decide) (by decide)

/-- C27: under byte addressing the CMD17 argument is `(n * 512) mod 2^32`, which is
the product itself exactly when `n < 2^23`; for `n < 2^32 - 2^23` the calls for
`n` and for `n + 2^23` compute the same argument and make the same CMD17 exchange,
which always returns and begins with the same frame.  When its result is not Ok
both calls return that result with the buffer untouched; when it is Ok and a byte
other than 0xFF arrives at poll `k < fuel` with the flag clear, both calls return
the same device, result (Ok or Generic) and buffer; and the two calls are equal
in every case. -/
theorem C27_address_wraps (hw : AvrBits) (fuel : Nat) (s : Device)
    (buffer : Option (List Nat)) (n : Nat)
    (hbyte : s.sd_status.use_block_address = false) (hn : n < 2 ^ 32 - 2 ^ 23) :
    read_address s n = n * 512 % 2 ^ 32 ∧
    (∀ m, m * 512 % 2 ^ 32 = m * 512 ↔ m < 2 ^ 23) ∧
    n + 2 ^ 23 < 2 ^ 32 ∧
    read_address s (n + 2 ^ 23) = read_address s n ∧
    (∃ s1 err x,
      sd_send_command_with_response hw (sd_cs_select s).1 CMD17 (n * 512 % 2 ^ 32) none
        = some (s1, err, none) ∧
      sd_send_command_with_response hw (sd_cs_select s).1 CMD17
          ((n + 2 ^ 23) * 512 % 2 ^ 32) none
        = some (s1, err, none) ∧
      s1.wire = s.wire ++ x ∧
      (x.take 6).map Xfer.mosi = frame_bytes CMD17 (n * 512 % 2 ^ 32) 0x00 ∧
      (err ≠ SD_ERROR_OK →
        sd_read_block hw fuel s buffer n = some (s1, err, buffer) ∧
        sd_read_block hw fuel s buffer (n + 2 ^ 23) = some (s1, err, buffer)) ∧
      (∀ r, sd_read_block hw fuel s buffer n = some r → ∃ y, r.1.wire = s1.wire ++ y) ∧
      (∀ r, sd_read_block hw fuel s buffer (n + 2 ^ 23) = some r →
        ∃ y, r.1.wire = s1.wire ++ y)) ∧
    (∀ j k, j ≤ 10 →
      (∀ i, i < j → s.card (s.wire.length + 6 + i) % 256 = 0xFF) →
      response_get_error (s.card (s.wire.length + 6 + j) % 256) = SD_ERROR_OK →
      k < fuel →
      (∀ i, i < k → s.card (s.wire.length + 6 + (j + 1) + i) % 256 = 0xFF ∧
        (clock_bytes hw (i + 1) (read_armed hw s n j)).sd_status.timed_out = false) →
      s.card (s.wire.length + 6 + (j + 1) + k) % 256 ≠ 0xFF →
      (clock_bytes hw (k + 1) (read_armed hw s n j)).sd_status.timed_out = false →
      ∃ r, sd_read_block hw fuel s buffer n = some r ∧
        sd_read_block hw fuel s buffer (n + 2 ^ 23) = some r ∧
        (r.2.1 = SD_ERROR_OK ∨ r.2.1 = SD_ERROR_GENERIC) ∧
        s.wire.length + 6 + (j + 1) + (k + 1) ≤ r.1.wire.length) ∧
    sd_read_block hw fuel s buffer (n + 2 ^ 23) = sd_read_block hw fuel s buffer n := by
  have ha : read_address s n = n * 512 % 2 ^ 32 := by
    simp [read_address, hbyte, SD_BLOCK_SIZE]
  have hb : read_address s (n + 2 ^ 23) = read_address s n := by
    simp only [read_address, hbyte, SD_BLOCK_SIZE, Bool.false_eq_true, if_false]
    omega
  have harg : (n + 2 ^ 23) * 512 % 2 ^ 32 = n * 512 % 2 ^ 32 := by omega
  have hcall : sd_read_block hw fuel s buffer (n + 2 ^ 23) = sd_read_block hw fuel s buffer n := by
    rw [sd_read_block_unfold, sd_read_block_unfold, hb]
  obtain ⟨s1, err, x, h1, h2, h3, h4, h5⟩ := sd_read_block_first_exchange hw fuel s buffer n
  rw [ha] at h1 h3
  refine ⟨ha, fun m => ?_, by omega, hb,
    ⟨s1, err, x, h1, by rw [harg]; exact h1, h2, h3, fun hne => ?_, h5, ?_⟩, ?_, hcall⟩
  · constructor
    · intro h
      by_contra hm
      have : m * 512 % 2 ^ 32 < 2 ^ 32 := Nat.mod_lt _ (by norm_num)
      omega
    · intro h
      exact Nat.mod_eq_of_lt (by omega)
  · exact ⟨h4 hne, by rw [hcall]; exact h4 hne⟩
  · intro r hr
    rw [hcall] at hr
    exact h5 r hr
  · intro j k hj hfill hok hfuel hpoll hbyte0 hclear
    have h := sd_read_block_answered hw fuel s buffer n j k hj hfill hok hfuel
      (fun i hi => ⟨(hpoll i hi).1, read_timed_out_clear _ (hpoll i hi).2⟩) hbyte0
      (read_timed_out_clear _ hclear)
    by_cases ht : s.card (s.wire.length + 6 + (j + 1) + k) % 256 ≠ SD_READ_START_TOKEN
    · rw [if_pos ht] at h
      refine ⟨_, h, by rw [hcall]; exact h, Or.inr rfl, ?_⟩
      simp
    · rw [if_neg ht] at h
      refine ⟨_, h, by rw [hcall]; exact h, Or.inl rfl, ?_⟩
      simp
      omega

/-- Witness of C27: blocks 3 and 3 + 2^23 on a byte-addressed device whose card
does not answer: both calls return SD_ERROR_NO_RESPONSE in the same device. -/
theorem C27_address_wraps_witness :
    read_address (test_device []) (3 + 2 ^ 23) = read_address (test_device []) 3 ∧
    sd_read_block atmega128 1 (test_device []) none (3 + 2 ^ 23)
      = sd_read_block atmega128 1 (test_device []) none 3 ∧
    ∃ s1, sd_read_block atmega128 1 (test_device []) none 3
        = some (s1, SD_ERROR_NO_RESPONSE, none) ∧
      sd_read_block atmega128 1 (test_device []) none (3 + 2 ^ 23)
        = some (s1, SD_ERROR_NO_RESPONSE, none) := by
  have h := C27_address_wraps atmega128 1 (test_device []) none 3 rfl (by decide)
  refine ⟨h.2.2.2.1, h.2.2.2.2.2.2, ?_⟩
  obtain ⟨s1, err, x, h1, _, _, _, hne, _⟩ := h.2.2.2.2.1
  have he : (sd_send_command_with_response atmega128 (sd_cs_select (test_device [])).1 CMD17
      (3 * 512 % 2 ^ 32) none).map (fun r => r.2.1) = some SD_ERROR_NO_RESPONSE := by
    decide
  rw [h1] at he
  have herr : err = SD_ERROR_NO_RESPONSE := by simpa using he
  rw [herr] at hne
  exact ⟨s1, hne (by decide)⟩

/-! ## Negotiation loop -/

theorem response_get_error_ne_timeout (b : Nat) : response_get_error b ≠ SD_ERROR_TIMEOUT := by
  unfold response_get_error
  repeat' split
  all_goals decide

/-- The result of a command exchange is never SD_ERROR_TIMEOUT. -/
theorem command_error_ne_timeout (hw : AvrBits) (s s1 : Device) (c : sd_command_t)
    (a k : Nat) (response r1 : Option sd_response_t) (err : sd_error_t)
    (h : sd_send_command_crc_with_response hw s c a k response = some (s1, err, r1)) :
    err ≠ SD_ERROR_TIMEOUT := by
  have key : ∃ b, err = SD_ERROR_NO_RESPONSE ∨ err = response_get_error b := by
    rcases first_status_or_silent (fun i => s.card (s.wire.length + 6 + i) % 256) 11 with
      ⟨j, hj, hf, hst⟩ | hsil
    · have hj10 : j ≤ SD_RESPONSE_MAX_DELAY_BYTES := by
        simp only [SD_RESPONSE_MAX_DELAY_BYTES]; omega
      refine ⟨s.card (s.wire.length + 6 + j) % 256, Or.inr ?_⟩
      cases hben : error_is_benign (response_get_error (s.card (s.wire.length + 6 + j) % 256))
      · rw [command_fatal hw j s c a k response hj10 hf hst hben] at h
        cases h; rfl
      · by_cases hc : c = CMD8 ∨ c = CMD58
        · have hx : response_get_extra_size c = 4 := by simp [response_get_extra_size, hc]
          rw [command_benign_four hw j s c a k response hx hj10 hf hben] at h
          cases h; rfl
        · have hx : response_get_extra_size c = 0 := by simp [response_get_extra_size, hc]
          rw [command_benign_zero hw j s c a k response hx hj10 hf hben] at h
          cases h; rfl
    · refine ⟨0, Or.inl ?_⟩
      rw [command_silent hw s c a k response hsil] at h
      cases h; rfl
  obtain ⟨b, hb | hb⟩ := key
  · rw [hb]; decide
  · rw [hb]; exact response_get_error_ne_timeout b

theorem hc_shift (hc : Bool) : hc.toNat <<< 30 = hc.toNat * 2 ^ 30 := Nat.shiftLeft_eq _ _

theorem sd_wait_for_initialization_loop_unfold (hw : AvrBits) (hc : Bool) (fuel : Nat)
    (s : Device) :
    sd_wait_for_initialization_loop hw hc (fuel + 1) s =
      if read_timed_out s = true then some (s, SD_ERROR_TIMEOUT)
      else
        match sd_send_command_with_response hw s CMD55 0 none with
        | none => none
        | some (s, _, _) =>
          match sd_send_command_with_response hw s ACMD41 (hc.toNat <<< 30) none with
          | none => none
          | some (s, err, _) =>
            if err ≠ SD_ERROR_IDLE then some (s, err)
            else sd_wait_for_initialization_loop hw hc fuel s := rfl

/-- One pass through the loop body when the flag is read as clear. -/
theorem sd_wait_for_initialization_loop_step (hw : AvrBits) (hc : Bool) (fuel : Nat)
    (s : Device) (hclear : read_timed_out s = false) :
    sd_wait_for_initialization_loop hw hc (fuel + 1) s =
      match negotiation_round hw hc s with
      | none => none
      | some (s2, err) =>
        if err ≠ SD_ERROR_IDLE then some (s2, err)
        else sd_wait_for_initialization_loop hw hc fuel s2 := by
  rw [sd_wait_for_initialization_loop_unfold, hc_shift, if_neg (by rw [hclear]; decide)]
  unfold negotiation_round
  cases sd_send_command_with_response hw s CMD55 0 none with
  | none => rfl
  | some r =>
    obtain ⟨s1, e1, r1⟩ := r
    dsimp only
    cases sd_send_command_with_response hw s1 ACMD41 (hc.toNat * 2 ^ 30) none with
    | none => rfl
    | some q => rfl

/-- The loop that reads the flag as set returns SD_ERROR_TIMEOUT at once. -/
theorem sd_wait_for_initialization_loop_expired (hw : AvrBits) (hc : Bool) (fuel : Nat)
    (s : Device) (hset : read_timed_out s = true) :
    sd_wait_for_initialization_loop hw hc (fuel + 1) s = some (s, SD_ERROR_TIMEOUT) := by
  rw [sd_wait_for_initialization_loop_unfold]
  simp only [hset, if_true]

/-- Both exchanges of an iteration return, and the iteration ends with the result
of ACMD41, which is never SD_ERROR_TIMEOUT. -/
theorem negotiation_round_outcome (hw : AvrBits) (hc : Bool) (s : Device) :
    ∃ n55 e1 n41 err,
      sd_send_command_with_response hw s CMD55 0 none
        = some (after_command hw s CMD55 0 0 n55, e1, none) ∧
      sd_send_command_with_response hw (after_command hw s CMD55 0 0 n55) ACMD41
          (hc.toNat * 2 ^ 30) none
        = some (after_command hw (after_command hw s CMD55 0 0 n55) ACMD41
            (hc.toNat * 2 ^ 30) 0 n41, err, none) ∧
      negotiation_round hw hc s
        = some (after_command hw (after_command hw s CMD55 0 0 n55) ACMD41
            (hc.toNat * 2 ^ 30) 0 n41, err) ∧
      err ≠ SD_ERROR_TIMEOUT := by
  obtain ⟨n55, e1, v1, h55⟩ := command_outcome hw s CMD55 0 0 none
  obtain ⟨n41, err, v2, h41⟩ :=
    command_outcome hw (after_command hw s CMD55 0 0 n55) ACMD41 (hc.toNat * 2 ^ 30) 0 none
  have h55a : sd_send_command_with_response hw s CMD55 0 none
      = some (after_command hw s CMD55 0 0 n55, e1, none) := h55
  have h41a : sd_send_command_with_response hw (after_command hw s CMD55 0 0 n55) ACMD41
      (hc.toNat * 2 ^ 30) none
      = some (after_command hw (after_command hw s CMD55 0 0 n55) ACMD41
          (hc.toNat * 2 ^ 30) 0 n41, err, none) := h41
  refine ⟨n55, e1, n41, err, h55a, h41a, ?_, command_error_ne_timeout _ _ _ _ _ _ _ _ _ h41⟩
  unfold negotiation_round
  rw [h55a]
  dsimp only
  rw [h41a]

theorem flag_kept_refl (s : Device) : flag_kept s s := ⟨rfl, le_refl _, Or.inl rfl⟩

theorem flag_kept_trans {a b c : Device} (h1 : flag_kept a b) (h2 : flag_kept b c) :
    flag_kept a c := by
  obtain ⟨hc1, hl1, hf1⟩ := h1
  obtain ⟨hc2, hl2, hf2⟩ := h2
  refine ⟨hc2.trans hc1, le_trans hl1 hl2, ?_⟩
  rcases hf2 with h | ⟨ht, k, hk1, hk2, hk⟩
  · rcases hf1 with h0 | ⟨ht0, k, hk1, hk2, hk⟩
    · left; rw [h, h0]
    · right; exact ⟨by rw [h, ht0], k, hk1, by omega, hk⟩
  · rw [hc1] at hk
    right; exact ⟨ht, k, by omega, hk2, hk⟩

/-- What `flag_kept` gives: a set flag stays set, and without a compare-match event
the flag is unchanged. -/
theorem flag_kept_reads (s s1 : Device) (h : flag_kept s s1) :
    (s.sd_status.timed_out = true → s1.sd_status.timed_out = true) ∧
    ((∀ k, s.wire.length ≤ k → k < s1.wire.length → s.compare_match k = false) →
      s1.sd_status.timed_out = s.sd_status.timed_out) := by
  obtain ⟨_, _, hf⟩ := h
  constructor
  · intro hs
    rcases hf with h | ⟨h, _⟩
    · rw [h, hs]
    · exact h
  · intro hq
    rcases hf with h | ⟨_, k, hk1, hk2, hk⟩
    · exact h
    · rw [hq k hk1 hk2] at hk; cases hk

theorem flag_kept_of_eq (s s1 : Device) (hc : s1.compare_match = s.compare_match)
    (hl : s1.wire = s.wire) (hs : s1.sd_status = s.sd_status) : flag_kept s s1 :=
  ⟨hc, by rw [hl], Or.inl (by rw [hs])⟩

theorem spi_master_transfer_flag_kept (hw : AvrBits) (s : Device) (b : Nat) :
    flag_kept s (spi_master_transfer hw s b).1 := by
  refine ⟨by simp, by simp, ?_⟩
  rw [spi_master_transfer_wire]
  unfold spi_master_transfer
  dsimp only
  split
  · rename_i h
    right
    exact ⟨rfl, s.wire.length, le_refl _, by simp, h.1⟩
  · left; rfl

theorem clock_bytes_flag_kept (hw : AvrBits) (n : Nat) (s : Device) :
    flag_kept s (clock_bytes hw n s) := by
  induction n generalizing s with
  | zero => exact flag_kept_refl s
  | succ n ih =>
    rw [clock_bytes_succ]
    exact flag_kept_trans (spi_master_transfer_flag_kept hw s 0xFF) (ih _)

theorem sd_send_command_crc_loop_flag_kept (hw : AvrBits) (a i : Nat) (s : Device) :
    flag_kept s (sd_send_command_crc_loop hw a i s) := by
  induction i generalizing s with
  | zero => exact flag_kept_refl s
  | succ i ih =>
    exact flag_kept_trans (spi_master_transfer_flag_kept hw s _) (ih _)

theorem sd_send_command_crc_flag_kept (hw : AvrBits) (s : Device) (c a k : Nat) :
    flag_kept s (sd_send_command_crc hw s c a k) :=
  flag_kept_trans (spi_master_transfer_flag_kept hw s _)
    (flag_kept_trans (sd_send_command_crc_loop_flag_kept hw a _ _)
      (spi_master_transfer_flag_kept hw _ _))

theorem sd_cs_restore_flag_kept (s : Device) (b : Bool) : flag_kept s (sd_cs_restore s b) :=
  flag_kept_of_eq _ _ rfl rfl rfl

theorem after_command_flag_kept (hw : AvrBits) (s : Device) (c a k n : Nat) :
    flag_kept s (after_command hw s c a k n) :=
  flag_kept_trans (flag_kept_of_eq s (sd_cs_select s).1 rfl rfl rfl)
    (flag_kept_trans (sd_send_command_crc_flag_kept hw _ c a k)
      (flag_kept_trans (clock_bytes_flag_kept hw n _) (sd_cs_restore_flag_kept _ _)))

theorem sd_init_power_on_flag_kept (hw : AvrBits) (s : Device) :
    flag_kept s (sd_init_power_on hw s) := by
  rw [sd_init_power_on_eq]
  exact flag_kept_trans (flag_kept_of_eq s (sd_init_setup hw s) rfl rfl rfl)
    (flag_kept_trans (sd_cs_restore_flag_kept _ _)
      (flag_kept_trans (clock_bytes_flag_kept hw 10 _)
        (flag_kept_trans (sd_cs_restore_flag_kept _ _)
          (flag_kept_trans (clock_bytes_flag_kept hw 2 _) (sd_cs_restore_flag_kept _ _)))))

theorem sd_read_block_loop_flag_kept (hw : AvrBits) (fuel : Nat) (s : Device)
    (r : Device × Option Nat) (h : sd_read_block_loop hw fuel s = some r) :
    flag_kept s r.1 := by
  induction fuel generalizing s with
  | zero => simp [sd_read_block_loop] at h
  | succ fuel ih =>
    rw [sd_read_block_loop] at h
    have h1 : flag_kept s (spi_master_receive_byte hw s).1 :=
      spi_master_transfer_flag_kept hw s 0xFF
    split at h
    · cases h; exact h1
    · split at h
      · exact flag_kept_trans h1 (ih _ h)
      · cases h; exact h1

theorem sd_wait_for_initialization_loop_flag_kept (hw : AvrBits) (hc : Bool) (fuel : Nat)
    (s : Device) (r : Device × sd_error_t)
    (h : sd_wait_for_initialization_loop hw hc fuel s = some r) : flag_kept s r.1 := by
  induction fuel generalizing s with
  | zero => cases h
  | succ fuel ih =>
    by_cases hf : read_timed_out s = true
    · rw [sd_wait_for_initialization_loop_expired hw hc fuel s hf] at h
      cases h; exact flag_kept_refl s
    · have hf1 : read_timed_out s = false := by simpa using hf
      obtain ⟨n55, e1, n41, err, _, _, hround, _⟩ := negotiation_round_outcome hw hc s
      rw [sd_wait_for_initialization_loop_step hw hc fuel s hf1, hround] at h
      dsimp only at h
      have hk : flag_kept s (after_command hw (after_command hw s CMD55 0 0 n55) ACMD41
          (hc.toNat * 2 ^ 30) 0 n41) :=
        flag_kept_trans (after_command_flag_kept hw s _ _ _ _)
          (after_command_flag_kept hw _ _ _ _ _)
      by_cases he : err ≠ SD_ERROR_IDLE
      · rw [if_pos he] at h
        cases h; exact hk
      · rw [if_neg he] at h
        exact flag_kept_trans hk (ih _ h)

theorem sd_read_block_flag_kept (hw : AvrBits) (fuel : Nat) (s : Device)
    (buffer : Option (List Nat)) (n : Nat) (r : Device × sd_error_t × Option (List Nat))
    (h : sd_read_block hw fuel s buffer n = some r) :
    ∃ s1 err, sd_send_command_with_response hw (sd_cs_select s).1 CMD17 (read_address s n)
        none = some (s1, err, none) ∧ flag_kept s s1 ∧
      (err ≠ SD_ERROR_OK → r.1 = s1) ∧
      (err = SD_ERROR_OK → flag_kept (enable_timeout_timer hw s1) r.1) := by
  obtain ⟨m, err, v, hx⟩ :=
    command_outcome hw (sd_cs_select s).1 CMD17 (read_address s n) 0x00 none
  rw [Option.map_none'] at hx
  refine ⟨_, err, hx, flag_kept_trans (flag_kept_of_eq s (sd_cs_select s).1 rfl rfl rfl)
    (after_command_flag_kept hw _ _ _ _ _), ?_, ?_⟩
  · intro he
    rw [sd_read_block_unfold, hx] at h
    dsimp only at h
    rw [if_pos he] at h
    cases h; rfl
  · intro he
    rw [sd_read_block_unfold, hx] at h
    dsimp only at h
    rw [if_neg (by rw [he]; exact fun h0 => h0 rfl)] at h
    cases hl : sd_read_block_loop hw fuel (enable_timeout_timer hw
        (after_command hw (sd_cs_select s).1 CMD17 (read_address s n) 0x00 m)) with
    | none => rw [hl] at h; cases h
    | some q =>
      have hq := sd_read_block_loop_flag_kept hw fuel _ q hl
      obtain ⟨s2, o⟩ := q
      rw [hl] at h
      cases o with
      | none =>
        dsimp only at h
        cases h
        exact flag_kept_trans hq (sd_cs_restore_flag_kept _ _)
      | some tok =>
        dsimp only at h
        by_cases ht : tok ≠ SD_READ_START_TOKEN
        · rw [if_pos ht] at h
          cases h
          exact flag_kept_trans hq (sd_cs_restore_flag_kept _ _)
        · rw [if_neg ht] at h
          cases h
          dsimp only
          rw [spi_master_receive_data_fst, spi_master_receive_data_fst]
          exact flag_kept_trans hq (flag_kept_trans (clock_bytes_flag_kept hw _ _)
            (flag_kept_trans (clock_bytes_flag_kept hw _ _) (sd_cs_restore_flag_kept _ _)))

theorem sd_init_flag_kept (hw : AvrBits) (fuel : Nat) (s : Device) :
    ∃ r, sd_init hw fuel s = some r ∧ flag_kept s r.1 := by
  obtain ⟨n, err0, _, h | h⟩ := sd_init_outcome hw fuel s
  · exact ⟨_, h.2, flag_kept_trans (sd_init_power_on_flag_kept hw s)
      (after_command_flag_kept hw _ _ _ _ _)⟩
  · obtain ⟨_, m, err, b, _, h2⟩ := h
    exact ⟨_, h2, flag_kept_trans (sd_init_power_on_flag_kept hw s)
      (flag_kept_trans (after_command_flag_kept hw _ _ _ _ _)
        (after_command_flag_kept hw _ _ _ _ _))⟩

theorem sd_is_initialized_flag_kept (hw : AvrBits) (s : Device) :
    ∃ r, sd_is_initialized hw s = some r ∧ flag_kept s r.1 := by
  obtain ⟨n, err, v, h⟩ := command_outcome hw s CMD58 0 0x00 (some (sd_response_t.mk 0))
  have h1 : sd_send_command_with_response hw s CMD58 0 (some (sd_response_t.mk 0))
      = some (after_command hw s CMD58 0 0x00 n, err,
          (some (sd_response_t.mk 0)).map (fun _ => v)) := h
  unfold sd_is_initialized
  rw [h1]
  dsimp only
  by_cases he : err ≠ SD_ERROR_OK
  · rw [if_pos he]
    exact ⟨_, rfl, after_command_flag_kept hw s _ _ _ _⟩
  · rw [if_neg he]
    exact ⟨_, rfl, after_command_flag_kept hw s _ _ _ _⟩

/-- C24: `enable_timeout_timer` writes the flag false as its first step and enables
the compare interrupt as its last; the handler writes the flag true and disables
the compare interrupt, and an exchange that starts with the interrupt disabled
changes neither the flag nor `TIMSK`, so the handler runs at most once per arming;
the flag after an exchange is the flag before it or-ed with "the compare-match
event fell into this exchange while the interrupt was enabled".  Every command
exchange, `sd_init` and `sd_is_initialized` leave the flag as it was unless the
handler ran (`flag_kept`); `sd_wait_for_initialization` does so after its call of
`enable_timeout_timer`, and `sd_read_block` does so up to the CMD17 result and,
when that is Ok, after its call of `enable_timeout_timer`. -/
theorem C24_timeout_flag_discipline (hw : AvrBits) (hbit : hw.OCIE1A < 8) :
    (∀ s, enable_timeout_timer hw s
        = (fun d : Device => { d with TIMSK := set_bit d.TIMSK hw.OCIE1A % 256 })
            ((fun d : Device => { d with TIFR := set_bit d.TIFR hw.OCF1A % 256 })
              ((fun d : Device => { d with TCNT1 := 0 })
                { s with sd_status := { s.sd_status with timed_out := false } })) ∧
      (enable_timeout_timer hw s).sd_status.timed_out = false ∧
      get_bit (enable_timeout_timer hw s).TIMSK hw.OCIE1A = 1) ∧
    (∀ s, (TIMER1_COMPA_vect hw s).sd_status.timed_out = true ∧
      get_bit (TIMER1_COMPA_vect hw s).TIMSK hw.OCIE1A = 0) ∧
    (∀ s b, (spi_master_transfer hw s b).1.sd_status.timed_out
        = (s.sd_status.timed_out ||
            (s.compare_match s.wire.length && decide (get_bit s.TIMSK hw.OCIE1A = 1))) ∧
      (get_bit s.TIMSK hw.OCIE1A = 0 →
        (spi_master_transfer hw s b).1.sd_status = s.sd_status ∧
        (spi_master_transfer hw s b).1.TIMSK = s.TIMSK) ∧
      get_bit (spi_master_transfer hw s b).1.TIMSK hw.OCIE1A
        = (if s.compare_match s.wire.length = true then 0 else get_bit s.TIMSK hw.OCIE1A)) ∧
    (∀ s s1, flag_kept s s1 →
      (s.sd_status.timed_out = true → s1.sd_status.timed_out = true) ∧
      ((∀ k, s.wire.length ≤ k → k < s1.wire.length → s.compare_match k = false) →
        s1.sd_status.timed_out = s.sd_status.timed_out)) ∧
    (∀ s c a k response, ∃ r,
      sd_send_command_crc_with_response hw s c a k response = some r ∧ flag_kept s r.1) ∧
    (∀ fuel s, ∃ r, sd_init hw fuel s = some r ∧ flag_kept s r.1) ∧
    (∀ s, ∃ r, sd_is_initialized hw s = some r ∧ flag_kept s r.1) ∧
    (∀ fuel s hc r, sd_wait_for_initialization hw fuel s hc = some r →
      flag_kept (enable_timeout_timer hw s) r.1) ∧
    (∀ fuel s buffer n r, sd_read_block hw fuel s buffer n = some r →
      ∃ s1 err, sd_send_command_with_response hw (sd_cs_select s).1 CMD17 (read_address s n)
          none = some (s1, err, none) ∧ flag_kept s s1 ∧
        (err ≠ SD_ERROR_OK → r.1 = s1) ∧
        (err = SD_ERROR_OK → flag_kept (enable_timeout_timer hw s1) r.1)) := by
  refine ⟨?_, ?_, ?_, flag_kept_reads, ?_, sd_init_flag_kept hw, sd_is_initialized_flag_kept hw,
    ?_, sd_read_block_flag_kept hw⟩
  · intro s
    exact ⟨rfl, rfl, get_bit_set_bit_self _ _ hbit⟩
  · intro s
    exact ⟨rfl, get_bit_clear_bit_self _ _ hbit⟩
  · intro s b
    have hle := get_bit_le_one s.TIMSK hw.OCIE1A
    unfold spi_master_transfer
    dsimp only
    by_cases hc : s.compare_match s.wire.length = true ∧ get_bit s.TIMSK hw.OCIE1A = 1
    · rw [if_pos hc]
      refine ⟨?_, ?_, ?_⟩
      · simp [TIMER1_COMPA_vect, disable_timeout_timer, hc.1, hc.2]
      · intro h0; rw [hc.2] at h0; cases h0
      · rw [if_pos hc.1]
        exact get_bit_clear_bit_self _ _ hbit
    · rw [if_neg hc]
      refine ⟨?_, fun _ => ⟨rfl, rfl⟩, ?_⟩
      · by_cases h1 : s.compare_match s.wire.length = true
        · have h2 : ¬ get_bit s.TIMSK hw.OCIE1A = 1 := fun h => hc ⟨h1, h⟩
          simp [h1, h2]
        · simp [h1]
      · by_cases h1 : s.compare_match s.wire.length = true
        · rw [if_pos h1]
          have h2 : ¬ get_bit s.TIMSK hw.OCIE1A = 1 := fun h => hc ⟨h1, h⟩
          show get_bit s.TIMSK hw.OCIE1A = 0
          omega
        · rw [if_neg h1]
  · intro s c a k response
    obtain ⟨n, err, v, h⟩ := command_outcome hw s c a k response
    exact ⟨_, h, after_command_flag_kept hw s c a k n⟩
  · intro fuel s hc r h
    exact sd_wait_for_initialization_loop_flag_kept hw hc fuel _ r h

/-- Witness of C24 on the ATmega128 bit numbers: arming clears the flag and enables
the interrupt. -/
theorem C24_timeout_flag_discipline_witness :
    (enable_timeout_timer atmega128 (test_device [])).sd_status.timed_out = false ∧
    get_bit (enable_timeout_timer atmega128 (test_device [])).TIMSK atmega128.OCIE1A = 1 :=
  ((C24_timeout_flag_discipline atmega128 (by decide)).1 (test_device [])).2

/-! ## Serial monitor -/

theorem flush_row_loop_zero (k : MonitorConsts) (row i : Nat) (m : Monitor) :
    flush_row_loop k row 0 i m = none := rfl

theorem flush_row_loop_succ (k : MonitorConsts) (row fuel i : Nat) (m : Monitor) :
    flush_row_loop k row (fuel + 1) i m =
      if i < k.COLS then
        flush_row_loop k row fuel ((i + 1) % 256) (buffer_store m row i EMPTY_CHAR)
      else some m := rfl

theorem flush_buffer_loop_succ (k : MonitorConsts) (fuel n : Nat) (m : Monitor) :
    flush_buffer_loop k fuel (n + 1) m =
      match flush_row k fuel m (ROWS - (n + 1)) with
      | none => none
      | some m => flush_buffer_loop k fuel n m := rfl

/-- With `COLS` above 255 the counter of `flush_row` never reaches it. -/
theorem flush_row_loop_wraps (k : MonitorConsts) (row : Nat) (hC : 256 ≤ k.COLS)
    (fuel i : Nat) (m : Monitor) (hi : i < 256) : flush_row_loop k row fuel i m = none := by
  induction fuel generalizing i m with
  | zero => rfl
  | succ fuel ih =>
    rw [flush_row_loop_succ, if_pos (by omega)]
    exact ih _ _ (Nat.mod_lt _ (by decide))

theorem stores_inside_refl (k : MonitorConsts) (m : Monitor) : stores_inside k m m :=
  ⟨[], by simp, by simp⟩

theorem stores_inside_of_eq (k : MonitorConsts) (m m1 : Monitor) (h : m1.stores = m.stores) :
    stores_inside k m m1 :=
  ⟨[], by simp [h], by simp⟩

theorem stores_inside_trans {k : MonitorConsts} {a b c : Monitor}
    (h1 : stores_inside k a b) (h2 : stores_inside k b c) : stores_inside k a c := by
  obtain ⟨x, hx, hxi⟩ := h1
  obtain ⟨y, hy, hyi⟩ := h2
  refine ⟨x ++ y, by rw [hy, hx, List.append_assoc], ?_⟩
  intro w hw
  rcases List.mem_append.mp hw with h | h
  · exact hxi w h
  · exact hyi w h

/-- With `COLS` at most 255 the loop of `flush_row` ends, writes only inside the
row and leaves the five counters as they were. -/
theorem flush_row_loop_inside (k : MonitorConsts) (row : Nat) (hC : k.COLS ≤ 255)
    (hrow : row < 16) (fuel i : Nat) (m : Monitor) (hi : i ≤ k.COLS)
    (hfuel : k.COLS - i < fuel) :
    ∃ m1, flush_row_loop k row fuel i m = some m1 ∧
      m1.buffer_start_row = m.buffer_start_row ∧ m1.buffer_end_row = m.buffer_end_row ∧
      m1.col_to_add = m.col_to_add ∧ m1.first_displayed_row = m.first_displayed_row ∧
      m1.used_rows = m.used_rows ∧ stores_inside k m m1 := by
  induction fuel generalizing i m with
  | zero => omega
  | succ fuel ih =>
    rw [flush_row_loop_succ]
    by_cases h : i < k.COLS
    · rw [if_pos h]
      have e : (i + 1) % 256 = i + 1 := Nat.mod_eq_of_lt (by omega)
      rw [e]
      obtain ⟨m1, h1, a1, a2, a3, a4, a5, x, hx, hxi⟩ :=
        ih (i + 1) (buffer_store m row i EMPTY_CHAR) (by omega) (by omega)
      refine ⟨m1, h1, a1, a2, a3, a4, a5, (row, i) :: x, ?_, ?_⟩
      · rw [hx]
        simp [buffer_store]
      · intro w hw
        rcases List.mem_cons.mp hw with h0 | h0
        · rw [h0]; exact ⟨hrow, h⟩
        · exact hxi w h0
    · rw [if_neg h]
      exact ⟨m, rfl, rfl, rfl, rfl, rfl, rfl, stores_inside_refl k m⟩

theorem flush_buffer_loop_inside (k : MonitorConsts) (fuel : Nat) (hC : k.COLS ≤ 255)
    (hfuel : k.COLS < fuel) (n : Nat) (m : Monitor) (hn : n ≤ 16) :
    ∃ m1, flush_buffer_loop k fuel n m = some m1 ∧ stores_inside k m m1 := by
  induction n generalizing m with
  | zero => exact ⟨m, rfl, stores_inside_refl k m⟩
  | succ n ih =>
    obtain ⟨m1, h1, _, _, _, _, _, hs⟩ :=
      flush_row_loop_inside k (ROWS - (n + 1)) hC (by simp only [ROWS]; omega) fuel 0 m
        (Nat.zero_le _) (by omega)
    obtain ⟨m2, h2, hs2⟩ := ih m1 (by omega)
    refine ⟨m2, ?_, stores_inside_trans hs hs2⟩
    rw [flush_buffer_loop_succ]
    unfold flush_row
    rw [h1]
    exact h2

theorem flush_buffer_inside (k : MonitorConsts) (fuel : Nat) (hC : k.COLS ≤ 255)
    (hfuel : k.COLS < fuel) (m : Monitor) :
    ∃ m1, flush_buffer k fuel m = some m1 ∧ monitor_inv k m1 ∧ stores_inside k m m1 := by
  obtain ⟨m1, h1, hs⟩ :=
    flush_buffer_loop_inside k fuel hC hfuel ROWS (disable_usart_rx_interrupt k m) (by decide)
  unfold flush_buffer
  dsimp only
  rw [h1]
  refine ⟨_, rfl, ?_, ?_⟩
  · simp [monitor_inv, enable_usart_rx_interrupt]
  · exact stores_inside_trans (stores_inside_of_eq k m (disable_usart_rx_interrupt k m) rfl)
      (stores_inside_trans hs (stores_inside_of_eq k _ _ rfl))

theorem next_row_lt (r : Nat) : next_row r < 16 := Nat.mod_lt _ (by decide)

theorem prev_row_lt (r : Nat) : prev_row r < 16 := Nat.mod_lt _ (by decide)

theorem sub_rows_lt (r s : Nat) : sub_rows r s < 16 := Nat.mod_lt _ (by decide)

theorem shift_display_down_inv (k : MonitorConsts) (m : Monitor) (h : monitor_inv k m) :
    monitor_inv k (shift_display_down m) :=
  ⟨h.1, h.2.1, next_row_lt _, h.2.2.2⟩

theorem shift_display_up_inv (k : MonitorConsts) (m : Monitor) (h : monitor_inv k m) :
    monitor_inv k (shift_display_up m) :=
  ⟨h.1, h.2.1, prev_row_lt _, h.2.2.2⟩

theorem make_room_inside (k : MonitorConsts) (fuel : Nat) (hC : k.COLS ≤ 255)
    (hfuel : k.COLS < fuel) (m : Monitor) (h : monitor_inv k m) :
    ∃ m1, make_room k fuel m = some m1 ∧ monitor_inv k m1 ∧ stores_inside k m m1 := by
  unfold make_room
  by_cases hfull : buffer_full m = true
  · rw [if_pos hfull]
    dsimp only
    have hinv : monitor_inv k
        (if buffer_start_is_displayed_on_first_row m = true then shift_display_down m
          else m) := by
      split
      · exact shift_display_down_inv k m h
      · exact h
    have hst : (if buffer_start_is_displayed_on_first_row m = true then shift_display_down m
          else m).stores = m.stores := by
      split <;> rfl
    obtain ⟨m1, h1, a1, a2, a3, a4, a5, hs⟩ :=
      flush_row_loop_inside k _ hC hinv.1 fuel 0 _ (Nat.zero_le _) (by omega)
    unfold flush_row
    rw [h1]
    refine ⟨_, rfl, ?_, stores_inside_trans (stores_inside_of_eq k m _ hst)
      (stores_inside_trans hs (stores_inside_of_eq k _ _ rfl))⟩
    obtain ⟨_, i2, i3, i4, i5, i6⟩ := hinv
    refine ⟨next_row_lt _, ?_, ?_, ?_, ?_, ?_⟩
    · show m1.buffer_end_row < 16
      rw [a2]; exact i2
    · show m1.first_displayed_row < 16
      rw [a4]; exact i3
    · show m1.col_to_add ≤ k.COLS
      rw [a3]; exact i4
    · show 1 ≤ m1.used_rows
      rw [a5]; exact i5
    · show m1.used_rows ≤ 16
      rw [a5]; exact i6
  · rw [if_neg hfull]
    exact ⟨m, rfl, h, stores_inside_refl k m⟩

theorem start_new_buffer_line_inside (k : MonitorConsts) (fuel : Nat) (hC : k.COLS ≤ 255)
    (hfuel : k.COLS < fuel) (m : Monitor) (h : monitor_inv k m) :
    ∃ m1, start_new_buffer_line k fuel m = some m1 ∧ monitor_inv k m1 ∧ m1.col_to_add = 0 ∧
      stores_inside k m m1 := by
  obtain ⟨m1, h1, hinv, hs⟩ := make_room_inside k fuel hC hfuel m h
  unfold start_new_buffer_line
  rw [h1]
  dsimp only
  have hinv2 : monitor_inv k
      (if buffer_end_is_displayed_on_last_row k m1 = true then shift_display_down m1
        else m1) := by
    split
    · exact shift_display_down_inv k m1 hinv
    · exact hinv
  have hst : (if buffer_end_is_displayed_on_last_row k m1 = true then shift_display_down m1
        else m1).stores = m1.stores := by
    split <;> rfl
  generalize (if buffer_end_is_displayed_on_last_row k m1 = true then shift_display_down m1
        else m1) = m2 at hinv2 hst
  obtain ⟨i1, i2, i3, i4, i5, i6⟩ := hinv2
  unfold increment_used_row_counter move_buffer_end
  dsimp only
  by_cases hu : m2.used_rows < ROWS
  · rw [if_pos hu]
    simp only [ROWS] at hu
    refine ⟨_, rfl, ⟨i1, next_row_lt _, i3, Nat.zero_le _, ?_, ?_⟩, rfl,
      stores_inside_trans hs (stores_inside_of_eq k _ _ hst)⟩
    · show 1 ≤ (m2.used_rows + 1) % 256
      omega
    · show (m2.used_rows + 1) % 256 ≤ 16
      omega
  · rw [if_neg hu]
    exact ⟨_, rfl, ⟨i1, next_row_lt _, i3, Nat.zero_le _, i5, i6⟩, rfl,
      stores_inside_trans hs (stores_inside_of_eq k _ _ hst)⟩

/-- What `add_char_to_buffer` does to the invariant, and where it writes. -/
theorem add_char_to_buffer_inside (k : MonitorConsts) (fuel : Nat) (h1 : 1 ≤ k.COLS)
    (hC : k.COLS ≤ 255) (hfuel : k.COLS < fuel) (m : Monitor) (c : Nat) (h : monitor_inv k m) :
    ∃ m1, add_char_to_buffer k fuel m c = some m1 ∧ monitor_inv k m1 ∧
      stores_inside k m m1 := by
  unfold add_char_to_buffer
  by_cases hr : c = 13
  · rw [if_pos hr]
    exact ⟨m, rfl, h, stores_inside_refl k m⟩
  · rw [if_neg hr]
    have key : ∃ m2, (if m.col_to_add = k.COLS then start_new_buffer_line k fuel m
        else some m) = some m2 ∧ monitor_inv k m2 ∧ m2.col_to_add < k.COLS ∧
        stores_inside k m m2 := by
      by_cases hcol : m.col_to_add = k.COLS
      · rw [if_pos hcol]
        obtain ⟨m2, e2, hinv, h0, hs⟩ := start_new_buffer_line_inside k fuel hC hfuel m h
        exact ⟨m2, e2, hinv, by omega, hs⟩
      · rw [if_neg hcol]
        have := h.2.2.2.1
        exact ⟨m, rfl, h, by omega, stores_inside_refl k m⟩
    obtain ⟨m2, e2, ⟨i1, i2, i3, i4, i5, i6⟩, hlt, hs⟩ := key
    rw [e2]
    dsimp only
    by_cases hn : c = 10
    · rw [if_pos hn]
      refine ⟨_, rfl, ⟨i1, i2, i3, ?_, i5, i6⟩, stores_inside_trans hs
        (stores_inside_of_eq k _ _ rfl)⟩
      show k.COLS % 256 ≤ k.COLS
      exact Nat.mod_le _ _
    · rw [if_neg hn]
      refine ⟨_, rfl, ⟨i1, i2, i3, ?_, i5, i6⟩, stores_inside_trans hs ?_⟩
      · show (m2.col_to_add + 1) % 256 ≤ k.COLS
        omega
      · refine ⟨[(m2.buffer_end_row, m2.col_to_add)], rfl, ?_⟩
        intro w hw
        rw [List.mem_singleton.mp hw]
        exact ⟨i2, hlt⟩

theorem scroll_down_inv (k : MonitorConsts) (m : Monitor) (h : monitor_inv k m) :
    monitor_inv k (scroll_down k m) ∧ (scroll_down k m).stores = m.stores := by
  unfold scroll_down
  dsimp only
  split
  · exact ⟨⟨h.1, h.2.1, next_row_lt _, h.2.2.2⟩, rfl⟩
  · exact ⟨h, rfl⟩

theorem scroll_up_inv (k : MonitorConsts) (m : Monitor) (h : monitor_inv k m) :
    monitor_inv k (scroll_up k m) ∧ (scroll_up k m).stores = m.stores := by
  unfold scroll_up
  dsimp only
  split
  · exact ⟨⟨h.1, h.2.1, prev_row_lt _, h.2.2.2⟩, rfl⟩
  · exact ⟨h, rfl⟩

theorem jump_display_to_buffer_end_inv (k : MonitorConsts) (m : Monitor)
    (h : monitor_inv k m) :
    monitor_inv k (jump_display_to_buffer_end k m) ∧
      (jump_display_to_buffer_end k m).stores = m.stores :=
  ⟨⟨h.1, h.2.1, sub_rows_lt _ _, h.2.2.2⟩, rfl⟩

theorem monitor_step_inside (k : MonitorConsts) (fuel : Nat) (h1 : 1 ≤ k.COLS)
    (hC : k.COLS ≤ 255) (hfuel : k.COLS < fuel) (m : Monitor) (op : MonitorOp)
    (h : monitor_inv k m) :
    ∃ m1, monitor_step k fuel m op = some m1 ∧ monitor_inv k m1 ∧ stores_inside k m m1 := by
  cases op with
  | add_char c => exact add_char_to_buffer_inside k fuel h1 hC hfuel m c h
  | up => exact ⟨_, rfl, (scroll_up_inv k m h).1, stores_inside_of_eq k _ _ (scroll_up_inv k m h).2⟩
  | down =>
    exact ⟨_, rfl, (scroll_down_inv k m h).1, stores_inside_of_eq k _ _ (scroll_down_inv k m h).2⟩
  | jump =>
    exact ⟨_, rfl, (jump_display_to_buffer_end_inv k m h).1,
      stores_inside_of_eq k _ _ (jump_display_to_buffer_end_inv k m h).2⟩
  | flush => exact flush_buffer_inside k fuel hC hfuel m

theorem monitor_steps_inside (k : MonitorConsts) (fuel : Nat) (h1 : 1 ≤ k.COLS)
    (hC : k.COLS ≤ 255) (hfuel : k.COLS < fuel) (ops : List MonitorOp) (m : Monitor)
    (h : monitor_inv k m) :
    ∃ m1, monitor_steps k fuel ops m = some m1 ∧ monitor_inv k m1 ∧ stores_inside k m m1 := by
  induction ops generalizing m with
  | nil => exact ⟨m, rfl, h, stores_inside_refl k m⟩
  | cons op ops ih =>
    obtain ⟨m1, e1, hinv, hs⟩ := monitor_step_inside k fuel h1 hC hfuel m op h
    obtain ⟨m2, e2, hinv2, hs2⟩ := ih m1 hinv
    refine ⟨m2, ?_, hinv2, stores_inside_trans hs hs2⟩
    show (match monitor_step k fuel m op with
      | none => none
      | some m => monitor_steps k fuel ops m) = some m2
    rw [e1]
    exact e2

/-- With too little fuel for one row the loop of `flush_row` does not end. -/
theorem flush_row_loop_short (k : MonitorConsts) (row : Nat) (hC : k.COLS ≤ 255)
    (fuel i : Nat) (m : Monitor) (hi : i ≤ k.COLS) (hfuel : fuel ≤ k.COLS - i) :
    flush_row_loop k row fuel i m = none := by
  induction fuel generalizing i m with
  | zero => rfl
  | succ fuel ih =>
    rw [flush_row_loop_succ, if_pos (by omega)]
    have e : (i + 1) % 256 = i + 1 := Nat.mod_eq_of_lt (by omega)
    rw [e]
    exact ih _ _ (by omega) (by omega)

/-- When `flush_row` does not return, neither does `flush_buffer`, and there is no
state after it. -/
theorem monitor_run_stuck (k : MonitorConsts) (fuel : Nat) (m : Monitor)
    (ops : List MonitorOp)
    (h : ∀ row m0, flush_row_loop k row fuel 0 m0 = none) :
    monitor_run k fuel m ops = none := by
  have e : flush_buffer_loop k fuel ROWS (disable_usart_rx_interrupt k m) = none := by
    show flush_buffer_loop k fuel (15 + 1) _ = none
    rw [flush_buffer_loop_succ]
    unfold flush_row
    rw [h]
  unfold monitor_run flush_buffer
  dsimp only
  rw [e]

/-- C29: for every `COLS ≥ 1` and every `DISPLAY_ROWS`, in every state that
`flush_buffer` followed by a finite sequence of `add_char_to_buffer`, `scroll_up`,
`scroll_down`, `jump_display_to_buffer_end` and `flush_buffer` produces,
`buffer_start_row`, `buffer_end_row` and `first_displayed_row` are below 16,
`col_to_add ≤ COLS` and `1 ≤ used_rows ≤ 16`, and every assignment to
`monitor.buffer` made on the way has its row index below 16 and its column index
below `COLS`.  Such a state is produced whenever `COLS ≤ 255`, with more than
`COLS` units of fuel for each loop of `flush_row`; for `COLS ≥ 256`, beyond the
range of the `uint8_t` counter of `flush_row`, none is. -/
theorem C29_monitor_invariant (k : MonitorConsts) (fuel : Nat) (m : Monitor)
    (ops : List MonitorOp) (h1 : 1 ≤ k.COLS) :
    (∀ m1, monitor_run k fuel m ops = some m1 →
      m1.buffer_start_row < 16 ∧ m1.buffer_end_row < 16 ∧ m1.first_displayed_row < 16 ∧
      m1.col_to_add ≤ k.COLS ∧ 1 ≤ m1.used_rows ∧ m1.used_rows ≤ 16 ∧
      ∃ x : List (Nat × Nat), m1.stores = m.stores ++ x ∧
        ∀ w, w ∈ x → w.1 < ROWS ∧ w.2 < k.COLS) ∧
    (k.COLS ≤ 255 → k.COLS < fuel → ∃ m1, monitor_run k fuel m ops = some m1) ∧
    (256 ≤ k.COLS → monitor_run k fuel m ops = none) := by
  have total : k.COLS ≤ 255 → k.COLS < fuel →
      ∃ m1, monitor_run k fuel m ops = some m1 ∧ monitor_inv k m1 ∧ stores_inside k m m1 := by
    intro hC hfuel
    obtain ⟨m0, e0, hinv0, hs0⟩ := flush_buffer_inside k fuel hC hfuel m
    obtain ⟨m1, e1, hinv1, hs1⟩ := monitor_steps_inside k fuel h1 hC hfuel ops m0 hinv0
    refine ⟨m1, ?_, hinv1, stores_inside_trans hs0 hs1⟩
    unfold monitor_run
    rw [e0]
    exact e1
  have wraps : 256 ≤ k.COLS → monitor_run k fuel m ops = none := fun hC =>
    monitor_run_stuck k fuel m ops
      (fun row m0 => flush_row_loop_wraps k row hC fuel 0 m0 (by decide))
  refine ⟨?_, ?_, wraps⟩
  · intro m1 hrun
    by_cases hC : k.COLS ≤ 255
    · by_cases hfuel : k.COLS < fuel
      · obtain ⟨m2, e2, ⟨i1, i2, i3, i4, i5, i6⟩, hs⟩ := total hC hfuel
        rw [e2] at hrun
        cases hrun
        exact ⟨i1, i2, i3, i4, i5, i6, hs⟩
      · rw [monitor_run_stuck k fuel m ops
          (fun row m0 => flush_row_loop_short k row hC fuel 0 m0 (Nat.zero_le _)
            (by omega))] at hrun
        cases hrun
    · rw [wraps (by omega)] at hrun
      cases hrun
  · intro hC hfuel
    obtain ⟨m1, e1, _⟩ := total hC hfuel
    exact ⟨m1, e1⟩

/-- Witness of C29 on a 16-column, 2-row display: two lines of text, scrolling, a
jump and a flush. -/
theorem C29_monitor_invariant_witness :
    ∃ m1, monitor_run (MonitorConsts.mk 16 2 7) 17 monitor_zero
        [MonitorOp.add_char 65, MonitorOp.add_char 10, MonitorOp.add_char 66, MonitorOp.down,
          MonitorOp.up, MonitorOp.jump, MonitorOp.flush, MonitorOp.add_char 67] = some m1 ∧
      m1.buffer_start_row < 16 ∧ m1.buffer_end_row < 16 ∧ m1.first_displayed_row < 16 ∧
      m1.col_to_add ≤ (MonitorConsts.mk 16 2 7).COLS ∧ 1 ≤ m1.used_rows ∧ m1.used_rows ≤ 16 ∧
      ∃ x : List (Nat × Nat), m1.stores = monitor_zero.stores ++ x ∧
        ∀ w, w ∈ x → w.1 < ROWS ∧ w.2 < (MonitorConsts.mk 16 2 7).COLS := by
  obtain ⟨m1, h⟩ := (C29_monitor_invariant (MonitorConsts.mk 16 2 7) 17 monitor_zero
    [MonitorOp.add_char 65, MonitorOp.add_char 10, MonitorOp.add_char 66, MonitorOp.down,
      MonitorOp.up, MonitorOp.jump, MonitorOp.flush, MonitorOp.add_char 67]
    (by decide)).2.1 (by decide) (by decide)
  exact ⟨m1, h, (C29_monitor_invariant (MonitorConsts.mk 16 2 7) 17 monitor_zero
    [MonitorOp.add_char 65, MonitorOp.add_char 10, MonitorOp.add_char 66, MonitorOp.down,
      MonitorOp.up, MonitorOp.jump, MonitorOp.flush, MonitorOp.add_char 67]
    (by decide)).1 m1 h⟩

end SdCard
